import Mathlib

/-!
# GamePlay: Direct3D graphics device, frame lifecycle; serializer contract

A shallow embedding of `gameplay/src/GraphicsDirect3D.cpp`, followed by a model
of the serializer and its activator declared in `gameplay/src/Serializer.h`.

The class `GraphicsDirect3D` becomes a record of its members, and each member
function becomes a program `Prog α` that threads the record together with a
`World`: the state of everything outside the class (the swapchain's current
back-buffer index, the GPU's pending work, the fence) plus the list of external
calls issued so far.  What the backend answers is fixed by an `Env`: whether the
call issued at a given position fails, how far the GPU got, which index the
swapchain selects.  Every property below holds for an arbitrary `Env` unless it
says otherwise.

Conventions.
* A member function either returns, aborts the process, or blocks forever in an
  infinite wait (`Outcome`).
* `assert` is enabled: `D3D_CHECK_RESULT` on a failed `HRESULT` aborts.
  `GP_ERROR` ends in `std::exit(-1)` and aborts too.
* Resource pointers are `Option Nat`: `none` is `nullptr`, `some t` is the
  resource created by the call at position `t`.
* The member declarations live in `GraphicsDirect3D.h`; dimensions are `Int` as
  in the signatures of `resize`, `getWidth` and `getHeight`, descriptor
  addresses are natural numbers.
* Fence values are `uint64_t` (line 235): natural numbers below `2 ^ 64`, and
  the two increments of the code (lines 248 and 296) wrap around (`uint64_t`).
-/

namespace gameplay

/-- Number of back buffers, `Base.h` line 136. -/
def GP_GRAPHICS_BACK_BUFFERS : Nat := 2

/-- The largest value of `uint64_t`, the type of the fence values. -/
def UINT64_MAX : Nat := 2 ^ 64 - 1

/-- The value of the natural number `x` as a `uint64_t`: unsigned 64-bit
arithmetic wraps around. -/
def uint64_t (x : Nat) : Nat := x % 2 ^ 64

/-- Result code of a backend call. -/
inductive HRESULT where
  | S_OK
  | E_FAIL
  | DXGI_ERROR_NOT_FOUND
deriving DecidableEq, Repr

/-- The `FAILED` test on a result code. -/
def FAILED : HRESULT → Bool
  | .S_OK => false
  | _ => true

/-- The `SUCCEEDED` test on a result code. -/
def SUCCEEDED (hr : HRESULT) : Bool := !FAILED hr

/-- Resource states named by the transition barriers of `buildCommands`. -/
inductive ResourceState where
  | PRESENT
  | RENDER_TARGET
deriving DecidableEq, Repr

/-- External calls made by the device, with the arguments the code passes. -/
inductive Call where
  | getConfig
  | D3D12GetDebugInterface
  | EnableDebugLayer
  | CreateDXGIFactory2 (flags : Nat)
  | EnumAdapters1 (adapterIndex : Nat)
  | GetDesc1 (adapterIndex : Nat)
  | D3D12CreateDeviceProbe (adapterIndex : Nat)
  | D3D12CreateDevice (adapter : Option Nat)
  | CreateCommandQueue
  | EnumAdapters (index : Nat)
  | EnumOutputs (index : Nat)
  | GetDisplayModeCount
  | GetDisplayModeList (count : Nat)
  | Release (resource : Nat)
  | CreateSwapChainForHwnd (hwnd : Nat) (bufferCount : Nat) (width height : Int) (sampleCount : Nat)
  | QueryInterface
  | GetCurrentBackBufferIndex
  | CreateDescriptorHeap (numDescriptors : Nat)
  | CreateCommandAllocator
  | CreateCommandList (allocator : Option Nat)
  | Close
  | CreateFence (initialValue : Nat)
  | CreateEventEx
  | GetDescriptorHandleIncrementSize
  | GetCPUDescriptorHandleForHeapStart
  | GetBuffer (buffer : Nat)
  | CreateRenderTargetView (resource : Option Nat) (handle : Nat)
  | Signal (value : Nat)
  | SetEventOnCompletion (value : Nat)
  | WaitForSingleObject
  | WaitForSingleObjectEx
  | GetCompletedValue
  | GetDesc
  | ResizeBuffers (bufferCount : Nat) (width height : Int)
  | ResetAllocator (allocator : Option Nat)
  | ResetCommandList (allocator : Option Nat)
  | ResourceBarrier (resource : Option Nat) (before after : ResourceState)
  | OMSetRenderTargets (handle : Nat)
  | ClearRenderTargetView (handle : Nat) (r g b a : Nat)
  | ExecuteCommandLists (count : Nat)
  | Present (syncInterval : Nat)
  | SetFullscreenState (fullscreen : Bool)
deriving DecidableEq, Repr

/-- One entry of the call log: the call, and the value `_prepared` had when it
was issued. -/
structure Event where
  call : Call
  prepared : Bool
deriving DecidableEq, Repr

/-- Work submitted to the command queue and not yet retired by the GPU. -/
inductive GpuOp where
  | execute
  | signal (value : Nat)
deriving DecidableEq, Repr

/-- The fields of `Game::Config` read by the device (`Game.h` lines 351-356). -/
structure Config where
  width : Int
  height : Int
  fullscreen : Bool
  vsync : Bool
  multisampling : Nat
  validation : Bool
deriving DecidableEq, Repr

/-- The two fields of `DXGI_MODE_DESC` the code looks at. -/
structure DisplayMode where
  Width : Int
  Height : Int
deriving DecidableEq, Repr

/-- An enumerated adapter: its software flag and whether the feature-level 11.0
device-creation probe succeeds on it. -/
structure Adapter where
  software : Bool
  probeSucceeds : Bool
deriving DecidableEq, Repr

/-- Everything the surroundings decide.  Positions count the external calls
issued so far. -/
structure Env where
  /-- whether `_DEBUG` is defined -/
  debugBuild : Bool
  config : Config
  adapters : List Adapter
  displayModes : List DisplayMode
  heapStart : Nat
  descriptorSize : Nat
  /-- whether the fallible call issued at this position reports failure -/
  fails : Nat → Call → Bool
  /-- the index the swapchain selects when it is created, presented or resized
  by the call at this position, given its current index (taken modulo the
  buffer count) -/
  nextIndex : Nat → Call → Nat → Nat
  /-- how many queued operations the GPU retires just before the call at this
  position -/
  retire : Nat → Nat

/-- State outside the class. -/
structure World where
  trace : List Event
  /-- the swapchain's current back-buffer index -/
  swapIndex : Nat
  /-- operations submitted to the command queue, oldest first -/
  queue : List GpuOp
  /-- the fence's completed value -/
  completed : Nat

/-- The array `f` with slot `i` overwritten by `v`. -/
def store {α : Type} (f : Nat → α) (i : Nat) (v : α) : Nat → α :=
  fun j => if j = i then v else f j

/-- Members of `GraphicsDirect3D`. -/
structure GraphicsDirect3D where
  _initialized : Bool
  _prepared : Bool
  _width : Int
  _height : Int
  _fullscreen : Bool
  _vsync : Bool
  _multisampling : Nat
  _validation : Bool
  _hwnd : Nat
  _displayMode : Nat
  _displayModes : List DisplayMode
  _device : Option Nat
  _commandQueue : Option Nat
  _swapchain : Option Nat
  _backBufferIndex : Nat
  _renderTargetViewHeap : Option Nat
  _renderTargetViewHandle : Nat
  _renderTargets : Nat → Option Nat
  _commandAllocators : Nat → Option Nat
  _commandList : Option Nat
  _fence : Option Nat
  _fenceEvent : Option Nat
  _fenceValues : Nat → Nat

/-- Values of the members the constructor's initializer list does not mention. -/
structure Indeterminate where
  validation : Bool
  renderTargetViewHandle : Nat
  renderTargets : Nat → Option Nat
  commandAllocators : Nat → Option Nat
  fenceEvent : Option Nat
  fenceValues : Nat → Nat

/-- The constructor, lines 27-45. -/
def GraphicsDirect3D.new (u : Indeterminate) : GraphicsDirect3D where
  _initialized := false
  _prepared := false
  _width := 0
  _height := 0
  _fullscreen := false
  _vsync := false
  _multisampling := 0
  _validation := u.validation
  _hwnd := 0
  _displayMode := 0
  _displayModes := []
  _device := none
  _commandQueue := none
  _swapchain := none
  _backBufferIndex := 0
  _renderTargetViewHeap := none
  _renderTargetViewHandle := u.renderTargetViewHandle
  _renderTargets := u.renderTargets
  _commandAllocators := u.commandAllocators
  _commandList := none
  _fence := none
  _fenceEvent := u.fenceEvent
  _fenceValues := u.fenceValues

/-- The world before anything was called. -/
def World.start : World where
  trace := []
  swapIndex := 0
  queue := []
  completed := 0

/-- How a member function ends. -/
inductive Outcome (α : Type) where
  | returned (a : α) (s : GraphicsDirect3D) (w : World)
  | aborted (s : GraphicsDirect3D) (w : World)
  | blocked (s : GraphicsDirect3D) (w : World)

/-- A member function body. -/
def Prog (α : Type) : Type := GraphicsDirect3D → World → Outcome α

/-- Sequencing: the continuation runs only when the first part returns. -/
def Prog.bind {α β : Type} (x : Prog α) (f : α → Prog β) : Prog β :=
  fun s w =>
    match x s w with
    | .returned a s1 w1 => f a s1 w1
    | .aborted s1 w1 => .aborted s1 w1
    | .blocked s1 w1 => .blocked s1 w1

instance : Monad Prog where
  pure a := fun s w => .returned a s w
  bind := Prog.bind

/-- Read the members. -/
def self : Prog GraphicsDirect3D := fun s w => .returned s s w

/-- Write members. -/
def assign (f : GraphicsDirect3D → GraphicsDirect3D) : Prog Unit :=
  fun s w => .returned () (f s) w

/-- Read the outside state. -/
def world : Prog World := fun s w => .returned w s w

/-- Change the outside state. -/
def affect (f : World → World) : Prog Unit := fun s w => .returned () s (f w)

/-- The process is terminated. -/
def abort {α : Type} : Prog α := fun s w => .aborted s w

/-- The GPU retires the oldest queued operation. -/
def retireOps : Nat → List GpuOp → Nat → List GpuOp × Nat
  | 0, q, c => (q, c)
  | _ + 1, [], c => ([], c)
  | n + 1, .execute :: q, c => retireOps n q c
  | n + 1, .signal v :: q, _ => retireOps n q v

/-- The GPU works until the fence has reached `v`; `none` when the queue runs
dry first, so that the waiter is never woken. -/
def runUntil (v : Nat) : List GpuOp → Nat → Option (List GpuOp × Nat)
  | [], c => if v ≤ c then some ([], c) else none
  | .execute :: q, c => if v ≤ c then some (.execute :: q, c) else runUntil v q c
  | .signal x :: q, c => if v ≤ c then some (.signal x :: q, c) else runUntil v q x

/-- The GPU retires up to `n` queued operations. -/
def World.advance (w : World) (n : Nat) : World :=
  { w with queue := (retireOps n w.queue w.completed).1,
           completed := (retireOps n w.queue w.completed).2 }

/-- Append an entry to the call log. -/
def World.log (w : World) (ev : Event) : World :=
  { w with trace := w.trace ++ [ev] }

/-- Submit an operation to the command queue. -/
def World.submit (w : World) (op : GpuOp) : World :=
  { w with queue := w.queue ++ [op] }

/-- The swapchain makes buffer `i` its current back buffer. -/
def World.select (w : World) (i : Nat) : World :=
  { w with swapIndex := i }

/-- A fence is created with completed value `v`. -/
def World.newFence (w : World) (v : Nat) : World :=
  { w with completed := v }

/-- Issue an external call: the GPU advances, the call is logged; the result is
the call's position. -/
def issue (e : Env) (c : Call) : Prog Nat :=
  fun s w =>
    .returned w.trace.length s ((w.advance (e.retire w.trace.length)).log ⟨c, s._prepared⟩)

/-- The result code of the fallible call `c` issued at position `t`. -/
def Env.hresult (e : Env) (t : Nat) (c : Call) : HRESULT :=
  if e.fails t c then .E_FAIL else .S_OK

/-- A fallible call with no modelled effect. -/
def fallible (e : Env) (c : Call) : Prog HRESULT := do
  let t ← issue e c
  pure (e.hresult t c)

/-- A call creating a resource through an out-parameter: the result code and
the pointer written. -/
def create (e : Env) (c : Call) : Prog (HRESULT × Option Nat) := do
  let t ← issue e c
  pure (e.hresult t c, if e.fails t c then none else some t)

/-- The macro `D3D_CHECK_RESULT`, lines 17-25, with `assert` enabled. -/
def D3D_CHECK_RESULT (hr : HRESULT) : Prog Unit :=
  if FAILED hr then abort else pure ()

/-- The macro `GP_ERROR`, `Base.h` lines 64-72. -/
def GP_ERROR : Prog Unit := abort

/-- The statement `if (c) body;`. -/
def onlyIf (c : Bool) (body : Prog Unit) : Prog Unit :=
  if c then body else pure ()

/-- The macro `SAFE_RELEASE`, lines 10-15: `x` is the pointer's value and
`clear` the assignment `x = nullptr`. -/
def SAFE_RELEASE (e : Env) (x : Option Nat) (clear : GraphicsDirect3D → GraphicsDirect3D) :
    Prog Unit :=
  match x with
  | some r => do
    let _ ← issue e (.Release r)
    assign clear
  | none => pure ()

/-- The call `swapchain->GetCurrentBackBufferIndex()`. -/
def GetCurrentBackBufferIndex (e : Env) : Prog Nat := do
  let _ ← issue e .GetCurrentBackBufferIndex
  let w ← world
  pure w.swapIndex

/-- The call `commandQueue->Signal(fence, value)`. -/
def Signal (e : Env) (value : Nat) : Prog HRESULT := do
  let t ← issue e (.Signal value)
  if e.fails t (.Signal value) then pure .E_FAIL
  else do
    affect fun w => w.submit (.signal value)
    pure .S_OK

/-- The call `fence->SetEventOnCompletion(value, fenceEvent)`. -/
def SetEventOnCompletion (e : Env) (value : Nat) : Prog HRESULT :=
  fallible e (.SetEventOnCompletion value)

/-- The calling thread sleeps until the fence has reached `value`; it never
wakes when the queued work does not take the fence that far. -/
def blockUntil (value : Nat) : Prog Unit :=
  fun s w =>
    match runUntil value w.queue w.completed with
    | some r => .returned () s { w with queue := r.1, completed := r.2 }
    | none => .blocked s w

/-- Wait with an infinite timeout on the event armed for `value`. -/
def waitOn (e : Env) (c : Call) (value : Nat) : Prog Unit := do
  let _ ← issue e c
  blockUntil value

/-- The call `fence->GetCompletedValue()`. -/
def GetCompletedValue (e : Env) : Prog Nat := do
  let _ ← issue e .GetCompletedValue
  let w ← world
  pure w.completed

/-- The call `commandQueue->ExecuteCommandLists`. -/
def ExecuteCommandLists (e : Env) (count : Nat) : Prog Unit := do
  let _ ← issue e (.ExecuteCommandLists count)
  affect fun w => w.submit .execute

/-- A call after which the swapchain selects its current buffer anew. -/
def reindexing (e : Env) (c : Call) : Prog HRESULT := do
  let t ← issue e c
  if e.fails t c then pure .E_FAIL
  else do
    affect fun w => w.select (e.nextIndex t c w.swapIndex % GP_GRAPHICS_BACK_BUFFERS)
    pure .S_OK

/-- The call `swapchain->Present(syncInterval, 0)`. -/
def Present (e : Env) (syncInterval : Nat) : Prog HRESULT :=
  reindexing e (.Present syncInterval)

/-- The call `swapchain->ResizeBuffers`. -/
def ResizeBuffers (e : Env) (bufferCount : Nat) (width height : Int) : Prog HRESULT :=
  reindexing e (.ResizeBuffers bufferCount width height)

/-- A counted loop `for (i = start; i < start + n; i++)` whose body may update
a local variable of type `σ`. -/
def forLoop {σ : Type} (body : Nat → σ → Prog σ) : Nat → Nat → σ → Prog σ
  | _, 0, x => pure x
  | i, n + 1, x => do
    let y ← body i x
    forLoop body (i + 1) n y

/-- The call `device->GetDescriptorHandleIncrementSize`. -/
def GetDescriptorHandleIncrementSize (e : Env) : Prog Nat := do
  let _ ← issue e .GetDescriptorHandleIncrementSize
  pure e.descriptorSize

/-- The call `renderTargetViewHeap->GetCPUDescriptorHandleForHeapStart`. -/
def GetCPUDescriptorHandleForHeapStart (e : Env) : Prog Nat := do
  let _ ← issue e .GetCPUDescriptorHandleForHeapStart
  pure e.heapStart

/-- The call `factory->CreateSwapChainForHwnd`: a new swapchain selects its
current buffer. -/
def CreateSwapChainForHwnd (e : Env) (hwnd bufferCount : Nat) (width height : Int)
    (sampleCount : Nat) : Prog (HRESULT × Option Nat) := do
  let c := Call.CreateSwapChainForHwnd hwnd bufferCount width height sampleCount
  let t ← issue e c
  if e.fails t c then pure (.E_FAIL, none)
  else do
    affect fun w => w.select (e.nextIndex t c w.swapIndex % GP_GRAPHICS_BACK_BUFFERS)
    pure (.S_OK, some t)

/-- The call `device->CreateFence(initialValue, ...)`: a new fence starts at
its initial value. -/
def CreateFence (e : Env) (initialValue : Nat) : Prog (HRESULT × Option Nat) := do
  let t ← issue e (.CreateFence initialValue)
  if e.fails t (.CreateFence initialValue) then pure (.E_FAIL, none)
  else do
    affect fun w => w.newFence initialValue
    pure (.S_OK, some t)

/-- The member function `waitForGpu`, lines 291-297. -/
def waitForGpu (e : Env) : Prog Unit := do
  let s ← self
  D3D_CHECK_RESULT (← Signal e (s._fenceValues s._backBufferIndex))
  D3D_CHECK_RESULT (← SetEventOnCompletion e (s._fenceValues s._backBufferIndex))
  waitOn e .WaitForSingleObjectEx (s._fenceValues s._backBufferIndex)
  assign fun s =>
    { s with _fenceValues :=
        store s._fenceValues s._backBufferIndex (uint64_t (s._fenceValues s._backBufferIndex + 1)) }

/-- The member function `createRenderTargets`, lines 277-288. -/
def createRenderTargets (e : Env) : Prog Unit := do
  let renderTargetDescriptorSize ← GetDescriptorHandleIncrementSize e
  let renderTargetViewHandle ← GetCPUDescriptorHandleForHeapStart e
  let _ ← forLoop (fun i renderTargetViewHandle => do
      let (hr, p) ← create e (.GetBuffer i)
      assign fun s => { s with _renderTargets := store s._renderTargets i p }
      D3D_CHECK_RESULT hr
      let s ← self
      let _ ← issue e (.CreateRenderTargetView (s._renderTargets i) renderTargetViewHandle)
      pure (renderTargetViewHandle + renderTargetDescriptorSize))
    0 GP_GRAPHICS_BACK_BUFFERS renderTargetViewHandle
  let idx ← GetCurrentBackBufferIndex e
  assign fun s => { s with _backBufferIndex := idx }

/-- The member function `buildCommands`, lines 299-340. -/
def buildCommands (e : Env) : Prog Unit := do
  let s ← self
  D3D_CHECK_RESULT (← fallible e (.ResetAllocator (s._commandAllocators s._backBufferIndex)))
  if FAILED (← fallible e (.ResetCommandList (s._commandAllocators s._backBufferIndex))) then
    return
  let pResource := s._renderTargets s._backBufferIndex
  let _ ← issue e (.ResourceBarrier pResource .PRESENT .RENDER_TARGET)
  let renderTargetDescriptorSize ← GetDescriptorHandleIncrementSize e
  let idx ← GetCurrentBackBufferIndex e
  assign fun s => { s with _backBufferIndex := idx }
  (if idx = 0 then do
    let h ← GetCPUDescriptorHandleForHeapStart e
    assign fun s => { s with _renderTargetViewHandle := h }
  else
    assign fun s =>
      { s with _renderTargetViewHandle := s._renderTargetViewHandle + renderTargetDescriptorSize })
  let s ← self
  let _ ← issue e (.OMSetRenderTargets s._renderTargetViewHandle)
  let _ ← issue e (.ClearRenderTargetView s._renderTargetViewHandle 0 0 0 1)
  let _ ← issue e (.ResourceBarrier pResource .RENDER_TARGET .PRESENT)
  D3D_CHECK_RESULT (← fallible e .Close)
  waitForGpu e

/-- The member function `render`, lines 217-249. -/
def render (e : Env) (_elapsedTime : ℚ) : Prog Unit := do
  let s ← self
  if !s._prepared then
    return
  buildCommands e
  ExecuteCommandLists e 1
  let s ← self
  if FAILED (← Present e (if s._vsync then 1 else 0)) then
    return
  let s ← self
  let fenceToWaitFor := s._fenceValues s._backBufferIndex
  if FAILED (← Signal e fenceToWaitFor) then
    return
  let idx ← GetCurrentBackBufferIndex e
  assign fun s => { s with _backBufferIndex := idx }
  let s ← self
  if (← GetCompletedValue e) < s._fenceValues s._backBufferIndex then
    if FAILED (← SetEventOnCompletion e (s._fenceValues s._backBufferIndex)) then
      return
    waitOn e .WaitForSingleObject (s._fenceValues s._backBufferIndex)
  assign fun s =>
    { s with _fenceValues := store s._fenceValues s._backBufferIndex (uint64_t (fenceToWaitFor + 1)) }

/-- The member function `resize`, lines 184-215. -/
def resize (e : Env) (width height : Int) : Prog Unit := do
  let s ← self
  if !s._prepared || (width == s._width && height == s._height) then
    return
  waitForGpu e
  assign fun s => { s with _prepared := false }
  forLoop (fun i _ => do
      let s ← self
      SAFE_RELEASE e (s._renderTargets i)
        (fun s => { s with _renderTargets := store s._renderTargets i none })
      assign fun s =>
        { s with _fenceValues := store s._fenceValues i (s._fenceValues s._backBufferIndex) })
    0 GP_GRAPHICS_BACK_BUFFERS ()
  let _ ← issue e .GetDesc
  D3D_CHECK_RESULT (← ResizeBuffers e GP_GRAPHICS_BACK_BUFFERS width height)
  let idx ← GetCurrentBackBufferIndex e
  assign fun s => { s with _backBufferIndex := idx }
  createRenderTargets e
  assign fun s => { s with _width := width }
  assign fun s => { s with _height := height }
  assign fun s => { s with _prepared := true }

/-- The loop of `getHardwareAdapter`, lines 265-274, over the adapters not yet
enumerated; `EnumAdapters1` answers `DXGI_ERROR_NOT_FOUND` past the last one. -/
def getHardwareAdapterLoop (e : Env) : List Adapter → Nat → Prog Unit
  | [], adapterIndex => do
    let _ ← issue e (.EnumAdapters1 adapterIndex)
    pure ()
  | a :: rest, adapterIndex => do
    let _ ← issue e (.EnumAdapters1 adapterIndex)
    let _ ← issue e (.GetDesc1 adapterIndex)
    if a.software then
      getHardwareAdapterLoop e rest (adapterIndex + 1)
    else do
      let _ ← issue e (.D3D12CreateDeviceProbe adapterIndex)
      if a.probeSucceeds then
        pure ()
      else
        getHardwareAdapterLoop e rest (adapterIndex + 1)

/-- The member function `getHardwareAdapter`, lines 261-275; the result is the
value left in `*ppAdapter`. -/
def getHardwareAdapter (e : Env) : Prog (Option Nat) := do
  let ppAdapter : Option Nat := none
  getHardwareAdapterLoop e e.adapters 0
  pure ppAdapter

/-- The search loop of lines 128-137: the first index `i` at or after `start`
whose mode has the given height and width. -/
def findDisplayMode (width height : Int) : List DisplayMode → Nat → Option Nat
  | [], _ => none
  | m :: rest, i =>
    if m.Height = height ∧ m.Width = width then some i
    else findDisplayMode width height rest (i + 1)

/-- Lines 127-137 of `initialize`: when a mode has the configured size, take
over its width and height and remember its index. -/
def matchDisplayMode : Prog Unit := do
  let s ← self
  match findDisplayMode s._width s._height s._displayModes 0 with
  | some i =>
    assign fun s => { s with _width := (s._displayModes.getD i ⟨0, 0⟩).Width }
    assign fun s => { s with _height := (s._displayModes.getD i ⟨0, 0⟩).Height }
    assign fun s => { s with _displayMode := i }
  | none => pure ()

/-- The flag `DXGI_CREATE_FACTORY_DEBUG`. -/
def DXGI_CREATE_FACTORY_DEBUG : Nat := 1

/-- Lines 68-89 of `initialize`: store the window handle, read the game
configuration, and enable the debug layer when asked to in a debug build; the
result is `dxgiFactoryFlags`. -/
def readConfigAndValidation (e : Env) (window : Nat) : Prog Nat := do
  assign fun s => { s with _hwnd := window }
  -- Get the game config
  let _ ← issue e .getConfig
  let config := e.config
  assign fun s => { s with _width := config.width }
  assign fun s => { s with _height := config.height }
  assign fun s => { s with _fullscreen := config.fullscreen }
  assign fun s => { s with _vsync := config.vsync }
  assign fun s => { s with _multisampling := config.multisampling }
  assign fun s => { s with _validation := config.validation }
  -- Graphics validation
  let s ← self
  if e.debugBuild && s._validation then do
    let hr ← fallible e .D3D12GetDebugInterface
    onlyIf (SUCCEEDED hr) (do let _ ← issue e .EnableDebugLayer)
    pure (0 ||| DXGI_CREATE_FACTORY_DEBUG)
  else
    pure 0

/-- Lines 91-109 of `initialize`: create the factory, the device and the
command queue; the result is the local `factory`. -/
def createFactoryDeviceQueue (e : Env) (dxgiFactoryFlags : Nat) : Prog (Option Nat) := do
  -- Create the graphics interface factory
  let (hr, factory) ← create e (.CreateDXGIFactory2 dxgiFactoryFlags)
  onlyIf (FAILED hr) GP_ERROR
  -- Create the device
  let hardwareAdapter ← getHardwareAdapter e
  let (hr, device) ← create e (.D3D12CreateDevice hardwareAdapter)
  assign fun s => { s with _device := device }
  onlyIf (FAILED hr) GP_ERROR
  -- Create command queue
  let (hr, commandQueue) ← create e .CreateCommandQueue
  assign fun s => { s with _commandQueue := commandQueue }
  D3D_CHECK_RESULT hr
  pure factory

/-- Lines 111-139 of `initialize`: enumerate the display modes of the first
output of the first adapter and look for the configured size. -/
def pickDisplayMode (e : Env) : Prog Unit := do
  -- Pick the first adapter and output
  let (hr, adapter) ← create e (.EnumAdapters 0)
  D3D_CHECK_RESULT hr
  let (hr, output) ← create e (.EnumOutputs 0)
  D3D_CHECK_RESULT hr
  -- Get the number of display modes
  let hr ← fallible e .GetDisplayModeCount
  let displayModeCount := e.displayModes.length
  onlyIf (FAILED hr || displayModeCount < 1) GP_ERROR
  -- Get the display modes
  let hr ← fallible e (.GetDisplayModeList displayModeCount)
  assign fun s => { s with _displayModes := e.displayModes }
  onlyIf (FAILED hr) GP_ERROR
  -- Find a display mode that matches our config
  matchDisplayMode
  SAFE_RELEASE e output id
  SAFE_RELEASE e adapter id

/-- Lines 141-154 of `initialize`: create the swapchain and release the
factory. -/
def createSwapchain (e : Env) (factory : Option Nat) : Prog Unit := do
  let s ← self
  let (hr, _swapchain1) ← CreateSwapChainForHwnd e s._hwnd GP_GRAPHICS_BACK_BUFFERS
    s._width s._height (1 + s._multisampling)
  D3D_CHECK_RESULT hr
  let (hr, swapchain) ← create e .QueryInterface
  assign fun s => { s with _swapchain := swapchain }
  D3D_CHECK_RESULT hr
  SAFE_RELEASE e factory id

/-- Lines 156-174 of `initialize`: the descriptor heap, one command allocator
per back buffer, the command list and the render targets. -/
def createFrameResources (e : Env) : Prog Unit := do
  -- Create a render target description heap for the back buffers
  let idx ← GetCurrentBackBufferIndex e
  assign fun s => { s with _backBufferIndex := idx }
  let (hr, heap) ← create e (.CreateDescriptorHeap GP_GRAPHICS_BACK_BUFFERS)
  assign fun s => { s with _renderTargetViewHeap := heap }
  D3D_CHECK_RESULT hr
  -- Create a command allocators
  forLoop (fun i _ => do
      let (hr, p) ← create e .CreateCommandAllocator
      assign fun s => { s with _commandAllocators := store s._commandAllocators i p }
      D3D_CHECK_RESULT hr)
    0 GP_GRAPHICS_BACK_BUFFERS ()
  -- Create the command list
  let s ← self
  let (hr, commandList) ← create e (.CreateCommandList (s._commandAllocators s._backBufferIndex))
  assign fun s => { s with _commandList := commandList }
  D3D_CHECK_RESULT hr
  D3D_CHECK_RESULT (← fallible e .Close)
  -- Create the render targets
  createRenderTargets e

/-- Lines 176-178 of `initialize`: the fence and the event to wait on. -/
def createFenceAndEvent (e : Env) : Prog Unit := do
  -- Create a fence and event for synchronization.
  let (hr, fence) ← CreateFence e 0
  assign fun s => { s with _fence := fence }
  D3D_CHECK_RESULT hr
  let (_, fenceEvent) ← create e .CreateEventEx
  assign fun s => { s with _fenceEvent := fenceEvent }

/-- The member function `initialize`, lines 63-182, as the sequence of its
commented sections. -/
def initializeDevice (e : Env) (window _connection : Nat) : Prog Unit := do
  let s ← self
  if s._initialized then
    return
  let dxgiFactoryFlags ← readConfigAndValidation e window
  let factory ← createFactoryDeviceQueue e dxgiFactoryFlags
  pickDisplayMode e
  createSwapchain e factory
  createFrameResources e
  createFenceAndEvent e
  assign fun s => { s with _initialized := true }
  assign fun s => { s with _prepared := true }

/-- The destructor, lines 47-61. -/
def destroy (e : Env) : Prog Unit := do
  let s ← self
  onlyIf s._swapchain.isSome (do let _ ← issue e (.SetFullscreenState false))
  SAFE_RELEASE e s._fence (fun s => { s with _fence := none })
  SAFE_RELEASE e s._commandList (fun s => { s with _commandList := none })
  forLoop (fun i _ => do
      let s ← self
      SAFE_RELEASE e (s._commandAllocators i)
        (fun s => { s with _commandAllocators := store s._commandAllocators i none }))
    0 GP_GRAPHICS_BACK_BUFFERS ()
  forLoop (fun i _ => do
      let s ← self
      SAFE_RELEASE e (s._renderTargets i)
        (fun s => { s with _renderTargets := store s._renderTargets i none }))
    0 GP_GRAPHICS_BACK_BUFFERS ()
  SAFE_RELEASE e s._renderTargetViewHeap (fun s => { s with _renderTargetViewHeap := none })
  SAFE_RELEASE e s._swapchain (fun s => { s with _swapchain := none })
  SAFE_RELEASE e s._commandQueue (fun s => { s with _commandQueue := none })
  SAFE_RELEASE e s._device (fun s => { s with _device := none })

/-- The member function `isInitialized`, lines 251-254. -/
def isInitialized (s : GraphicsDirect3D) : Bool := s._initialized

/-- The member function `isPrepared`, lines 256-259. -/
def isPrepared (s : GraphicsDirect3D) : Bool := s._prepared

/-- The member function `getWidth`, lines 342-345. -/
def getWidth (s : GraphicsDirect3D) : Int := s._width

/-- The member function `getHeight`, lines 347-351. -/
def getHeight (s : GraphicsDirect3D) : Int := s._height

/-- The members an outcome ends with. -/
def Outcome.state {α : Type} : Outcome α → GraphicsDirect3D
  | .returned _ s _ => s
  | .aborted s _ => s
  | .blocked s _ => s

/-- The outside state an outcome ends with. -/
def Outcome.world {α : Type} : Outcome α → World
  | .returned _ _ w => w
  | .aborted _ w => w
  | .blocked _ w => w

/-- Whether the member function returned to its caller. -/
def Outcome.isReturned {α : Type} : Outcome α → Bool
  | .returned _ _ _ => true
  | _ => false

/-- Whether the process was aborted. -/
def Outcome.isAborted {α : Type} : Outcome α → Bool
  | .aborted _ _ => true
  | _ => false

/-- The calls of a log, without the flags. -/
def calls (l : List Event) : List Call := l.map Event.call

/-! ## Sample surroundings -/

/-- Members left zeroed by the allocator. -/
def zeroed : Indeterminate where
  validation := false
  renderTargetViewHandle := 0
  renderTargets := fun _ => none
  commandAllocators := fun _ => none
  fenceEvent := none
  fenceValues := fun _ => 0

/-- The default configuration of `Base.h` lines 130-135. -/
def defaultConfig : Config where
  width := 1920
  height := 1080
  fullscreen := false
  vsync := true
  multisampling := 0
  validation := false

/-- A well-behaved backend: nothing fails, a new or resized swapchain starts at
buffer 0 and each present moves to the next buffer, and the GPU only works when
it is waited for. -/
def healthy : Env where
  debugBuild := true
  config := defaultConfig
  adapters := [⟨true, true⟩, ⟨false, true⟩]
  displayModes := [⟨1280, 720⟩, ⟨1920, 1080⟩]
  heapStart := 4096
  descriptorSize := 32
  fails := fun _ _ => false
  nextIndex := fun _ c cur =>
    match c with
    | .Present _ => cur + 1
    | _ => 0
  retire := fun _ => 0

/-! ## Auxiliary notions used in the statements -/

/-- The signal for `v` is the newest queued operation, or has been retired
with nothing queued behind it. -/
def Ends (v : Nat) (q : List GpuOp) (c : Nat) : Prop :=
  (q = [] ∧ v ≤ c) ∨ ∃ q0, q = q0 ++ [.signal v]

/-- The world after a wait for `v` that ends: the GPU has worked until the
fence reached `v`. -/
def World.await (w : World) (v : Nat) : World :=
  match runUntil v w.queue w.completed with
  | some r => { w with queue := r.1, completed := r.2 }
  | none => w

/-- The world right after call `c` was issued with `_prepared = p`. -/
def World.after (e : Env) (c : Call) (p : Bool) (w : World) : World :=
  (w.advance (e.retire w.trace.length)).log ⟨c, p⟩

/-- The members after `waitForGpu`. -/
def GraphicsDirect3D.bumped (s : GraphicsDirect3D) : GraphicsDirect3D :=
  { s with _fenceValues :=
      store s._fenceValues s._backBufferIndex (uint64_t (s._fenceValues s._backBufferIndex + 1)) }

/-- The world after a `waitForGpu` whose calls succeed, for fence value `v`
and `_prepared = p`. -/
def World.drained (e : Env) (v : Nat) (p : Bool) (w : World) : World :=
  (World.after e .WaitForSingleObjectEx p
    (World.after e (.SetEventOnCompletion v) p
      ((World.after e (.Signal v) p w).submit (.signal v)))).await v

/-- The `Release` calls issued for the render targets held in the slots
`0 .. K-1`, in slot order. -/
def renderTargetReleases (s : GraphicsDirect3D) : List Call :=
  (List.range GP_GRAPHICS_BACK_BUFFERS).filterMap fun i => (s._renderTargets i).map Call.Release

/-- The external calls of a `resize` that takes effect, in order, each with the
value of `_prepared` at the time: drain, releases, swapchain resize, index
read, render-target recreation. -/
def resizeScript (e : Env) (width height : Int) (s : GraphicsDirect3D) (w : World) : List Event :=
  let v := s._fenceValues s._backBufferIndex
  let n := w.trace.length + 3 + (renderTargetReleases s).length
  [⟨.Signal v, true⟩, ⟨.SetEventOnCompletion v, true⟩, ⟨.WaitForSingleObjectEx, true⟩]
    ++ (renderTargetReleases s).map (fun c => ⟨c, false⟩)
    ++ [⟨.GetDesc, false⟩,
        ⟨.ResizeBuffers GP_GRAPHICS_BACK_BUFFERS width height, false⟩,
        ⟨.GetCurrentBackBufferIndex, false⟩,
        ⟨.GetDescriptorHandleIncrementSize, false⟩,
        ⟨.GetCPUDescriptorHandleForHeapStart, false⟩,
        ⟨.GetBuffer 0, false⟩,
        ⟨.CreateRenderTargetView (some (n + 5)) e.heapStart, false⟩,
        ⟨.GetBuffer 1, false⟩,
        ⟨.CreateRenderTargetView (some (n + 7)) (e.heapStart + e.descriptorSize), false⟩,
        ⟨.GetCurrentBackBufferIndex, false⟩]

/-- The world after the adapter loop of `getHardwareAdapter` was run on the
adapters not yet enumerated, with `_prepared = p`. -/
def World.scanned (e : Env) (p : Bool) : List Adapter → Nat → World → World
  | [], i, w => World.after e (.EnumAdapters1 i) p w
  | a :: rest, i, w =>
    if a.software then
      World.scanned e p rest (i + 1)
        (World.after e (.GetDesc1 i) p (World.after e (.EnumAdapters1 i) p w))
    else if a.probeSucceeds then
      World.after e (.D3D12CreateDeviceProbe i) p
        (World.after e (.GetDesc1 i) p (World.after e (.EnumAdapters1 i) p w))
    else
      World.scanned e p rest (i + 1)
        (World.after e (.D3D12CreateDeviceProbe i) p
          (World.after e (.GetDesc1 i) p (World.after e (.EnumAdapters1 i) p w)))
/-- The members after a startup on `healthy` with window handle 7. -/
def readyDevice : GraphicsDirect3D where
  _initialized := true
  _prepared := true
  _width := 1920
  _height := 1080
  _fullscreen := false
  _vsync := true
  _multisampling := 0
  _validation := false
  _hwnd := 7
  _displayMode := 1
  _displayModes := [⟨1280, 720⟩, ⟨1920, 1080⟩]
  _device := some 7
  _commandQueue := some 8
  _swapchain := some 16
  _backBufferIndex := 0
  _renderTargetViewHeap := some 19
  _renderTargetViewHandle := 0
  _renderTargets := store (store (fun _ => none) 0 (some 26)) 1 (some 28)
  _commandAllocators := store (store (fun _ => none) 0 (some 20)) 1 (some 21)
  _commandList := some 22
  _fence := some 31
  _fenceEvent := some 32
  _fenceValues := fun _ => 0

/-- The calls of a startup on `healthy` with window handle 7. -/
def startupCalls : List Call :=
  [.getConfig, .CreateDXGIFactory2 0, .EnumAdapters1 0, .GetDesc1 0, .EnumAdapters1 1,
   .GetDesc1 1, .D3D12CreateDeviceProbe 1, .D3D12CreateDevice none, .CreateCommandQueue,
   .EnumAdapters 0, .EnumOutputs 0, .GetDisplayModeCount, .GetDisplayModeList 2, .Release 10,
   .Release 9, .CreateSwapChainForHwnd 7 2 1920 1080 1, .QueryInterface, .Release 1,
   .GetCurrentBackBufferIndex, .CreateDescriptorHeap 2, .CreateCommandAllocator,
   .CreateCommandAllocator, .CreateCommandList (some 20), .Close,
   .GetDescriptorHandleIncrementSize, .GetCPUDescriptorHandleForHeapStart, .GetBuffer 0,
   .CreateRenderTargetView (some 26) 4096, .GetBuffer 1, .CreateRenderTargetView (some 28) 4128,
   .GetCurrentBackBufferIndex, .CreateFence 0, .CreateEventEx]

/-- The world after a startup on `healthy` with window handle 7. -/
def readyWorld : World where
  trace := startupCalls.map fun c => ⟨c, false⟩
  swapIndex := 0
  queue := []
  completed := 0

/-- What holds of how a program ends: `R` when it returns, `A` when it aborts
the process, `B` when it blocks forever. -/
def post {α : Type} (x : Prog α) (s : GraphicsDirect3D) (w : World)
    (R : α → GraphicsDirect3D → World → Prop) (A B : GraphicsDirect3D → World → Prop) : Prop :=
  match x s w with
  | .returned a s1 w1 => R a s1 w1
  | .aborted s1 w1 => A s1 w1
  | .blocked s1 w1 => B s1 w1

/-- The calls whose failure `initialize` checks, with `D3D_CHECK_RESULT` or
with `GP_ERROR`. -/
def checkedAtSetup : Call → Bool
  | .CreateDXGIFactory2 _ => true
  | .D3D12CreateDevice _ => true
  | .CreateCommandQueue => true
  | .EnumAdapters _ => true
  | .EnumOutputs _ => true
  | .GetDisplayModeCount => true
  | .GetDisplayModeList _ => true
  | .CreateSwapChainForHwnd _ _ _ _ _ => true
  | .QueryInterface => true
  | .CreateDescriptorHeap _ => true
  | .CreateCommandAllocator => true
  | .CreateCommandList _ => true
  | .Close => true
  | .GetBuffer _ => true
  | .CreateFence _ => true
  | _ => false

/-- Every logged call at a position from `n` on that `check` selects did not
fail. -/
def World.clean (e : Env) (check : Call → Bool) (n : Nat) (w : World) : Prop :=
  ∀ t ev, w.trace[t]? = some ev → n ≤ t → check ev.call = true → e.fails t ev.call = false

/-- A backend on which everything succeeds but the output reports no display
mode for the format. -/
def modeless : Env := { healthy with displayModes := [] }

/-- A debug build with validation requested on a machine without the debug
layer: `D3D12GetDebugInterface` fails, everything else succeeds. -/
def undebuggable : Env :=
  { healthy with
    config := { defaultConfig with validation := true }
    fails := fun _ c => decide (c = .D3D12GetDebugInterface) }

/-- The world after the calls of `cs` were issued one after the other, all with
`_prepared = p`. -/
def World.afterAll (e : Env) (p : Bool) (cs : List Call) (w : World) : World :=
  cs.foldl (fun w c => World.after e c p w) w

/-- The members after `buildCommands` has re-read the back-buffer index as
`idx` and has moved the render-target view handle. -/
def GraphicsDirect3D.retargeted (e : Env) (idx : Nat) (s : GraphicsDirect3D) : GraphicsDirect3D :=
  { s with
    _backBufferIndex := idx
    _renderTargetViewHandle :=
      if idx = 0 then e.heapStart else s._renderTargetViewHandle + e.descriptorSize }

/-- The calls with which `buildCommands` records a frame, from the reset of the
allocator to the barrier back to the present state (lines 302-335), when the
two resets succeed. -/
def recordingCalls (e : Env) (s : GraphicsDirect3D) (w : World) : List Call :=
  [.ResetAllocator (s._commandAllocators s._backBufferIndex),
   .ResetCommandList (s._commandAllocators s._backBufferIndex),
   .ResourceBarrier (s._renderTargets s._backBufferIndex) .PRESENT .RENDER_TARGET,
   .GetDescriptorHandleIncrementSize,
   .GetCurrentBackBufferIndex]
  ++ (if w.swapIndex = 0 then [.GetCPUDescriptorHandleForHeapStart] else [])
  ++ [.OMSetRenderTargets (s.retargeted e w.swapIndex)._renderTargetViewHandle,
      .ClearRenderTargetView (s.retargeted e w.swapIndex)._renderTargetViewHandle 0 0 0 1,
      .ResourceBarrier (s._renderTargets s._backBufferIndex) .RENDER_TARGET .PRESENT]

/-- The world when `buildCommands` returns after a frame was recorded and the
GPU drained. -/
def World.built (e : Env) (s : GraphicsDirect3D) (w : World) : World :=
  World.drained e (s._fenceValues w.swapIndex) s._prepared
    (World.after e .Close s._prepared (World.afterAll e s._prepared (recordingCalls e s w) w))
/-- The fence only moves forward: from the completed value `c` on, the values
of the queued signals never decrease, and none exceeds `hi`. -/
def Mono : List GpuOp → Nat → Nat → Prop
  | [], c, hi => c ≤ hi
  | .execute :: q, c, hi => Mono q c hi
  | .signal x :: q, c, hi => c ≤ x ∧ Mono q x hi

/-- The fence has reached `lo`, and only moves forward, up to `hi` at most. -/
def Flow (lo hi : Nat) (w : World) : Prop :=
  lo ≤ w.completed ∧ Mono w.queue w.completed hi

/-- The value of the last `Signal` call in a log. -/
def lastSignal (l : List Event) : Option Nat :=
  l.foldl (fun acc ev => match ev.call with
    | .Signal v => some v
    | _ => acc) none

/-- Consecutive `render` calls, one for each elapsed time of the list. -/
def renderAll (e : Env) : List ℚ → Prog Unit
  | [] => pure ()
  | dt :: rest => do
    render e dt
    renderAll e rest

/-- The session `initialize(window, connection)` followed by one `render` call
for each elapsed time of the list, on the freshly constructed device in a
world where nothing has happened yet. -/
def session (e : Env) (u : Indeterminate) (window connection : Nat) (ts : List ℚ) : Outcome Unit :=
  (initializeDevice e window connection >>= fun _ => renderAll e ts)
    (GraphicsDirect3D.new u) World.start

/-- A backend like `healthy` on which every `Present` fails. -/
def unpresentable : Env :=
  { healthy with
    fails := fun _ c =>
      match c with
      | .Present _ => true
      | _ => false }

/-- The calls whose failure `resize` checks with `D3D_CHECK_RESULT`: the two of
`waitForGpu` (lines 293-294), `ResizeBuffers` (line 206) and the `GetBuffer` of
`createRenderTargets` (line 283). -/
def checkedAtResize : Call → Bool
  | .Signal _ => true
  | .SetEventOnCompletion _ => true
  | .ResizeBuffers _ _ _ => true
  | .GetBuffer _ => true
  | _ => false

/-- A backend like `healthy` on which every `ResizeBuffers` fails. -/
def unresizable : Env :=
  { healthy with
    fails := fun _ c =>
      match c with
      | .ResizeBuffers _ _ _ => true
      | _ => false }

/-- Whether a call creates a swapchain. -/
def isSwapchainCreation : Call → Bool
  | .CreateSwapChainForHwnd _ _ _ _ _ => true
  | _ => false

/-- The swapchain creations of a call log, in order. -/
def swapchainsCreated (l : List Event) : List Call :=
  (calls l).filter isSwapchainCreation

/-- A backend like `healthy` whose configuration asks for 800 x 600, a size
that none of the enumerated display modes has. -/
def unmatched : Env :=
  { healthy with config := { defaultConfig with width := 800, height := 600 } }

/-- The world after the macro `SAFE_RELEASE` was run on the pointer `x` with
`_prepared = p`: one `Release` when `x` is not null, nothing otherwise. -/
def World.released (e : Env) (p : Bool) (x : Option Nat) (w : World) : World :=
  match x with
  | some r => World.after e (.Release r) p w
  | none => w

/-- The pointers the destructor passes to `SAFE_RELEASE`, in its order (lines
51-60). -/
def ownedResources (s : GraphicsDirect3D) : List (Option Nat) :=
  [s._fence, s._commandList]
    ++ (List.range GP_GRAPHICS_BACK_BUFFERS).map s._commandAllocators
    ++ (List.range GP_GRAPHICS_BACK_BUFFERS).map s._renderTargets
    ++ [s._renderTargetViewHeap, s._swapchain, s._commandQueue, s._device]

/-- The external calls of the destructor: `SetFullscreenState(false)` when
there is a swapchain, then one `Release` for each owned pointer that is not
null. -/
def destroyCalls (s : GraphicsDirect3D) : List Call :=
  (if s._swapchain.isSome then [.SetFullscreenState false] else [])
    ++ (ownedResources s).filterMap (Option.map Call.Release)

/-! ## The serializer contract (`Serializer.h`)

`Serializer.h` declares the serializer as an abstract class and its
`Activator`; the bodies are in files that are not part of this development.
Types follow the declarations of the header; what the member functions do is
modelled from the specification, each such definition saying so.

A stream is modelled by its logical content, a list of `Item`s: the two
formats share this logical schema and differ in a byte or text layout that is
left open.  A write call appends items, a read call consumes items from the
front. -/

namespace Serializer

/-- The serializer format, `Serializer.h` lines 45-49. -/
inductive Format where
  | FORMAT_BINARY
  | FORMAT_JSON
deriving DecidableEq, Repr

/-- A `float` as the serializer sees it: a token that is stored and given
back, here its bit pattern.  No arithmetic is done on it. -/
structure Float32 where
  bits : Nat
deriving DecidableEq, Repr

/-- The kinds of property value of the `write<Kind>`/`read<Kind>` pairs of
`Serializer.h` lines 99-245 that carry a value. -/
inductive Kind where
  | bool
  | int
  | float
  | vector2
  | vector3
  | vector4
  | color3
  | color4
  | matrix
  | string
  | enumString
  | intArray
  | floatArray
  | byteArray
deriving DecidableEq, Repr

/-- A typed property value.  An enumerated value is stored under its name,
the string `Activator::enumToString` gives for it. -/
inductive Value where
  | bool (value : Bool)
  | int (value : Int)
  | float (value : Float32)
  | vector2 (x y : Float32)
  | vector3 (x y z : Float32)
  | vector4 (x y z w : Float32)
  | color3 (r g b : Float32)
  | color4 (r g b a : Float32)
  | matrix (m : List Float32)
  | string (value : String)
  | enumString (value : String)
  | intArray (data : List Int)
  | floatArray (data : List Float32)
  | byteArray (data : List Nat)
deriving DecidableEq, Repr

/-- The kind of a value. -/
def Value.kind : Value → Kind
  | .bool _ => .bool
  | .int _ => .int
  | .float _ => .float
  | .vector2 _ _ => .vector2
  | .vector3 _ _ _ => .vector3
  | .vector4 _ _ _ _ => .vector4
  | .color3 _ _ _ => .color3
  | .color4 _ _ _ _ => .color4
  | .matrix _ => .matrix
  | .string _ => .string
  | .enumString _ => .enumString
  | .intArray _ => .intArray
  | .floatArray _ => .floatArray
  | .byteArray _ => .byteArray

/-- Whether a kind is one of the three array kinds, which are written without
a default value (lines 227-245). -/
def Kind.isArray : Kind → Bool
  | .intArray => true
  | .floatArray => true
  | .byteArray => true
  | _ => false

/-- The array of a kind with no elements (any value for the other kinds). -/
def Kind.noElements : Kind → Value
  | .floatArray => .floatArray []
  | .byteArray => .byteArray []
  | _ => .intArray []

/-- One entry of the logical content of a stream: a named typed value, the
announcement of a list with its count, an item of a string list, or the
class-name tag that opens the field data of an object and the mark that closes
it. -/
inductive Item where
  | property (name : String) (value : Value)
  | stringList (name : String) (count : Nat)
  | string (value : String)
  | objectList (name : String) (count : Nat)
  | beginObject (name : Option String) (className : String)
  | endObject
deriving DecidableEq, Repr

mutual
/-- A serializable object: its class name and its named properties. -/
inductive Serializable where
  | mk (className : String) (properties : Properties)
/-- The named properties of an object, in the order its `onSerialize` writes
them and its `onDeserialize` reads them. -/
inductive Properties where
  | nil
  | cons (name : String) (property : Property) (rest : Properties)
/-- A property of one of the supported kinds, with the default value its
class states for it where the kind has one. -/
inductive Property where
  | value (value defaultValue : Value)
  | enum (enumName : String) (value defaultValue : Int)
  | array (data : Value)
  | stringList (items : List String)
  | object (value : Serializable)
  | noObject
  | objectList (items : Objects)
/-- The objects of an object list. -/
inductive Objects where
  | nil
  | cons (object : Serializable) (rest : Objects)
end

/-- The callback type `CreateObjectCallback`, line 453. -/
abbrev CreateObjectCallback : Type := Unit → Serializable

/-- The callback type `EnumToStringCallback`, line 462. -/
abbrev EnumToStringCallback : Type := String → Int → String

/-- The callback type `EnumParseCallback`, line 471. -/
abbrev EnumParseCallback : Type := String → String → Int

/-- The two registries of `Activator`, lines 519-520; a `std::map` is the
function from its keys to the values stored under them. -/
structure Activator where
  _classes : String → Option CreateObjectCallback
  _enums : String → Option (EnumToStringCallback × EnumParseCallback)

/-- An activator with nothing registered. -/
def Activator.empty : Activator where
  _classes := fun _ => none
  _enums := fun _ => none

/-- Modelled from the spec: the body of `Activator::registerType` is missing.
The callback is stored under the class name; a later registration for the same
name overwrites the earlier one. -/
def Activator.registerType (a : Activator) (className : String) (create : CreateObjectCallback) :
    Activator :=
  { a with _classes := fun k => if k = className then some create else a._classes k }

/-- Modelled from the spec: the body of `Activator::registerEnum` is missing.
The pair of callbacks is stored under the enum name, overwriting an earlier
registration for it. -/
def Activator.registerEnum (a : Activator) (enumName : String)
    (enumToString : EnumToStringCallback) (enumParse : EnumParseCallback) : Activator :=
  { a with _enums := fun k => if k = enumName then some (enumToString, enumParse) else a._enums k }

/-- Modelled from the spec: the body of `Activator::createObject` is missing.
A mapping lookup of the class name; the registered callback makes the object,
and for an unregistered class name the call fails (`none`). -/
def Activator.createObject (a : Activator) (className : String) : Option Serializable :=
  match a._classes className with
  | some create => some (create ())
  | none => none

/-- Modelled from the spec: the string `Activator::enumToString` gives for an
unregistered enum name.  The spec does not say which string it is; the empty
string stands for it. -/
def defaultEnumString : String := ""

/-- Modelled from the spec: the body of `Activator::enumToString` is missing.
The registered callback converts; for an unregistered enum name the fallback
string is returned. -/
def Activator.enumToString (a : Activator) (enumName : String) (value : Int) : String :=
  match a._enums enumName with
  | some (enumToString, _) => enumToString enumName value
  | none => defaultEnumString

/-- Modelled from the spec: the body of `Activator::enumParse` is missing.
The registered callback parses; for an unregistered enum name the result is
the sentinel -1. -/
def Activator.enumParse (a : Activator) (enumName : String) (str : String) : Int :=
  match a._enums enumName with
  | some (_, enumParse) => enumParse enumName str
  | none => -1

/-- A call of `registerType` or of `registerEnum`, with its arguments. -/
inductive Registration where
  | type (className : String) (create : CreateObjectCallback)
  | enum (enumName : String) (enumToString : EnumToStringCallback) (enumParse : EnumParseCallback)

/-- The activator after one registration call. -/
def Activator.register (a : Activator) : Registration → Activator
  | .type className create => a.registerType className create
  | .enum enumName enumToString enumParse => a.registerEnum enumName enumToString enumParse

/-- The activator after the registration calls of a list, made in order on
the empty registries. -/
def Activator.after (calls : List Registration) : Activator :=
  calls.foldl Activator.register Activator.empty

/-- Modelled from the spec: a parse callback that follows the contract stated
for `EnumParseCallback` (lines 464-471), for an enum whose values have the
given names: the value of the name, or -1 when the string is not parsed. -/
def parseWith (names : List (String × Int)) : EnumParseCallback :=
  fun _ str =>
    match names.find? (fun p => p.1 == str) with
    | some p => p.2
    | none => -1

/-- Modelled from the spec: a conversion callback following the contract of
`EnumToStringCallback` (lines 455-462) for an enum whose values have the given
names; a value without a name gives the default enum string. -/
def toStringWith (names : List (String × Int)) : EnumToStringCallback :=
  fun _ value =>
    match names.find? (fun p => p.2 == value) with
    | some p => p.1
    | none => defaultEnumString

/-- A writing session, as far as the logical content of its stream goes: its
format (`getFormat`), and whether it makes use of the hint to leave out a
field that is equal to its default. -/
structure Writer where
  format : Format
  omitsDefaults : Bool

/-- Modelled from the spec: the bodies of the `write<Kind>(propertyName, value,
defaultValue)` functions are missing.  The items the call appends: the named
value, or nothing when the value equals the default value and the writer
leaves such fields out. -/
def Writer.writeValue (w : Writer) (propertyName : String) (value defaultValue : Value) :
    List Item :=
  if w.omitsDefaults = true ∧ value = defaultValue then [] else [.property propertyName value]

/-- The function `writeBool`, line 108 (through `writeValue`). -/
def Writer.writeBool (w : Writer) (propertyName : String) (value defaultValue : Bool) : List Item :=
  w.writeValue propertyName (.bool value) (.bool defaultValue)

/-- The function `writeInt`, line 117 (through `writeValue`). -/
def Writer.writeInt (w : Writer) (propertyName : String) (value defaultValue : Int) : List Item :=
  w.writeValue propertyName (.int value) (.int defaultValue)

/-- The function `writeFloat`, line 126 (through `writeValue`). -/
def Writer.writeFloat (w : Writer) (propertyName : String) (value defaultValue : Float32) :
    List Item :=
  w.writeValue propertyName (.float value) (.float defaultValue)

/-- The function `writeString` with a property name, line 189 (through
`writeValue`). -/
def Writer.writeString (w : Writer) (propertyName : String) (value defaultValue : String) :
    List Item :=
  w.writeValue propertyName (.string value) (.string defaultValue)

/-- Modelled from the spec: `writeString` with a null property name, the next
item of a string list; it is always written. -/
def Writer.writeStringItem (_w : Writer) (value : String) : List Item :=
  [.string value]

/-- Modelled from the spec: the body of `writeEnum` is missing.  The value is
written under the name `Activator::enumToString` gives for it; it is left out
when it equals the default value and the writer leaves such fields out. -/
def Writer.writeEnum (w : Writer) (a : Activator) (propertyName enumName : String)
    (value defaultValue : Int) : List Item :=
  if w.omitsDefaults = true ∧ value = defaultValue then []
  else [.property propertyName (.enumString (a.enumToString enumName value))]

/-- Modelled from the spec: the bodies of `writeIntArray`, `writeFloatArray`
and `writeByteArray` are missing; they take no default value and always write
the named array. -/
def Writer.writeArray (_w : Writer) (propertyName : String) (data : Value) : List Item :=
  [.property propertyName data]

/-- Modelled from the spec: the body of `writeStringList` is missing.  It
announces the number of strings that follow. -/
def Writer.writeStringList (_w : Writer) (propertyName : String) (count : Nat) : List Item :=
  [.stringList propertyName count]

/-- Modelled from the spec: the body of `writeObjectList` is missing.  It
announces the number of objects that follow. -/
def Writer.writeObjectList (_w : Writer) (propertyName : String) (count : Nat) : List Item :=
  [.objectList propertyName count]

/-- The items of the strings of a list, one `writeString` with a null
property name for each. -/
def Writer.writeStrings (w : Writer) : List String → List Item
  | [] => []
  | s :: rest => w.writeStringItem s ++ w.writeStrings rest

/-- The number of objects of a list. -/
def Objects.length : Objects → Nat
  | .nil => 0
  | .cons _ rest => rest.length + 1

mutual
/-- Modelled from the spec: the body of `writeObject` is missing.  It persists
the class name of the object alongside its field data, which the object's
`onSerialize` writes; `propertyName` is null for an item of an object list. -/
def Writer.writeObject (w : Writer) (a : Activator) (propertyName : Option String) :
    Serializable → List Item
  | .mk className properties =>
    .beginObject propertyName className :: (w.onSerialize a properties ++ [.endObject])
termination_by structural o => o
/-- Modelled from the spec: `onSerialize` of an object writes each of its
properties with the `write` function of its kind. -/
def Writer.onSerialize (w : Writer) (a : Activator) : Properties → List Item
  | .nil => []
  | .cons name property rest => w.writeProperty a name property ++ w.onSerialize a rest
termination_by structural ps => ps
/-- The write calls for one property. -/
def Writer.writeProperty (w : Writer) (a : Activator) (name : String) : Property → List Item
  | .value value defaultValue => w.writeValue name value defaultValue
  | .enum enumName value defaultValue => w.writeEnum a name enumName value defaultValue
  | .array data => w.writeArray name data
  | .stringList items => w.writeStringList name items.length ++ w.writeStrings items
  | .object value => w.writeObject a (some name) value
  | .noObject => []
  | .objectList items => w.writeObjectList name items.length ++ w.writeObjects a items
termination_by structural p => p
/-- One `writeObject` with a null property name for each object of a list. -/
def Writer.writeObjects (w : Writer) (a : Activator) : Objects → List Item
  | .nil => []
  | .cons object rest => w.writeObject a none object ++ w.writeObjects a rest
termination_by structural os => os
end

/-- Modelled from the spec: the bodies of the `read<Kind>(propertyName,
defaultValue)` functions are missing.  When the next item of the stream is the
named property with a value of the kind asked for, it is consumed and its value
returned; otherwise the property is absent and the default value is returned. -/
def readValue (propertyName : String) (defaultValue : Value) : List Item → Value × List Item
  | .property name value :: rest =>
    if name = propertyName ∧ value.kind = defaultValue.kind then (value, rest)
    else (defaultValue, .property name value :: rest)
  | stream => (defaultValue, stream)

/-- The function `readBool`, line 267 (through `readValue`). -/
def readBool (propertyName : String) (defaultValue : Bool) (stream : List Item) :
    Bool × List Item :=
  match readValue propertyName (.bool defaultValue) stream with
  | (.bool b, rest) => (b, rest)
  | (_, rest) => (defaultValue, rest)

/-- The function `readInt`, line 279 (through `readValue`). -/
def readInt (propertyName : String) (defaultValue : Int) (stream : List Item) :
    Int × List Item :=
  match readValue propertyName (.int defaultValue) stream with
  | (.int i, rest) => (i, rest)
  | (_, rest) => (defaultValue, rest)

/-- The function `readFloat`, line 291 (through `readValue`). -/
def readFloat (propertyName : String) (defaultValue : Float32) (stream : List Item) :
    Float32 × List Item :=
  match readValue propertyName (.float defaultValue) stream with
  | (.float f, rest) => (f, rest)
  | (_, rest) => (defaultValue, rest)

/-- The function `readString` with a property name, line 375 (through
`readValue`). -/
def readString (propertyName : String) (defaultValue : String) (stream : List Item) :
    String × List Item :=
  match readValue propertyName (.string defaultValue) stream with
  | (.string s, rest) => (s, rest)
  | (_, rest) => (defaultValue, rest)

/-- Modelled from the spec: `readString` with a null property name, the next
item of a string list; the default value when the next item is not one. -/
def readStringItem (defaultValue : String) : List Item → String × List Item
  | .string value :: rest => (value, rest)
  | stream => (defaultValue, stream)

/-- Modelled from the spec: the body of `readEnum` is missing.  The stored
name is parsed with `Activator::enumParse`; the default value when the property
is absent. -/
def readEnum (a : Activator) (propertyName enumName : String) (defaultValue : Int) :
    List Item → Int × List Item
  | .property name (.enumString str) :: rest =>
    if name = propertyName then (a.enumParse enumName str, rest)
    else (defaultValue, .property name (.enumString str) :: rest)
  | stream => (defaultValue, stream)

/-- Modelled from the spec: the bodies of `readIntArray`, `readFloatArray` and
`readByteArray` are missing.  The stored array of the kind asked for, and no
elements when the property is absent. -/
def readArray (propertyName : String) (kind : Kind) (stream : List Item) : Value × List Item :=
  readValue propertyName kind.noElements stream

/-- Modelled from the spec: the body of `readStringList` is missing.  It
returns the stored count, and 0 when the list is absent. -/
def readStringList (propertyName : String) : List Item → Nat × List Item
  | .stringList name count :: rest =>
    if name = propertyName then (count, rest) else (0, .stringList name count :: rest)
  | stream => (0, stream)

/-- Modelled from the spec: the body of `readObjectList` is missing.  It
returns the stored count, and 0 when the list is absent. -/
def readObjectList (propertyName : String) : List Item → Nat × List Item
  | .objectList name count :: rest =>
    if name = propertyName then (count, rest) else (0, .objectList name count :: rest)
  | stream => (0, stream)

/-- As many `readString` calls with a null property name as the count says. -/
def readStrings : Nat → List Item → List String × List Item
  | 0, stream => ([], stream)
  | n + 1, stream =>
    ((readStringItem "" stream).1 :: (readStrings n (readStringItem "" stream).2).1,
      (readStrings n (readStringItem "" stream).2).2)

/-- A read call that may fail: `none` is the failure of the read. -/
abbrev Reader (α : Type) : Type := List Item → Option (α × List Item)

/-- As many `readObject` calls with a null property name as the count says;
each must give an object. -/
def readObjects (readObject : Option String → Reader (Option Serializable)) :
    Nat → Reader Objects
  | 0, stream => some (.nil, stream)
  | n + 1, stream =>
    match readObject none stream with
    | some (some object, rest) =>
      match readObjects readObject n rest with
      | some (objects, rest1) => some (.cons object objects, rest1)
      | none => none
    | _ => none

/-- The read calls for one property of a new object, given how nested objects
are read.  The property of the new object says which kind is read under the
name, and with which default value. -/
def readProperty (a : Activator) (readObject : Option String → Reader (Option Serializable))
    (name : String) : Property → Reader Property
  | .value _ defaultValue => fun stream =>
    some (.value (readValue name defaultValue stream).1 defaultValue,
      (readValue name defaultValue stream).2)
  | .enum enumName _ defaultValue => fun stream =>
    some (.enum enumName (readEnum a name enumName defaultValue stream).1 defaultValue,
      (readEnum a name enumName defaultValue stream).2)
  | .array data => fun stream =>
    some (.array (readArray name data.kind stream).1, (readArray name data.kind stream).2)
  | .stringList _ => fun stream =>
    some (.stringList (readStrings (readStringList name stream).1 (readStringList name stream).2).1,
      (readStrings (readStringList name stream).1 (readStringList name stream).2).2)
  | .objectList _ => fun stream =>
    match readObjects readObject (readObjectList name stream).1 (readObjectList name stream).2 with
    | some (objects, rest) => some (.objectList objects, rest)
    | none => none
  | .object _ | .noObject => fun stream =>
    match readObject (some name) stream with
    | some (some object, rest) => some (.object object, rest)
    | some (none, rest) => some (.noObject, rest)
    | none => none

/-- Modelled from the spec: `onDeserialize` of a new object reads each of its
properties with the `read` function of its kind, in the order `onSerialize`
writes them. -/
def onDeserialize (a : Activator) (readObject : Option String → Reader (Option Serializable)) :
    Properties → Reader Properties
  | .nil, stream => some (.nil, stream)
  | .cons name property rest, stream =>
    match readProperty a readObject name property stream with
    | some (property1, stream1) =>
      match onDeserialize a readObject rest stream1 with
      | some (rest1, stream2) => some (.cons name property1 rest1, stream2)
      | none => none
    | none => none

/-- Modelled from the spec: the body of `readObject` is missing.  When the
next item opens an object under the property name asked for, the class name is
read first and `Activator::createObject` is called with it; the read fails when
the class name is unregistered, otherwise `onDeserialize` of the new object
reads the field data up to the closing mark.  When no such object is next, a
named property is absent (a null object is returned) and a read with a null
property name fails.  `depth` bounds the nesting of objects that is followed. -/
def readObjectWithin : Nat → Activator → Option String → Reader (Option Serializable)
  | depth, a, propertyName, .beginObject name className :: rest =>
    if name = propertyName then
      match depth with
      | 0 => none
      | depth + 1 =>
        match a.createObject className with
        | none => none
        | some (.mk className1 properties) =>
          match onDeserialize a (readObjectWithin depth a) properties rest with
          | some (properties1, .endObject :: rest1) => some (some (.mk className1 properties1), rest1)
          | _ => none
    else if propertyName.isSome then some (none, .beginObject name className :: rest) else none
  | _, _, propertyName, stream => if propertyName.isSome then some (none, stream) else none

/-- The function `readObject`, line 399: objects are never nested deeper than
the stream is long. -/
def readObject (a : Activator) (propertyName : Option String) : Reader (Option Serializable) :=
  fun stream => readObjectWithin stream.length a propertyName stream

/-- The name under which an item is stored, if it has one. -/
def Item.name? : Item → Option String
  | .property name _ => some name
  | .stringList name _ => some name
  | .objectList name _ => some name
  | .beginObject name _ => name
  | .string _ => none
  | .endObject => none

/-- The next item of the stream is not stored under `name`. -/
def Absent (name : String) (stream : List Item) : Prop :=
  ∀ item, stream.head? = some item → item.name? ≠ some name

/-- A property as a new instance of the class holds it: values at their
defaults, arrays and lists empty, no object. -/
def Property.blank : Property → Property
  | .value _ defaultValue => .value defaultValue defaultValue
  | .enum enumName _ defaultValue => .enum enumName defaultValue defaultValue
  | .array data => .array data.kind.noElements
  | .stringList _ => .stringList []
  | .object _ => .noObject
  | .noObject => .noObject
  | .objectList _ => .objectList .nil

/-- The properties of a new instance of the class. -/
def Properties.blank : Properties → Properties
  | .nil => .nil
  | .cons name property rest => .cons name property.blank rest.blank

/-- A new instance of the class of the object. -/
def Serializable.blank : Serializable → Serializable
  | .mk className properties => .mk className properties.blank

/-- The names of the properties. -/
def Properties.names : Properties → List String
  | .nil => []
  | .cons name _ rest => name :: rest.names

/-- The class name of an object (`getClassName`). -/
def Serializable.getClassName : Serializable → String
  | .mk className _ => className

mutual
/-- How deep objects are nested in an object, itself counted. -/
def Serializable.depth : Serializable → Nat
  | .mk _ properties => properties.depth + 1
termination_by structural o => o
/-- How deep objects are nested in the properties. -/
def Properties.depth : Properties → Nat
  | .nil => 0
  | .cons _ property rest => max property.depth rest.depth
termination_by structural ps => ps
/-- How deep objects are nested in a property. -/
def Property.depth : Property → Nat
  | .object value => value.depth
  | .objectList items => items.depth
  | _ => 0
termination_by structural p => p
/-- How deep objects are nested in the objects of a list. -/
def Objects.depth : Objects → Nat
  | .nil => 0
  | .cons object rest => max object.depth rest.depth
termination_by structural os => os
end

mutual
/-- The graph is one the activator knows: the class name of every object is
registered and creates a new instance of its class; the property names of an
object are distinct; a value has the kind of its default; an array property
holds an array; and the callbacks registered for the enum name of an
enumerated value convert it to its name and back. -/
def Serializable.Registered (a : Activator) : Serializable → Prop
  | .mk className properties =>
    a.createObject className = some (.mk className properties.blank) ∧
    properties.names.Nodup ∧ properties.Registered a
termination_by structural o => o
/-- All properties are known to the activator. -/
def Properties.Registered (a : Activator) : Properties → Prop
  | .nil => True
  | .cons _ property rest => property.Registered a ∧ rest.Registered a
termination_by structural ps => ps
/-- The property is known to the activator. -/
def Property.Registered (a : Activator) : Property → Prop
  | .value value defaultValue => value.kind = defaultValue.kind
  | .enum enumName value _ => a.enumParse enumName (a.enumToString enumName value) = value
  | .array data => data.kind.isArray = true
  | .stringList _ => True
  | .object value => value.Registered a
  | .noObject => True
  | .objectList items => items.Registered a
termination_by structural p => p
/-- All objects of the list are known to the activator. -/
def Objects.Registered (a : Activator) : Objects → Prop
  | .nil => True
  | .cons object rest => object.Registered a ∧ rest.Registered a
termination_by structural os => os
end

/-- The class name a registration call registers, if it registers a class. -/
def Registration.className? : Registration → Option String
  | .type className _ => some className
  | .enum _ _ _ => none

/-- The enum name a registration call registers, if it registers an enum. -/
def Registration.enumName? : Registration → Option String
  | .type _ _ => none
  | .enum enumName _ _ => some enumName

/-- The named values of a sample enum `gameplay::Camera::Type`. -/
def cameraTypes : List (String × Int) := [("PERSPECTIVE", 1), ("ORTHOGRAPHIC", 2)]

/-- A sample camera object: an enumerated value, a float left at its default,
and an array of bytes. -/
def sampleCamera : Serializable :=
  .mk "gameplay::Camera"
    (.cons "type" (.enum "gameplay::Camera::Type" 2 1)
    (.cons "fieldOfView" (.value (.float ⟨1114636288⟩) (.float ⟨1114636288⟩))
    (.cons "mask" (.array (.byteArray [1, 0, 255])) .nil)))

/-- A sample scene: values of several kinds, a camera object, an absent
object, a list of strings and a list with two cameras. -/
def sampleScene : Serializable :=
  .mk "gameplay::Scene"
    (.cons "name" (.value (.string "main") (.string ""))
    (.cons "visible" (.value (.bool true) (.bool true))
    (.cons "layer" (.value (.int 3) (.int 0))
    (.cons "ambient" (.value (.color3 ⟨0⟩ ⟨0⟩ ⟨1065353216⟩) (.color3 ⟨0⟩ ⟨0⟩ ⟨0⟩))
    (.cons "camera" (.object sampleCamera)
    (.cons "light" .noObject
    (.cons "tags" (.stringList ["level", "outdoor"])
    (.cons "cameras" (.objectList (.cons sampleCamera (.cons sampleCamera .nil))) .nil))))))))

/-- The registration calls for the two sample classes and the sample enum. -/
def sampleRegistrations : List Registration :=
  [.type "gameplay::Scene" (fun _ => sampleScene.blank),
   .type "gameplay::Camera" (fun _ => sampleCamera.blank),
   .enum "gameplay::Camera::Type" (toStringWith cameraTypes) (parseWith cameraTypes)]

end Serializer

/-! ## Further notions used in the statements on frames and fences -/

/-- The values passed to `Signal` by the calls of a list, in order. -/
def signalValues (cs : List Call) : List Nat :=
  cs.filterMap fun c =>
    match c with
    | .Signal v => some v
    | _ => none

/-- The values passed to `Signal` in a call log, in order. -/
def signals (l : List Event) : List Nat := signalValues (calls l)

/-- The slot the swapchain selects at the `Present` of a frame that starts in
world `w`, on a prepared device with members `s`. -/
def nextSlot (e : Env) (s : GraphicsDirect3D) (w : World) : Nat :=
  e.nextIndex (w.trace.length + (recordingCalls e s w).length + 5)
    (.Present (if s._vsync then 1 else 0)) w.swapIndex % GP_GRAPHICS_BACK_BUFFERS

/-- The external calls of a frame up to the read of the completed value, when
none fails: recording, `Close`, the drain for the value `v` stored for the
swapchain's current slot, submission, present, the signal of `v + 1` (in
`uint64_t`), the read of the new index and of the completed value. -/
def frameCalls (e : Env) (s : GraphicsDirect3D) (w : World) : List Call :=
  recordingCalls e s w ++
    [.Close,
     .Signal (s._fenceValues w.swapIndex),
     .SetEventOnCompletion (s._fenceValues w.swapIndex),
     .WaitForSingleObjectEx,
     .ExecuteCommandLists 1,
     .Present (if s._vsync then 1 else 0),
     .Signal (uint64_t (s._fenceValues w.swapIndex + 1)),
     .GetCurrentBackBufferIndex,
     .GetCompletedValue]

/-- The started device of `readyDevice` when the fence values, which the
constructor leaves unset, happen to be 0 for slot 0 and 5 for slot 1. -/
def staleDevice : GraphicsDirect3D :=
  { readyDevice with _fenceValues := store (fun _ => 0) 1 5 }

/-- Members left by the allocator with every fence value at `UINT64_MAX`. -/
def maxed : Indeterminate :=
  { zeroed with fenceValues := fun _ => UINT64_MAX }

/-- Members left by the allocator with the fence value `UINT64_MAX - 1` in slot
0 and 0 in the other slots. -/
def nearWrap : Indeterminate :=
  { zeroed with fenceValues := store (fun _ => 0) 0 (UINT64_MAX - 1) }

/-- The started device of `readyDevice` when the constructor found the members
of `maxed`. -/
def maxedDevice : GraphicsDirect3D :=
  { readyDevice with _fenceValues := maxed.fenceValues }

/-- The started device of `readyDevice` when the constructor found the members
of `nearWrap`. -/
def nearWrapDevice : GraphicsDirect3D :=
  { readyDevice with _fenceValues := nearWrap.fenceValues }

/-- A backend like `healthy` whose GPU, idle until then, retires three queued
operations just before the call at position 70: after a startup and two
frames, it is the first call of the third frame. -/
def catchingUp : Env :=
  { healthy with retire := fun t => if t = 70 then 3 else 0 }

/-- The world of a frame at the moment the completed value has been read: the
world `w` after a `Present` and a `Signal` that both succeed, the read of the
swapchain's index and `GetCompletedValue`, issued from the members `s`. -/
def World.advanced (e : Env) (s : GraphicsDirect3D) (w : World) : World :=
  World.after e .GetCompletedValue s._prepared
    (World.after e .GetCurrentBackBufferIndex s._prepared
      ((World.after e (.Signal (s._fenceValues s._backBufferIndex)) s._prepared
        ((World.after e (.Present (if s._vsync then 1 else 0)) s._prepared w).select
          (e.nextIndex w.trace.length (.Present (if s._vsync then 1 else 0)) w.swapIndex
            % GP_GRAPHICS_BACK_BUFFERS))).submit
        (.signal (s._fenceValues s._backBufferIndex))))

/-- What a frame logs after it has read the completed value, from the members
`s` in the world `w` of that moment (lines 242-247), with `x` the fence value
stored for the swapchain's current slot: nothing when the fence has completed
`x`; otherwise `SetEventOnCompletion(x)`, followed by the wait when arming the
event succeeded. -/
def waitCalls (e : Env) (s : GraphicsDirect3D) (w : World) : List Event :=
  if w.completed < s._fenceValues w.swapIndex then
    (if e.fails w.trace.length (.SetEventOnCompletion (s._fenceValues w.swapIndex)) then
      [⟨.SetEventOnCompletion (s._fenceValues w.swapIndex), true⟩]
    else
      [⟨.SetEventOnCompletion (s._fenceValues w.swapIndex), true⟩, ⟨.WaitForSingleObject, true⟩])
  else []

/-- A backend like `healthy` on which arming the fence event for the value 5
fails. -/
def unarmed : Env :=
  { healthy with fails := fun _ c => decide (c = .SetEventOnCompletion 5) }

/-- A call of one of the member functions `initialize`, `resize`, `render`. -/
inductive Op where
  | init (window connection : Nat)
  | resize (width height : Int)
  | render (elapsedTime : ℚ)

/-- The member function an `Op` calls. -/
def Op.run (e : Env) : Op → Prog Unit
  | .init window connection => initializeDevice e window connection
  | .resize width height => gameplay.resize e width height
  | .render elapsedTime => gameplay.render e elapsedTime

/-- The calls of a list, one after the other; a call is made only when the one
before it has returned. -/
def runOps (e : Env) : List Op → Prog Unit
  | [] => pure ()
  | op :: rest => do
    op.run e
    runOps e rest

/-- Whether the call is a call of `initialize`. -/
def Op.isInitialize : Op → Bool
  | .init _ _ => true
  | _ => false

/-- Whether the call is a call of `resize`. -/
def Op.isResize : Op → Bool
  | .resize _ _ => true
  | _ => false

/-- Every call logged at a position from `n` on was issued while `_prepared`
had the value `p`. -/
def World.steady (p : Bool) (n : Nat) (w : World) : Prop :=
  ∀ t ev, w.trace[t]? = some ev → n ≤ t → ev.prepared = p

/-- Whether a call is a command recorded into the command list, or the
`Close` that ends the recording. -/
def isRecording : Call → Bool
  | .ResourceBarrier _ _ _ => true
  | .OMSetRenderTargets _ => true
  | .ClearRenderTargetView _ _ _ _ _ => true
  | .Close => true
  | _ => false

/-- The commands recorded into the command list in a call log, in order, with
the `Close` calls. -/
def recorded (l : List Event) : List Call :=
  (calls l).filter isRecording

/-- A backend like `healthy` on which the call at position 64 fails: after a
startup, it is the `Present` of the second frame. -/
def presentFailsOnce : Env :=
  { healthy with fails := fun t _ => decide (t = 64) }

/-- A backend like `healthy` on which every reset of the command list fails. -/
def unresettable : Env :=
  { healthy with
    fails := fun _ c =>
      match c with
      | .ResetCommandList _ => true
      | _ => false }

/-- Each value of the list is exactly one more than the value before it. -/
def Consecutive (l : List Nat) : Prop :=
  ∀ i a b, l[i]? = some a → l[i + 1]? = some b → b = a + 1

/-- The slots of `_fenceValues` a call assigns when it runs from the members
`s` in the world `w` and no backend call fails.  A `render` on a prepared
device assigns the slot it drains, which is the swapchain's current one (line
296, reached from `buildCommands`), and the slot that is current after the
present (line 248).  A `resize` that takes effect assigns the slot of the
stored back-buffer index (line 296) and every slot of the ring (line 198).
`initialize` assigns none, and neither does a call that returns at its guard. -/
def Op.slotsWritten (e : Env) (s : GraphicsDirect3D) (w : World) : Op → List Nat
  | .init _ _ => []
  | .resize width height =>
    if !s._prepared || (width == s._width && height == s._height) then []
    else s._backBufferIndex :: List.range GP_GRAPHICS_BACK_BUFFERS
  | .render _ =>
    if !s._prepared then [] else [w.swapIndex, nextSlot e s w]

/-- The slots of `_fenceValues` assigned by the calls of a list, run one after
the other from the members `s` in the world `w`. -/
def slotsWritten (e : Env) : List Op → GraphicsDirect3D → World → List Nat
  | [], _, _ => []
  | op :: rest, s, w =>
    op.slotsWritten e s w ++ slotsWritten e rest (op.run e s w).state (op.run e s w).world

/-- The state between two calls of a running device: the stored back-buffer
index is the swapchain's, the values signalled so far are the `k` values just
below the fence value of the current slot, and no slot of `written` holds more
than the current slot. -/
def FenceInv (s : GraphicsDirect3D) (w : World) (written : List Nat) : Prop :=
  s._prepared = true ∧ s._initialized = true ∧ s._backBufferIndex = w.swapIndex ∧
  (∃ k, k ≤ s._fenceValues w.swapIndex ∧
    signals w.trace = List.range' (s._fenceValues w.swapIndex - k) k) ∧
  ∀ i ∈ written, s._fenceValues i ≤ s._fenceValues w.swapIndex

/-- The session `initialize(window, connection)` followed by the calls of
`ops`, on the freshly constructed device in a world where nothing has happened
yet. -/
def sessionOf (e : Env) (u : Indeterminate) (window connection : Nat) (ops : List Op) :
    Outcome Unit :=
  runOps e (.init window connection :: ops) (GraphicsDirect3D.new u) World.start

/-! ## Running programs -/

@[simp] theorem store_apply {α : Type} (f : Nat → α) (i : Nat) (v : α) (j : Nat) :
    store f i v j = if j = i then v else f j := rfl

/-- Sequencing, run on a state. -/
theorem bind_run {α β : Type} (x : Prog α) (f : α → Prog β) (s : GraphicsDirect3D) (w : World) :
    (x >>= f) s w =
      match x s w with
      | .returned a s1 w1 => f a s1 w1
      | .aborted s1 w1 => .aborted s1 w1
      | .blocked s1 w1 => .blocked s1 w1 := rfl

/-- Returning a value, run on a state. -/
theorem pure_run {α : Type} (a : α) (s : GraphicsDirect3D) (w : World) :
    (pure a : Prog α) s w = .returned a s w := rfl

/-! ## The fence wait of `waitForGpu` always ends -/

theorem Ends.retire (v : Nat) (n : Nat) : ∀ (q : List GpuOp) (c : Nat), Ends v q c →
    Ends v (retireOps n q c).1 (retireOps n q c).2 := by
  induction n with
  | zero => intro q c h; simpa [retireOps] using h
  | succ n ih =>
    intro q c h
    cases q with
    | nil => simpa [retireOps] using h
    | cons op q1 =>
      have hq1 : Ends v q1 (match op with | .execute => c | .signal x => x) := by
        rcases h with ⟨h, _⟩ | ⟨q0, h⟩
        · cases h
        · cases q0 with
          | nil =>
            simp at h
            obtain ⟨rfl, rfl⟩ := h
            exact Or.inl ⟨rfl, le_refl _⟩
          | cons op0 q00 =>
            simp at h
            exact Or.inr ⟨q00, h.2⟩
      cases op with
      | execute => simpa [retireOps] using ih q1 c hq1
      | signal x => simpa [retireOps] using ih q1 x hq1

theorem Ends.runUntil_isSome (v : Nat) : ∀ (q : List GpuOp) (c : Nat), Ends v q c →
    ∃ r, runUntil v q c = some r ∧ v ≤ r.2 := by
  intro q
  induction q with
  | nil =>
    intro c h
    rcases h with ⟨_, h⟩ | ⟨q0, h⟩
    · exact ⟨([], c), by simp [runUntil, h], h⟩
    · simp at h
  | cons op q1 ih =>
    intro c h
    by_cases hc : v ≤ c
    · exact ⟨(op :: q1, c), by cases op <;> simp [runUntil, hc], hc⟩
    · have hq1 : Ends v q1 (match op with | .execute => c | .signal x => x) := by
        rcases h with ⟨h, _⟩ | ⟨q0, h⟩
        · cases h
        · cases q0 with
          | nil =>
            simp at h
            obtain ⟨rfl, rfl⟩ := h
            exact Or.inl ⟨rfl, le_refl _⟩
          | cons op0 q00 =>
            simp at h
            exact Or.inr ⟨q00, h.2⟩
      cases op with
      | execute =>
        obtain ⟨r, hr, hv⟩ := ih c hq1
        exact ⟨r, by simp [runUntil, hc, hr], hv⟩
      | signal x =>
        obtain ⟨r, hr, hv⟩ := ih x hq1
        exact ⟨r, by simp [runUntil, hc, hr], hv⟩

/-! ## World projections -/

@[simp] theorem World.log_trace (w : World) (ev : Event) : (w.log ev).trace = w.trace ++ [ev] := rfl
@[simp] theorem World.log_queue (w : World) (ev : Event) : (w.log ev).queue = w.queue := rfl
@[simp] theorem World.log_completed (w : World) (ev : Event) :
    (w.log ev).completed = w.completed := rfl
@[simp] theorem World.log_swapIndex (w : World) (ev : Event) :
    (w.log ev).swapIndex = w.swapIndex := rfl
@[simp] theorem World.advance_trace (w : World) (n : Nat) : (w.advance n).trace = w.trace := rfl
@[simp] theorem World.advance_swapIndex (w : World) (n : Nat) :
    (w.advance n).swapIndex = w.swapIndex := rfl
@[simp] theorem World.submit_trace (w : World) (op : GpuOp) : (w.submit op).trace = w.trace := rfl
@[simp] theorem World.submit_queue (w : World) (op : GpuOp) :
    (w.submit op).queue = w.queue ++ [op] := rfl
@[simp] theorem World.submit_completed (w : World) (op : GpuOp) :
    (w.submit op).completed = w.completed := rfl
@[simp] theorem World.submit_swapIndex (w : World) (op : GpuOp) :
    (w.submit op).swapIndex = w.swapIndex := rfl
@[simp] theorem World.select_trace (w : World) (i : Nat) : (w.select i).trace = w.trace := rfl
@[simp] theorem World.select_queue (w : World) (i : Nat) : (w.select i).queue = w.queue := rfl
@[simp] theorem World.select_completed (w : World) (i : Nat) :
    (w.select i).completed = w.completed := rfl
@[simp] theorem World.select_swapIndex (w : World) (i : Nat) : (w.select i).swapIndex = i := rfl
@[simp] theorem World.newFence_trace (w : World) (v : Nat) : (w.newFence v).trace = w.trace := rfl
@[simp] theorem World.newFence_queue (w : World) (v : Nat) : (w.newFence v).queue = w.queue := rfl
@[simp] theorem World.newFence_completed (w : World) (v : Nat) :
    (w.newFence v).completed = v := rfl
@[simp] theorem World.newFence_swapIndex (w : World) (v : Nat) :
    (w.newFence v).swapIndex = w.swapIndex := rfl
@[simp] theorem World.await_trace (w : World) (v : Nat) : (w.await v).trace = w.trace := by
  unfold World.await; split <;> rfl
@[simp] theorem World.await_swapIndex (w : World) (v : Nat) :
    (w.await v).swapIndex = w.swapIndex := by
  unfold World.await; split <;> rfl
@[simp] theorem World.after_trace (e : Env) (c : Call) (p : Bool) (w : World) :
    (World.after e c p w).trace = w.trace ++ [⟨c, p⟩] := rfl
@[simp] theorem World.after_swapIndex (e : Env) (c : Call) (p : Bool) (w : World) :
    (World.after e c p w).swapIndex = w.swapIndex := rfl

/-- An external call, run on a state. -/
theorem issue_run (e : Env) (c : Call) (s : GraphicsDirect3D) (w : World) :
    issue e c s w = .returned w.trace.length s (World.after e c s._prepared w) := rfl

/-- After its signal was submitted, the wait of `waitForGpu` is always woken. -/
theorem drained_wait (e : Env) (v : Nat) (p : Bool) (w : World) :
    ∃ r, runUntil v
        (World.after e .WaitForSingleObjectEx p
          (World.after e (.SetEventOnCompletion v) p
            ((World.after e (.Signal v) p w).submit (.signal v)))).queue
        (World.after e .WaitForSingleObjectEx p
          (World.after e (.SetEventOnCompletion v) p
            ((World.after e (.Signal v) p w).submit (.signal v)))).completed = some r
      ∧ v ≤ r.2 := by
  apply Ends.runUntil_isSome
  apply Ends.retire
  apply Ends.retire
  exact Or.inr ⟨_, rfl⟩

/-- The fence has reached `v` when `waitForGpu` is through. -/
theorem drained_completed (e : Env) (v : Nat) (p : Bool) (w : World) :
    v ≤ (World.drained e v p w).completed := by
  obtain ⟨r, hr, hv⟩ := drained_wait e v p w
  unfold World.drained World.await
  rw [hr]
  exact hv

/-- What `waitForGpu` does when its two checked calls succeed: it returns, the
current slot's fence value is one higher, and the world is `World.drained`. -/
theorem waitForGpu_run (e : Env) (s : GraphicsDirect3D) (w : World)
    (hS : e.fails w.trace.length (.Signal (s._fenceValues s._backBufferIndex)) = false)
    (hE : e.fails (w.trace.length + 1)
      (.SetEventOnCompletion (s._fenceValues s._backBufferIndex)) = false) :
    waitForGpu e s w = .returned () s.bumped
      (World.drained e (s._fenceValues s._backBufferIndex) s._prepared w) := by
  obtain ⟨r, hr, _⟩ := drained_wait e (s._fenceValues s._backBufferIndex) s._prepared w
  simp [waitForGpu, bind_run, pure_run, self, assign, affect, Signal, SetEventOnCompletion,
    fallible, waitOn, blockUntil, issue_run, D3D_CHECK_RESULT, FAILED, Env.hresult, hS, hE, hr,
    World.drained, World.await, GraphicsDirect3D.bumped]

/-! ## Reasoning about how programs end -/

/-- The adapter loop always returns and leaves the members alone. -/
theorem getHardwareAdapterLoop_run (e : Env) (s : GraphicsDirect3D) :
    ∀ (l : List Adapter) (i : Nat) (w : World),
      getHardwareAdapterLoop e l i s w = .returned () s (World.scanned e s._prepared l i w) := by
  intro l
  induction l with
  | nil => intro i w; simp [getHardwareAdapterLoop, World.scanned, bind_run, pure_run, issue_run]
  | cons a rest ih =>
    intro i w
    by_cases h1 : a.software = true
    · simp [getHardwareAdapterLoop, World.scanned, bind_run, pure_run, issue_run, h1, ih]
    · by_cases h2 : a.probeSucceeds = true
      · simp [getHardwareAdapterLoop, World.scanned, bind_run, pure_run, issue_run, h1, h2]
      · simp [getHardwareAdapterLoop, World.scanned, bind_run, pure_run, issue_run, h1, h2, ih]

@[simp] theorem World.scanned_swapIndex (e : Env) (p : Bool) :
    ∀ (l : List Adapter) (i : Nat) (w : World),
      (World.scanned e p l i w).swapIndex = w.swapIndex := by
  intro l
  induction l with
  | nil => intro i w; simp [World.scanned]
  | cons a rest ih =>
    intro i w
    by_cases h1 : a.software = true <;> by_cases h2 : a.probeSucceeds = true <;>
      simp [World.scanned, h1, h2, ih]

theorem post_bind {α β : Type} (x : Prog α) (f : α → Prog β) (s : GraphicsDirect3D) (w : World)
    (R : β → GraphicsDirect3D → World → Prop) (A B : GraphicsDirect3D → World → Prop) :
    post (x >>= f) s w R A B = post x s w (fun a s1 w1 => post (f a) s1 w1 R A B) A B := by
  unfold post
  rw [bind_run]
  cases x s w <;> rfl

theorem post_pure {α : Type} (a : α) (s : GraphicsDirect3D) (w : World)
    (R : α → GraphicsDirect3D → World → Prop) (A B : GraphicsDirect3D → World → Prop) :
    post (pure a) s w R A B = R a s w := rfl

theorem post_self (s : GraphicsDirect3D) (w : World)
    (R : GraphicsDirect3D → GraphicsDirect3D → World → Prop) (A B : GraphicsDirect3D → World → Prop) :
    post self s w R A B = R s s w := rfl

theorem post_world (s : GraphicsDirect3D) (w : World)
    (R : World → GraphicsDirect3D → World → Prop) (A B : GraphicsDirect3D → World → Prop) :
    post world s w R A B = R w s w := rfl

theorem post_assign (f : GraphicsDirect3D → GraphicsDirect3D) (s : GraphicsDirect3D) (w : World)
    (R : Unit → GraphicsDirect3D → World → Prop) (A B : GraphicsDirect3D → World → Prop) :
    post (assign f) s w R A B = R () (f s) w := rfl

theorem post_affect (f : World → World) (s : GraphicsDirect3D) (w : World)
    (R : Unit → GraphicsDirect3D → World → Prop) (A B : GraphicsDirect3D → World → Prop) :
    post (affect f) s w R A B = R () s (f w) := rfl

theorem post_abort {α : Type} (s : GraphicsDirect3D) (w : World)
    (R : α → GraphicsDirect3D → World → Prop) (A B : GraphicsDirect3D → World → Prop) :
    post (abort : Prog α) s w R A B = A s w := rfl

theorem post_issue (e : Env) (c : Call) (s : GraphicsDirect3D) (w : World)
    (R : Nat → GraphicsDirect3D → World → Prop) (A B : GraphicsDirect3D → World → Prop) :
    post (issue e c) s w R A B = R w.trace.length s (World.after e c s._prepared w) := rfl

theorem post_ite {α : Type} (c : Prop) [Decidable c] (x y : Prog α) (s : GraphicsDirect3D)
    (w : World) (R : α → GraphicsDirect3D → World → Prop) (A B : GraphicsDirect3D → World → Prop) :
    post (if c then x else y) s w R A B = if c then post x s w R A B else post y s w R A B := by
  split <;> rfl

theorem post_onlyIf (c : Bool) (x : Prog Unit) (s : GraphicsDirect3D) (w : World)
    (R : Unit → GraphicsDirect3D → World → Prop) (A B : GraphicsDirect3D → World → Prop) :
    post (onlyIf c x) s w R A B = if c = true then post x s w R A B else R () s w := by
  unfold onlyIf
  split <;> rfl

theorem post_blockUntil (v : Nat) (s : GraphicsDirect3D) (w : World)
    (R : Unit → GraphicsDirect3D → World → Prop) (A B : GraphicsDirect3D → World → Prop) :
    post (blockUntil v) s w R A B =
      if (runUntil v w.queue w.completed).isSome = true then R () s (w.await v) else B s w := by
  unfold post blockUntil World.await
  cases runUntil v w.queue w.completed <;> simp

theorem post_loop (e : Env) (l : List Adapter) (i : Nat) (s : GraphicsDirect3D) (w : World)
    (R : Unit → GraphicsDirect3D → World → Prop) (A B : GraphicsDirect3D → World → Prop) :
    post (getHardwareAdapterLoop e l i) s w R A B
      = R () s (World.scanned e s._prepared l i w) := by
  unfold post
  rw [getHardwareAdapterLoop_run]

@[simp] theorem FAILED_hresult (e : Env) (t : Nat) (c : Call) :
    FAILED (e.hresult t c) = e.fails t c := by
  unfold Env.hresult
  cases e.fails t c <;> rfl

@[simp] theorem SUCCEEDED_hresult (e : Env) (t : Nat) (c : Call) :
    SUCCEEDED (e.hresult t c) = !e.fails t c := by
  unfold Env.hresult SUCCEEDED
  cases e.fails t c <;> rfl

@[simp] theorem FAILED_S_OK : FAILED .S_OK = false := rfl
@[simp] theorem FAILED_E_FAIL : FAILED .E_FAIL = true := rfl

theorem World.clean_after (e : Env) (check : Call → Bool) (n : Nat) (c : Call) (p : Bool)
    (w : World) :
    World.clean e check n (World.after e c p w) ↔
      World.clean e check n w ∧
        (n ≤ w.trace.length → check c = true → e.fails w.trace.length c = false) := by
  unfold World.clean
  constructor
  · intro h
    refine ⟨fun t ev ht => h t ev ?_, fun hn hc => h w.trace.length ⟨c, p⟩ ?_ hn hc⟩
    · have hlt : t < w.trace.length := (List.getElem?_eq_some.mp ht).1
      simp [List.getElem?_append_left hlt, ht]
    · simp
  · rintro ⟨h1, h2⟩ t ev ht hn hc
    by_cases hlt : t < w.trace.length
    · rw [World.after_trace, List.getElem?_append_left hlt] at ht
      exact h1 t ev ht hn hc
    · rw [World.after_trace, List.getElem?_append_right (by omega)] at ht
      have hlen := (List.getElem?_eq_some.mp ht).1
      simp at hlen
      have ht0 : t = w.trace.length := by omega
      subst ht0
      simp at ht
      subst ht
      exact h2 hn hc

theorem World.clean_scanned (e : Env) (n : Nat) (p : Bool) :
    ∀ (l : List Adapter) (i : Nat) (w : World),
      World.clean e checkedAtSetup n (World.scanned e p l i w)
        ↔ World.clean e checkedAtSetup n w := by
  intro l
  induction l with
  | nil => intro i w; simp [World.scanned, World.clean_after, checkedAtSetup]
  | cons a rest ih =>
    intro i w
    by_cases h1 : a.software = true <;> by_cases h2 : a.probeSucceeds = true <;>
      simp [World.scanned, h1, h2, ih, World.clean_after, checkedAtSetup]

theorem World.clean_select (e : Env) (check : Call → Bool) (n : Nat) (w : World) (i : Nat) :
    World.clean e check n (w.select i) ↔ World.clean e check n w := Iff.rfl

theorem World.clean_newFence (e : Env) (check : Call → Bool) (n : Nat) (w : World) (v : Nat) :
    World.clean e check n (w.newFence v) ↔ World.clean e check n w := Iff.rfl

theorem World.clean_self (e : Env) (check : Call → Bool) (w : World) :
    World.clean e check w.trace.length w := by
  intro t ev ht hn
  have := (List.getElem?_eq_some.mp ht).1
  omega


theorem post_bind_of {α β : Type} {x : Prog α} {f : α → Prog β} {s : GraphicsDirect3D} {w : World}
    {Q : α → GraphicsDirect3D → World → Prop} {R : β → GraphicsDirect3D → World → Prop}
    {A B : GraphicsDirect3D → World → Prop}
    (h1 : post x s w Q A B) (h2 : ∀ a s1 w1, Q a s1 w1 → post (f a) s1 w1 R A B) :
    post (x >>= f) s w R A B := by
  rw [post_bind]
  unfold post at h1 ⊢
  cases hx : x s w with
  | returned a s1 w1 => rw [hx] at h1; exact h2 a s1 w1 h1
  | aborted s1 w1 => rw [hx] at h1; exact h1
  | blocked s1 w1 => rw [hx] at h1; exact h1

theorem post_mono {α : Type} {x : Prog α} {s : GraphicsDirect3D} {w : World}
    {R R1 : α → GraphicsDirect3D → World → Prop} {A A1 B B1 : GraphicsDirect3D → World → Prop}
    (h : post x s w R A B) (hR : ∀ a s1 w1, R a s1 w1 → R1 a s1 w1)
    (hA : ∀ s1 w1, A s1 w1 → A1 s1 w1) (hB : ∀ s1 w1, B s1 w1 → B1 s1 w1) :
    post x s w R1 A1 B1 := by
  unfold post at h ⊢
  cases hx : x s w with
  | returned a s1 w1 => rw [hx] at h; exact hR a s1 w1 h
  | aborted s1 w1 => rw [hx] at h; exact hA s1 w1 h
  | blocked s1 w1 => rw [hx] at h; exact hB s1 w1 h

theorem retireOps_nil (n c : Nat) : retireOps n [] c = ([], c) := by
  cases n <;> rfl

theorem World.after_queue (e : Env) (c : Call) (p : Bool) (w : World) :
    (World.after e c p w).queue = (retireOps (e.retire w.trace.length) w.queue w.completed).1 := rfl

theorem World.after_completed (e : Env) (c : Call) (p : Bool) (w : World) :
    (World.after e c p w).completed
      = (retireOps (e.retire w.trace.length) w.queue w.completed).2 := rfl

theorem World.scanned_queue (e : Env) (p : Bool) :
    ∀ (l : List Adapter) (i : Nat) (w : World), w.queue = [] →
      (World.scanned e p l i w).queue = [] := by
  intro l
  induction l with
  | nil => intro i w h; simp [World.scanned, World.after_queue, h, retireOps_nil]
  | cons a rest ih =>
    intro i w h
    by_cases h1 : a.software = true <;> by_cases h2 : a.probeSucceeds = true <;>
      simp [World.scanned, h1, h2, World.after_queue, h, retireOps_nil] <;>
      apply ih <;> simp [World.after_queue, h, retireOps_nil]

/-! ## The GPU queue -/

theorem Mono.le : ∀ (q : List GpuOp) (c hi : Nat), Mono q c hi → c ≤ hi := by
  intro q
  induction q with
  | nil => intro c hi h; exact h
  | cons op q ih =>
    intro c hi h
    cases op with
    | execute => exact ih c hi h
    | signal x => exact le_trans h.1 (ih x hi h.2)

theorem Mono.queue_weaken : ∀ (q : List GpuOp) (c hi hi2 : Nat), Mono q c hi → hi ≤ hi2 →
    Mono q c hi2 := by
  intro q
  induction q with
  | nil => intro c hi hi2 h h2; exact le_trans h h2
  | cons op q ih =>
    intro c hi hi2 h h2
    cases op with
    | execute => exact ih c hi hi2 h h2
    | signal x => exact ⟨h.1, ih x hi hi2 h.2 h2⟩

theorem Mono.queue_retire (hi : Nat) : ∀ (n : Nat) (q : List GpuOp) (c : Nat), Mono q c hi →
    Mono (retireOps n q c).1 (retireOps n q c).2 hi ∧ c ≤ (retireOps n q c).2 := by
  intro n
  induction n with
  | zero => intro q c h; cases q <;> exact ⟨h, le_refl _⟩
  | succ n ih =>
    intro q c h
    cases q with
    | nil => exact ⟨h, le_refl _⟩
    | cons op q =>
      cases op with
      | execute => exact ih q c h
      | signal x =>
        obtain ⟨h1, h2⟩ := ih q x h.2
        exact ⟨h1, le_trans h.1 h2⟩

theorem Mono.queue_signal : ∀ (q : List GpuOp) (c hi x : Nat), Mono q c hi → hi ≤ x →
    Mono (q ++ [.signal x]) c x := by
  intro q
  induction q with
  | nil => intro c hi x h hx; exact ⟨le_trans h hx, le_refl _⟩
  | cons op q ih =>
    intro c hi x h hx
    cases op with
    | execute => exact ih c hi x h hx
    | signal y => exact ⟨h.1, ih y hi x h.2 hx⟩

theorem Mono.queue_execute : ∀ (q : List GpuOp) (c hi : Nat), Mono q c hi →
    Mono (q ++ [.execute]) c hi := by
  intro q
  induction q with
  | nil => intro c hi h; exact h
  | cons op q ih =>
    intro c hi h
    cases op with
    | execute => exact ih c hi h
    | signal y => exact ⟨h.1, ih y hi h.2⟩

theorem Mono.wait (v hi : Nat) : ∀ (q : List GpuOp) (c : Nat) (r : List GpuOp × Nat),
    Mono q c hi → runUntil v q c = some r → Mono r.1 r.2 hi ∧ c ≤ r.2 ∧ v ≤ r.2 := by
  intro q
  induction q with
  | nil =>
    intro c r h hr
    by_cases hv : v ≤ c
    · simp [runUntil, hv] at hr
      subst hr
      exact ⟨h, le_refl _, hv⟩
    · simp [runUntil, hv] at hr
  | cons op q ih =>
    intro c r h hr
    by_cases hv : v ≤ c
    · cases op <;> simp [runUntil, hv] at hr <;> subst hr <;> exact ⟨h, le_refl _, hv⟩
    · cases op with
      | execute =>
        simp [runUntil, hv] at hr
        exact ih c r h hr
      | signal x =>
        simp [runUntil, hv] at hr
        obtain ⟨h1, h2, h3⟩ := ih x r h.2 hr
        exact ⟨h1, le_trans h.1 h2, h3⟩

theorem Flow.after {lo hi : Nat} {w : World} (e : Env) (c : Call) (p : Bool) (h : Flow lo hi w) :
    Flow lo hi (World.after e c p w) := by
  obtain ⟨h1, h2⟩ := Mono.queue_retire hi (e.retire w.trace.length) w.queue w.completed h.2
  exact ⟨le_trans h.1 h2, h1⟩

theorem Flow.select {lo hi : Nat} {w : World} (i : Nat) (h : Flow lo hi w) :
    Flow lo hi (w.select i) := h

theorem Flow.submit_signal {lo hi : Nat} {w : World} (x : Nat) (h : Flow lo hi w) (hx : hi ≤ x) :
    Flow lo x (w.submit (.signal x)) :=
  ⟨h.1, Mono.queue_signal w.queue w.completed hi x h.2 hx⟩

theorem Flow.submit_execute {lo hi : Nat} {w : World} (h : Flow lo hi w) :
    Flow lo hi (w.submit .execute) :=
  ⟨h.1, Mono.queue_execute w.queue w.completed hi h.2⟩

theorem Flow.await {lo hi : Nat} {w : World} (v : Nat) (h : Flow lo hi w) :
    Flow lo hi (w.await v) := by
  unfold World.await
  cases hr : runUntil v w.queue w.completed with
  | none => exact h
  | some r =>
    obtain ⟨h1, h2, _⟩ := Mono.wait v hi w.queue w.completed r h.2 hr
    exact ⟨le_trans h.1 h2, h1⟩

theorem Flow.await_reached {lo hi : Nat} {w : World} (v : Nat) (h : Flow lo hi w)
    (hs : (runUntil v w.queue w.completed).isSome = true) :
    Flow v hi (w.await v) := by
  unfold World.await
  cases hr : runUntil v w.queue w.completed with
  | none => rw [hr] at hs; cases hs
  | some r =>
    obtain ⟨h1, _, h3⟩ := Mono.wait v hi w.queue w.completed r h.2 hr
    exact ⟨h3, h1⟩

theorem Flow.weaken {lo hi lo2 hi2 : Nat} {w : World} (h : Flow lo hi w) (h1 : lo2 ≤ lo)
    (h2 : hi ≤ hi2) : Flow lo2 hi2 w :=
  ⟨le_trans h1 h.1, Mono.queue_weaken w.queue w.completed hi hi2 h.2 h2⟩

theorem Flow.drained {lo hi : Nat} {w : World} (e : Env) (v : Nat) (p : Bool)
    (h : Flow lo hi w) (hv : hi ≤ v) : Flow v v (World.drained e v p w) := by
  have h1 : Flow lo v (World.after e .WaitForSingleObjectEx p
      (World.after e (.SetEventOnCompletion v) p
        ((World.after e (.Signal v) p w).submit (.signal v)))) :=
    Flow.after e _ p (Flow.after e _ p (Flow.submit_signal v (Flow.after e _ p h) hv))
  obtain ⟨r, hr, _⟩ := drained_wait e v p w
  exact Flow.await_reached v h1 (by rw [hr]; rfl)

/-! ## Several calls in a row -/

@[simp] theorem World.afterAll_nil (e : Env) (p : Bool) (w : World) :
    World.afterAll e p [] w = w := rfl

@[simp] theorem World.afterAll_cons (e : Env) (p : Bool) (c : Call) (cs : List Call) (w : World) :
    World.afterAll e p (c :: cs) w = World.afterAll e p cs (World.after e c p w) := rfl

@[simp] theorem World.afterAll_trace (e : Env) (p : Bool) : ∀ (cs : List Call) (w : World),
    (World.afterAll e p cs w).trace = w.trace ++ cs.map (fun c => ⟨c, p⟩) := by
  intro cs
  induction cs with
  | nil => intro w; simp
  | cons c cs ih => intro w; simp [ih]

@[simp] theorem World.afterAll_swapIndex (e : Env) (p : Bool) : ∀ (cs : List Call) (w : World),
    (World.afterAll e p cs w).swapIndex = w.swapIndex := by
  intro cs
  induction cs with
  | nil => intro w; simp
  | cons c cs ih => intro w; simp [ih]

theorem Flow.afterAll {lo hi : Nat} (e : Env) (p : Bool) : ∀ (cs : List Call) (w : World),
    Flow lo hi w → Flow lo hi (World.afterAll e p cs w) := by
  intro cs
  induction cs with
  | nil => intro w h; exact h
  | cons c cs ih => intro w h; exact ih _ (Flow.after e c p h)

@[simp] theorem World.drained_trace (e : Env) (v : Nat) (p : Bool) (w : World) :
    (World.drained e v p w).trace = w.trace ++
      [⟨.Signal v, p⟩, ⟨.SetEventOnCompletion v, p⟩, ⟨.WaitForSingleObjectEx, p⟩] := by
  simp [World.drained]

@[simp] theorem World.drained_swapIndex (e : Env) (v : Nat) (p : Bool) (w : World) :
    (World.drained e v p w).swapIndex = w.swapIndex := by
  simp [World.drained]

@[simp] theorem recordingCalls_length (e : Env) (s : GraphicsDirect3D) (w : World) :
    (recordingCalls e s w).length = 8 + (if w.swapIndex = 0 then 1 else 0) := by
  unfold recordingCalls
  split <;> simp

/-! ## One frame -/

/-- What `buildCommands` does when its checked and tested calls succeed. -/
theorem buildCommands_run (e : Env) (s : GraphicsDirect3D) (w : World)
    (h1 : e.fails w.trace.length (.ResetAllocator (s._commandAllocators s._backBufferIndex))
      = false)
    (h2 : e.fails (w.trace.length + 1)
      (.ResetCommandList (s._commandAllocators s._backBufferIndex)) = false)
    (h3 : e.fails (w.trace.length + (recordingCalls e s w).length) .Close = false)
    (h4 : e.fails (w.trace.length + (recordingCalls e s w).length + 1)
      (.Signal (s._fenceValues w.swapIndex)) = false)
    (h5 : e.fails (w.trace.length + (recordingCalls e s w).length + 2)
      (.SetEventOnCompletion (s._fenceValues w.swapIndex)) = false) :
    buildCommands e s w
      = .returned () (s.retargeted e w.swapIndex).bumped (World.built e s w) := by
  have hw := waitForGpu_run e (s.retargeted e w.swapIndex)
    (World.after e .Close s._prepared (World.afterAll e s._prepared (recordingCalls e s w) w))
    (by simpa [GraphicsDirect3D.retargeted, Nat.add_assoc] using h4)
    (by simpa [GraphicsDirect3D.retargeted, Nat.add_assoc] using h5)
  by_cases hz : w.swapIndex = 0
  · simp [recordingCalls, hz, Nat.add_assoc] at h3
    simp [recordingCalls, hz, GraphicsDirect3D.retargeted] at hw
    simp [buildCommands, bind_run, pure_run, self, assign, issue_run, fallible,
      GetCurrentBackBufferIndex, world, GetDescriptorHandleIncrementSize,
      GetCPUDescriptorHandleForHeapStart, D3D_CHECK_RESULT, Env.hresult, FAILED, h1, h2, h3, hz,
      hw, World.built, recordingCalls, GraphicsDirect3D.retargeted, Nat.add_assoc]
  · simp [recordingCalls, hz, Nat.add_assoc] at h3
    simp [recordingCalls, hz, GraphicsDirect3D.retargeted] at hw
    simp [buildCommands, bind_run, pure_run, self, assign, issue_run, fallible,
      GetCurrentBackBufferIndex, world, GetDescriptorHandleIncrementSize,
      GetCPUDescriptorHandleForHeapStart, D3D_CHECK_RESULT, Env.hresult, FAILED, h1, h2, h3, hz,
      hw, World.built, recordingCalls, GraphicsDirect3D.retargeted, Nat.add_assoc]

/-- An increment that stays below `2 ^ 64` does not wrap. -/
theorem uint64_t_of_lt {x : Nat} (h : x < 2 ^ 64) : uint64_t x = x :=
  Nat.mod_eq_of_lt h

theorem uint64_t_lt (x : Nat) : uint64_t x < 2 ^ 64 :=
  Nat.mod_lt x (by decide)

theorem prop_ite {c : Prop} [Decidable c] {P Q : Prop} (h1 : c → P) (h2 : ¬ c → Q) :
    if c then P else Q := by
  by_cases h : c
  · rw [if_pos h]; exact h1 h
  · rw [if_neg h]; exact h2 h

theorem post_buildCommands (e : Env) (hf : ∀ t c, e.fails t c = false) (s : GraphicsDirect3D)
    (w : World) (R : Unit → GraphicsDirect3D → World → Prop)
    (A B : GraphicsDirect3D → World → Prop) :
    post (buildCommands e) s w R A B
      = R () (s.retargeted e w.swapIndex).bumped (World.built e s w) := by
  unfold post
  rw [buildCommands_run e s w (hf _ _) (hf _ _) (hf _ _) (hf _ _) (hf _ _)]

theorem Flow.built {lo : Nat} (e : Env) (s : GraphicsDirect3D) (w : World)
    (h : Flow lo (s._fenceValues w.swapIndex) w) :
    Flow (s._fenceValues w.swapIndex) (s._fenceValues w.swapIndex) (World.built e s w) :=
  Flow.drained e _ _ (Flow.after e _ _ (Flow.afterAll e _ _ _ h)) (le_refl _)

@[simp] theorem World.built_swapIndex (e : Env) (s : GraphicsDirect3D) (w : World) :
    (World.built e s w).swapIndex = w.swapIndex := by
  simp [World.built]

@[simp] theorem World.built_trace (e : Env) (s : GraphicsDirect3D) (w : World) :
    (World.built e s w).trace = w.trace ++
      ((recordingCalls e s w).map (fun c => ⟨c, s._prepared⟩) ++
        [⟨.Close, s._prepared⟩, ⟨.Signal (s._fenceValues w.swapIndex), s._prepared⟩,
         ⟨.SetEventOnCompletion (s._fenceValues w.swapIndex), s._prepared⟩,
         ⟨.WaitForSingleObjectEx, s._prepared⟩]) := by
  simp [World.built]

theorem lastSignal_append_signal (l : List Event) (v : Nat) (p : Bool) :
    lastSignal (l ++ [⟨.Signal v, p⟩]) = some v := by
  simp [lastSignal]

theorem lastSignal_append_other (l : List Event) (ev : Event)
    (h : ∀ v, ev.call ≠ .Signal v) :
    lastSignal (l ++ [ev]) = lastSignal l := by
  obtain ⟨c, p⟩ := ev
  cases c <;> simp_all [lastSignal]

set_option maxHeartbeats 4000000 in
theorem render_paced (e : Env) (dt : ℚ) (s : GraphicsDirect3D) (w : World) (lo : Nat)
    (hf : ∀ t c, e.fails t c = false) (hp : s._prepared = true)
    (hi : s._backBufferIndex = w.swapIndex)
    (hflow : Flow lo (s._fenceValues s._backBufferIndex) w)
    (hnw : s._fenceValues s._backBufferIndex + 2 < 2 ^ 64) :
    post (render e dt) s w
      (fun _ s1 w1 => s1._prepared = true ∧ s1._backBufferIndex = w1.swapIndex ∧
        s1._fenceValues s1._backBufferIndex = s._fenceValues s._backBufferIndex + 2 ∧
        lastSignal w1.trace = some (s._fenceValues s._backBufferIndex + 1) ∧
        Flow (s._fenceValues s._backBufferIndex) (s._fenceValues s._backBufferIndex + 1) w1)
      (fun _ _ => True) (fun _ _ => True) := by
  rw [hi] at hflow hnw ⊢
  have hu1 : uint64_t (s._fenceValues w.swapIndex + 1) = s._fenceValues w.swapIndex + 1 :=
    uint64_t_of_lt (by omega)
  have hu2 : uint64_t (s._fenceValues w.swapIndex + 1 + 1) = s._fenceValues w.swapIndex + 2 :=
    uint64_t_of_lt (by omega)
  have hb := Flow.built e s w hflow
  simp [render, post_bind, post_pure, post_self, post_assign,
      post_affect, post_issue, post_ite, post_abort, post_world, post_blockUntil, fallible,
      Signal, SetEventOnCompletion, waitOn, ExecuteCommandLists, Present, reindexing,
      GetCurrentBackBufferIndex, GetCompletedValue, post_buildCommands e hf, hf, hp,
      GraphicsDirect3D.bumped, GraphicsDirect3D.retargeted, hu1, hu2, -World.built_trace]
  refine prop_ite (fun _ _ => ⟨by simp [lastSignal], ?_⟩) (fun _ => ⟨by simp [lastSignal], ?_⟩)
  · exact Flow.await _ (Flow.after e _ _ (Flow.after e _ _ (Flow.after e _ _ (Flow.after e _ _
      (Flow.submit_signal _ (Flow.after e _ _ (Flow.select _ (Flow.after e _ _
        (Flow.submit_execute (Flow.after e _ _ hb))))) (Nat.le_succ _))))))
  · exact Flow.after e _ _ (Flow.after e _ _
      (Flow.submit_signal _ (Flow.after e _ _ (Flow.select _ (Flow.after e _ _
        (Flow.submit_execute (Flow.after e _ _ hb))))) (Nat.le_succ _)))

/-- Frames one after the other: after the last of them the fence has reached
the value the drain of that frame signalled, and the last signalled value is
one more. -/
theorem renderAll_paced (e : Env) (hf : ∀ t c, e.fails t c = false) :
    ∀ (rest : List ℚ) (dt : ℚ) (s : GraphicsDirect3D) (w : World) (lo : Nat),
      s._prepared = true → s._backBufferIndex = w.swapIndex →
      Flow lo (s._fenceValues s._backBufferIndex) w →
      s._fenceValues s._backBufferIndex + 2 * rest.length + 2 < 2 ^ 64 →
      post (renderAll e (dt :: rest)) s w
        (fun _ s1 w1 => s1._prepared = true ∧ s1._backBufferIndex = w1.swapIndex ∧
          s1._fenceValues s1._backBufferIndex
            = s._fenceValues s._backBufferIndex + 2 * rest.length + 2 ∧
          lastSignal w1.trace = some (s._fenceValues s._backBufferIndex + 2 * rest.length + 1) ∧
          Flow (s._fenceValues s._backBufferIndex + 2 * rest.length)
            (s._fenceValues s._backBufferIndex + 2 * rest.length + 1) w1)
        (fun _ _ => True) (fun _ _ => True) := by
  intro rest
  induction rest with
  | nil =>
    intro dt s w lo hp hi hflow hnw
    show post (render e dt >>= fun _ => pure ()) s w _ _ _
    refine post_bind_of (render_paced e dt s w lo hf hp hi hflow (by simpa using hnw)) ?_
    intro _ s1 w1 h
    simpa [post_pure] using h
  | cons dt2 rest ih =>
    intro dt s w lo hp hi hflow hnw
    simp only [List.length_cons] at hnw
    show post (render e dt >>= fun _ => renderAll e (dt2 :: rest)) s w _ _ _
    refine post_bind_of (render_paced e dt s w lo hf hp hi hflow (by omega)) ?_
    intro _ s1 w1 ⟨h1, h2, h3, _, h5⟩
    have h6 : Flow (s._fenceValues s._backBufferIndex)
        (s1._fenceValues s1._backBufferIndex) w1 := by
      rw [h3]; exact Flow.weaken h5 (le_refl _) (Nat.le_succ _)
    refine post_mono (ih dt2 s1 w1 _ h1 h2 h6 (by rw [h3]; omega)) ?_ (fun _ _ h => h)
      (fun _ _ h => h)
    intro _ s2 w2 ⟨g1, g2, g3, g4, g5⟩
    rw [h3] at g3 g4 g5
    refine ⟨g1, g2, ?_, ?_, ?_⟩
    · rw [g3]; simp only [List.length_cons]; ring
    · rw [g4]; simp only [List.length_cons]; congr 1; ring
    · have e1 : s._fenceValues s._backBufferIndex + 2 * (dt2 :: rest).length
          = s._fenceValues s._backBufferIndex + 2 + 2 * rest.length := by
        simp only [List.length_cons]; ring
      rw [e1]; exact g5

theorem renderAll_append (e : Env) : ∀ (l1 l2 : List ℚ) (s : GraphicsDirect3D) (w : World),
    renderAll e (l1 ++ l2) s w = (renderAll e l1 >>= fun _ => renderAll e l2) s w := by
  intro l1
  induction l1 with
  | nil => intro l2 s w; rfl
  | cons dt l1 ih =>
    intro l2 s w
    show (render e dt >>= fun _ => renderAll e (l1 ++ l2)) s w
      = ((render e dt >>= fun _ => renderAll e l1) >>= fun _ => renderAll e l2) s w
    rw [bind_run, bind_run, bind_run]
    cases render e dt s w with
    | returned a s1 w1 => simp only; rw [ih l2 s1 w1, bind_run]
    | aborted s1 w1 => rfl
    | blocked s1 w1 => rfl

/-! ## Startup, section by section -/

/-- What the device keeps from the configuration, and its two status flags. -/
theorem readConfigAndValidation_ok (e : Env) (window : Nat) (s : GraphicsDirect3D) (w : World)
    (hf : ∀ t c, e.fails t c = false) :
    post (readConfigAndValidation e window) s w
      (fun _ s1 w1 => s1._initialized = s._initialized ∧ s1._prepared = s._prepared ∧
        s1._fullscreen = e.config.fullscreen ∧ s1._vsync = e.config.vsync ∧
        s1._multisampling = e.config.multisampling ∧ s1._validation = e.config.validation ∧
        (w.queue = [] → w1.queue = []))
      (fun _ _ => False) (fun _ _ => False) := by
  cases hd : e.debugBuild <;> cases hv : e.config.validation <;>
  simp +contextual [readConfigAndValidation, post_bind, post_pure, post_self, post_assign,
    post_issue, post_ite, post_onlyIf, fallible, hf, hd, hv, World.after_queue, retireOps_nil]

theorem createFactoryDeviceQueue_ok (e : Env) (flags : Nat) (s : GraphicsDirect3D) (w : World)
    (hf : ∀ t c, e.fails t c = false) :
    post (createFactoryDeviceQueue e flags) s w
      (fun _ s1 w1 => s1._initialized = s._initialized ∧ s1._prepared = s._prepared ∧
        s1._fullscreen = s._fullscreen ∧ s1._vsync = s._vsync ∧
        s1._multisampling = s._multisampling ∧ s1._validation = s._validation ∧
        (w.queue = [] → w1.queue = []))
      (fun _ _ => False) (fun _ _ => False) := by
  simp +contextual [createFactoryDeviceQueue, post_bind, post_pure, post_self, post_assign,
    post_issue, post_ite, post_onlyIf, post_loop, post_abort, create, hf, getHardwareAdapter, GP_ERROR, D3D_CHECK_RESULT,
    World.after_queue, retireOps_nil, World.scanned_queue]

set_option maxHeartbeats 4000000 in
theorem pickDisplayMode_ok (e : Env) (s : GraphicsDirect3D) (w : World)
    (hf : ∀ t c, e.fails t c = false) :
    post (pickDisplayMode e) s w
      (fun _ s1 w1 => s1._initialized = s._initialized ∧ s1._prepared = s._prepared ∧
        s1._fullscreen = s._fullscreen ∧ s1._vsync = s._vsync ∧
        s1._multisampling = s._multisampling ∧ s1._validation = s._validation ∧
        (w.queue = [] → w1.queue = []))
      (fun _ _ => e.displayModes = []) (fun _ _ => False) := by
  cases hfind : findDisplayMode s._width s._height e.displayModes 0 <;>
  simp +contextual [pickDisplayMode, post_bind, post_pure, post_self, post_assign,
    post_issue, post_ite, post_onlyIf, post_abort, create, fallible, hf, hfind, matchDisplayMode,
    GP_ERROR, D3D_CHECK_RESULT, SAFE_RELEASE, World.after_queue, retireOps_nil]

theorem createSwapchain_ok (e : Env) (factory : Option Nat) (s : GraphicsDirect3D) (w : World)
    (hf : ∀ t c, e.fails t c = false) :
    post (createSwapchain e factory) s w
      (fun _ s1 w1 => s1._initialized = s._initialized ∧ s1._prepared = s._prepared ∧
        s1._fullscreen = s._fullscreen ∧ s1._vsync = s._vsync ∧
        s1._multisampling = s._multisampling ∧ s1._validation = s._validation ∧
        (w.queue = [] → w1.queue = []))
      (fun _ _ => False) (fun _ _ => False) := by
  cases factory <;>
  simp +contextual [createSwapchain, post_bind, post_pure, post_self, post_assign, post_affect,
    post_issue, post_ite, post_onlyIf, create, hf, D3D_CHECK_RESULT, CreateSwapChainForHwnd,
    SAFE_RELEASE, World.after_queue, retireOps_nil, post_abort]

set_option maxHeartbeats 4000000 in
theorem createFrameResources_ok (e : Env) (s : GraphicsDirect3D) (w : World)
    (hf : ∀ t c, e.fails t c = false) :
    post (createFrameResources e) s w
      (fun _ s1 w1 => s1._initialized = s._initialized ∧ s1._prepared = s._prepared ∧
        s1._fullscreen = s._fullscreen ∧ s1._vsync = s._vsync ∧
        s1._multisampling = s._multisampling ∧ s1._validation = s._validation ∧
        s1._backBufferIndex = w1.swapIndex ∧
        (∀ i, i < GP_GRAPHICS_BACK_BUFFERS → (s1._renderTargets i).isSome = true) ∧
        (w.queue = [] → w1.queue = []))
      (fun _ _ => False) (fun _ _ => False) := by
  simp +contextual [createFrameResources, post_bind, post_pure, post_self, post_assign,
    post_world, post_issue, post_ite, post_onlyIf, post_abort, create, fallible, hf, D3D_CHECK_RESULT,
    GetCurrentBackBufferIndex, forLoop, GP_GRAPHICS_BACK_BUFFERS, createRenderTargets,
    GetDescriptorHandleIncrementSize, GetCPUDescriptorHandleForHeapStart,
    World.after_queue, retireOps_nil]
  intro i hi
  interval_cases i <;> simp

theorem createFenceAndEvent_ok (e : Env) (s : GraphicsDirect3D) (w : World)
    (hf : ∀ t c, e.fails t c = false) :
    post (createFenceAndEvent e) s w
      (fun _ s1 w1 => s1._initialized = s._initialized ∧ s1._prepared = s._prepared ∧
        s1._fullscreen = s._fullscreen ∧ s1._vsync = s._vsync ∧
        s1._multisampling = s._multisampling ∧ s1._validation = s._validation ∧
        s1._backBufferIndex = s._backBufferIndex ∧ s1._renderTargets = s._renderTargets ∧
        w1.swapIndex = w.swapIndex ∧
        (w.queue = [] → w1.queue = [] ∧ w1.completed = 0))
      (fun _ _ => False) (fun _ _ => False) := by
  simp +contextual [createFenceAndEvent, post_bind, post_pure, post_self, post_assign,
    post_affect, post_issue, post_ite, post_onlyIf, create, hf, D3D_CHECK_RESULT, CreateFence,
    World.after_queue, World.after_completed, retireOps_nil, post_abort]

/-- A startup in which nothing fails: it returns, unless no display mode was
found, and then aborts. -/
theorem startup_ok (e : Env) (window connection : Nat) (s : GraphicsDirect3D) (w : World)
    (hi : s._initialized = false) (hf : ∀ t c, e.fails t c = false) :
    post (initializeDevice e window connection) s w
      (fun _ s1 w1 => s1._initialized = true ∧ s1._prepared = true ∧
        s1._fullscreen = e.config.fullscreen ∧ s1._vsync = e.config.vsync ∧
        s1._multisampling = e.config.multisampling ∧ s1._validation = e.config.validation ∧
        s1._backBufferIndex = w1.swapIndex ∧
        (∀ i, i < GP_GRAPHICS_BACK_BUFFERS → (s1._renderTargets i).isSome = true) ∧
        (w.queue = [] → w1.queue = [] ∧ w1.completed = 0))
      (fun _ _ => e.displayModes = []) (fun _ _ => False) := by
  unfold initializeDevice
  simp only [post_bind, post_pure, post_self, post_assign, post_ite, hi, Bool.false_eq_true,
    if_false]
  refine post_mono (readConfigAndValidation_ok e window s w hf) ?_ (fun _ _ h => h.elim)
    (fun _ _ h => h)
  intro flags s1 w1 h1
  refine post_mono (createFactoryDeviceQueue_ok e flags s1 w1 hf) ?_ (fun _ _ h => h.elim)
    (fun _ _ h => h)
  intro factory s2 w2 h2
  refine post_mono (pickDisplayMode_ok e s2 w2 hf) ?_ (fun _ _ h => h) (fun _ _ h => h)
  intro _ s3 w3 h3
  refine post_mono (createSwapchain_ok e factory s3 w3 hf) ?_ (fun _ _ h => h.elim)
    (fun _ _ h => h)
  intro _ s4 w4 h4
  refine post_mono (createFrameResources_ok e s4 w4 hf) ?_ (fun _ _ h => h.elim)
    (fun _ _ h => h)
  intro _ s5 w5 h5
  refine post_mono (createFenceAndEvent_ok e s5 w5 hf) ?_ (fun _ _ h => h.elim)
    (fun _ _ h => h)
  intro _ s6 w6 h6
  obtain ⟨a1, a2, a3, a4, a5, a6, a7⟩ := h1
  obtain ⟨b1, b2, b3, b4, b5, b6, b7⟩ := h2
  obtain ⟨c1, c2, c3, c4, c5, c6, c7⟩ := h3
  obtain ⟨d1, d2, d3, d4, d5, d6, d7⟩ := h4
  obtain ⟨e1, e2, e3, e4, e5, e6, e7, e8, e9⟩ := h5
  obtain ⟨f1, f2, f3, f4, f5, f6, f7, f8, f9, f10⟩ := h6
  refine ⟨trivial, trivial, ?_, ?_, ?_, ?_, ?_, ?_, ?_⟩
  · show s6._fullscreen = _
    rw [f3, e3, d3, c3, b3, a3]
  · show s6._vsync = _
    rw [f4, e4, d4, c4, b4, a4]
  · show s6._multisampling = _
    rw [f5, e5, d5, c5, b5, a5]
  · show s6._validation = _
    rw [f6, e6, d6, c6, b6, a6]
  · show s6._backBufferIndex = w6.swapIndex
    rw [f7, f9, e7]
  · intro i hi2
    show (s6._renderTargets i).isSome = true
    rw [f8]; exact e8 i hi2
  · intro hq
    exact f10 (e9 (d7 (c7 (b7 (a7 hq)))))

theorem readConfigAndValidation_checked (e : Env) (window n : Nat) (s : GraphicsDirect3D)
    (w : World) (h : World.clean e checkedAtSetup n w) :
    post (readConfigAndValidation e window) s w
      (fun _ s1 w1 => s1._initialized = s._initialized ∧ s1._prepared = s._prepared ∧
        World.clean e checkedAtSetup n w1)
      (fun s1 _ => s1._initialized = s._initialized ∧ s1._prepared = s._prepared)
      (fun _ _ => False) := by
  cases hd : e.debugBuild <;> cases hv : e.config.validation <;>
  simp +contextual [readConfigAndValidation, post_bind, post_pure, post_self, post_assign,
    post_issue, post_ite, post_onlyIf, post_abort, fallible, hd, hv, h, World.clean_after,
    checkedAtSetup]

theorem createFactoryDeviceQueue_checked (e : Env) (flags n : Nat) (s : GraphicsDirect3D)
    (w : World) (h : World.clean e checkedAtSetup n w) :
    post (createFactoryDeviceQueue e flags) s w
      (fun _ s1 w1 => s1._initialized = s._initialized ∧ s1._prepared = s._prepared ∧
        World.clean e checkedAtSetup n w1)
      (fun s1 _ => s1._initialized = s._initialized ∧ s1._prepared = s._prepared)
      (fun _ _ => False) := by
  simp +contextual [createFactoryDeviceQueue, post_bind, post_pure, post_self, post_assign,
    post_issue, post_ite, post_onlyIf, post_loop, post_abort, create, getHardwareAdapter,
    GP_ERROR, D3D_CHECK_RESULT, h, World.clean_after, World.clean_scanned, checkedAtSetup]

set_option maxHeartbeats 4000000 in
theorem pickDisplayMode_checked (e : Env) (n : Nat) (s : GraphicsDirect3D)
    (w : World) (h : World.clean e checkedAtSetup n w) :
    post (pickDisplayMode e) s w
      (fun _ s1 w1 => s1._initialized = s._initialized ∧ s1._prepared = s._prepared ∧
        World.clean e checkedAtSetup n w1)
      (fun s1 _ => s1._initialized = s._initialized ∧ s1._prepared = s._prepared)
      (fun _ _ => False) := by
  cases hfind : findDisplayMode s._width s._height e.displayModes 0 <;>
  simp [pickDisplayMode, post_bind, post_pure, post_self, post_assign,
    post_issue, post_ite, post_onlyIf, post_abort, create, fallible, hfind, matchDisplayMode,
    GP_ERROR, D3D_CHECK_RESULT, SAFE_RELEASE, h, World.clean_after, checkedAtSetup] <;>
  intros <;> simp_all [post_bind, post_pure, post_assign, post_issue, World.clean_after,
    checkedAtSetup]

theorem createSwapchain_checked (e : Env) (factory : Option Nat) (n : Nat)
    (s : GraphicsDirect3D) (w : World) (h : World.clean e checkedAtSetup n w) :
    post (createSwapchain e factory) s w
      (fun _ s1 w1 => s1._initialized = s._initialized ∧ s1._prepared = s._prepared ∧
        World.clean e checkedAtSetup n w1)
      (fun s1 _ => s1._initialized = s._initialized ∧ s1._prepared = s._prepared)
      (fun _ _ => False) := by
  cases factory <;>
  simp +contextual [createSwapchain, post_bind, post_pure, post_self, post_assign, post_affect,
    post_issue, post_ite, post_onlyIf, post_abort, create, D3D_CHECK_RESULT,
    CreateSwapChainForHwnd, SAFE_RELEASE, h, World.clean_after, World.clean_select,
    checkedAtSetup]

set_option maxHeartbeats 4000000 in
theorem createFrameResources_checked (e : Env) (n : Nat) (s : GraphicsDirect3D)
    (w : World) (h : World.clean e checkedAtSetup n w) :
    post (createFrameResources e) s w
      (fun _ s1 w1 => s1._initialized = s._initialized ∧ s1._prepared = s._prepared ∧
        World.clean e checkedAtSetup n w1)
      (fun s1 _ => s1._initialized = s._initialized ∧ s1._prepared = s._prepared)
      (fun _ _ => False) := by
  simp [createFrameResources, post_bind, post_pure, post_self, post_assign,
    post_world, post_issue, post_ite, post_abort, create, fallible, D3D_CHECK_RESULT,
    GetCurrentBackBufferIndex, forLoop, GP_GRAPHICS_BACK_BUFFERS, createRenderTargets,
    GetDescriptorHandleIncrementSize, GetCPUDescriptorHandleForHeapStart, h,
    World.clean_after, checkedAtSetup]
  intros
  simp_all

theorem createFenceAndEvent_checked (e : Env) (n : Nat) (s : GraphicsDirect3D)
    (w : World) (h : World.clean e checkedAtSetup n w) :
    post (createFenceAndEvent e) s w
      (fun _ s1 w1 => s1._initialized = s._initialized ∧ s1._prepared = s._prepared ∧
        World.clean e checkedAtSetup n w1)
      (fun s1 _ => s1._initialized = s._initialized ∧ s1._prepared = s._prepared)
      (fun _ _ => False) := by
  simp +contextual [createFenceAndEvent, post_bind, post_pure, post_self, post_assign,
    post_affect, post_issue, post_ite, post_abort, create, D3D_CHECK_RESULT, CreateFence, h,
    World.clean_after, World.clean_newFence, checkedAtSetup]

/-- A startup either returns, and then no call it checks has failed, or aborts
the process with `_initialized` still false; it never blocks. -/
theorem startup_checked (e : Env) (window connection : Nat) (s : GraphicsDirect3D) (w : World)
    (hi : s._initialized = false) :
    post (initializeDevice e window connection) s w
      (fun _ s1 w1 => s1._initialized = true ∧ s1._prepared = true ∧
        World.clean e checkedAtSetup w.trace.length w1)
      (fun s1 _ => s1._initialized = false ∧ s1._prepared = s._prepared)
      (fun _ _ => False) := by
  have h0 := World.clean_self e checkedAtSetup w
  unfold initializeDevice
  simp only [post_bind, post_pure, post_self, post_assign, post_ite, hi, Bool.false_eq_true,
    if_false]
  refine post_mono (readConfigAndValidation_checked e window _ s w h0) ?_ ?_ (fun _ _ h => h)
  swap
  · intro s1 _ h; exact ⟨h.1.trans hi, h.2⟩
  intro flags s1 w1 ⟨a1, a2, a3⟩
  refine post_mono (createFactoryDeviceQueue_checked e flags _ s1 w1 a3) ?_ ?_ (fun _ _ h => h)
  swap
  · intro s2 _ h; exact ⟨h.1.trans (a1.trans hi), h.2.trans a2⟩
  intro factory s2 w2 ⟨b1, b2, b3⟩
  refine post_mono (pickDisplayMode_checked e _ s2 w2 b3) ?_ ?_ (fun _ _ h => h)
  swap
  · intro s3 _ h; exact ⟨h.1.trans (b1.trans (a1.trans hi)), h.2.trans (b2.trans a2)⟩
  intro _ s3 w3 ⟨c1, c2, c3⟩
  refine post_mono (createSwapchain_checked e factory _ s3 w3 c3) ?_ ?_ (fun _ _ h => h)
  swap
  · intro s4 _ h
    exact ⟨h.1.trans (c1.trans (b1.trans (a1.trans hi))), h.2.trans (c2.trans (b2.trans a2))⟩
  intro _ s4 w4 ⟨d1, d2, d3⟩
  refine post_mono (createFrameResources_checked e _ s4 w4 d3) ?_ ?_ (fun _ _ h => h)
  swap
  · intro s5 _ h
    exact ⟨h.1.trans (d1.trans (c1.trans (b1.trans (a1.trans hi)))),
      h.2.trans (d2.trans (c2.trans (b2.trans a2)))⟩
  intro _ s5 w5 ⟨e1, e2, e3⟩
  refine post_mono (createFenceAndEvent_checked e _ s5 w5 e3) ?_ ?_ (fun _ _ h => h)
  swap
  · intro s6 _ h
    exact ⟨h.1.trans (e1.trans (d1.trans (c1.trans (b1.trans (a1.trans hi))))),
      h.2.trans (e2.trans (d2.trans (c2.trans (b2.trans a2))))⟩
  intro _ s6 w6 ⟨f1, f2, f3⟩
  exact ⟨trivial, trivial, f3⟩

theorem retireOps_zero (q : List GpuOp) (c : Nat) : retireOps 0 q c = (q, c) := by
  cases q <;> rfl

/-- The sample startup: on `healthy`, `initialize` with window handle 7 takes
the freshly constructed device to `readyDevice` and the world to `readyWorld`. -/
theorem startup_healthy :
    initializeDevice healthy 7 0 (GraphicsDirect3D.new zeroed) World.start
      = .returned () readyDevice readyWorld := by
  simp [initializeDevice, readConfigAndValidation, createFactoryDeviceQueue, pickDisplayMode,
    createSwapchain, createFrameResources, createFenceAndEvent, matchDisplayMode, onlyIf,
    bind_run, pure_run, self, assign, affect, issue_run, healthy,
    GraphicsDirect3D.new, zeroed, World.start, defaultConfig, fallible, create, Env.hresult,
    FAILED, SUCCEEDED, GP_ERROR, D3D_CHECK_RESULT, getHardwareAdapter, getHardwareAdapterLoop,
    findDisplayMode, SAFE_RELEASE, CreateSwapChainForHwnd, GetCurrentBackBufferIndex, world,
    forLoop, GP_GRAPHICS_BACK_BUFFERS, createRenderTargets, GetDescriptorHandleIncrementSize,
    GetCPUDescriptorHandleForHeapStart, CreateFence, World.after, World.advance, World.log,
    World.select, World.newFence,
    retireOps_zero, readyDevice, readyWorld, startupCalls, DXGI_CREATE_FACTORY_DEBUG]

/-- C9, counterexample: on `modeless` every backend call succeeds, yet `initialize`
on the freshly constructed device aborts on the empty display-mode list and
leaves `_initialized` false. -/
theorem initialize_without_modes_aborts :
    (∀ t c, modeless.fails t c = false) ∧
    (initializeDevice modeless 7 0 (GraphicsDirect3D.new zeroed) World.start).isAborted = true ∧
    (initializeDevice modeless 7 0 (GraphicsDirect3D.new zeroed) World.start).state._initialized
      = false := by
  refine ⟨fun _ _ => rfl, ?_⟩
  simp [initializeDevice, readConfigAndValidation, createFactoryDeviceQueue, pickDisplayMode,
    onlyIf, bind_run, pure_run, self, assign, issue_run, healthy, modeless,
    GraphicsDirect3D.new, zeroed, defaultConfig, fallible, create, Env.hresult,
    FAILED, GP_ERROR, D3D_CHECK_RESULT, getHardwareAdapter, getHardwareAdapterLoop, abort,
    Outcome.isAborted, Outcome.state]

/-- C10, counterexample: on `undebuggable` the call `D3D12GetDebugInterface`
made by `initialize` fails (it is the second call, followed by the factory
creation), and `initialize` still returns with `_initialized` and `_prepared`
both true. -/
theorem initialize_tolerates_debug_interface_failure :
    undebuggable.fails 1 .D3D12GetDebugInterface = true ∧
    (calls (initializeDevice undebuggable 7 0 (GraphicsDirect3D.new zeroed)
      World.start).world.trace).take 3
        = [.getConfig, .D3D12GetDebugInterface, .CreateDXGIFactory2 1] ∧
    (initializeDevice undebuggable 7 0 (GraphicsDirect3D.new zeroed) World.start).isReturned = true ∧
    (initializeDevice undebuggable 7 0 (GraphicsDirect3D.new zeroed) World.start).state._initialized
      = true ∧
    (initializeDevice undebuggable 7 0 (GraphicsDirect3D.new zeroed) World.start).state._prepared
      = true := by
  refine ⟨rfl, ?_⟩
  simp [initializeDevice, readConfigAndValidation, createFactoryDeviceQueue, pickDisplayMode,
    createSwapchain, createFrameResources, createFenceAndEvent, matchDisplayMode, onlyIf,
    bind_run, pure_run, self, assign, affect, issue_run, healthy, undebuggable,
    GraphicsDirect3D.new, zeroed, World.start, defaultConfig, fallible, create, Env.hresult,
    FAILED, SUCCEEDED, GP_ERROR, D3D_CHECK_RESULT, getHardwareAdapter, getHardwareAdapterLoop,
    findDisplayMode, SAFE_RELEASE, CreateSwapChainForHwnd, GetCurrentBackBufferIndex, world,
    forLoop, GP_GRAPHICS_BACK_BUFFERS, createRenderTargets, GetDescriptorHandleIncrementSize,
    GetCPUDescriptorHandleForHeapStart, CreateFence, calls,
    Outcome.isReturned, Outcome.state, Outcome.world, DXGI_CREATE_FACTORY_DEBUG]

/-- A program that never aborts nor blocks returns. -/
theorem post_returned {α : Type} {x : Prog α} {s : GraphicsDirect3D} {w : World}
    {R : α → GraphicsDirect3D → World → Prop}
    (h : post x s w R (fun _ _ => False) (fun _ _ => False)) :
    ∃ a s1 w1, x s w = .returned a s1 w1 ∧ R a s1 w1 := by
  unfold post at h
  cases hx : x s w with
  | returned a s1 w1 => rw [hx] at h; exact ⟨a, s1, w1, rfl, h⟩
  | aborted s1 w1 => rw [hx] at h; exact h.elim
  | blocked s1 w1 => rw [hx] at h; exact h.elim

/-- An initialized device is left alone by `initialize`. -/
theorem initialize_guard (e : Env) (window connection : Nat) (s : GraphicsDirect3D) (w : World)
    (h : s._initialized = true) :
    initializeDevice e window connection s w = .returned () s w := by
  simp [initializeDevice, bind_run, pure_run, self, h]

/-- Whenever `initialize` returns, the device is initialized. -/
theorem initialize_returns_initialized (e : Env) (window connection : Nat)
    (s s1 : GraphicsDirect3D) (w w1 : World)
    (h : initializeDevice e window connection s w = .returned () s1 w1) :
    s1._initialized = true := by
  cases hi : s._initialized with
  | true =>
    rw [initialize_guard e window connection s w hi] at h
    cases h
    exact hi
  | false =>
    have hp := startup_checked e window connection s w hi
    unfold post at hp
    rw [h] at hp
    exact hp.1

/-! ## The claims on `render` and `resize` guards -/

/-- C1: `render` on a device that is not prepared returns at once: no member
changes and no external call is issued (the world, call log included, is the
one it started from). -/
theorem render_not_prepared_noop (e : Env) (elapsedTime : ℚ) (s : GraphicsDirect3D) (w : World)
    (h : s._prepared = false) :
    render e elapsedTime s w = .returned () s w := by
  simp [render, bind_run, pure_run, self, h]

/-- C2: `resize` returns at once when the device is not prepared, and also
when the requested size is the stored one: no member changes and no external
call is issued. -/
theorem resize_guard_noop (e : Env) (width height : Int) (s : GraphicsDirect3D) (w : World)
    (h : s._prepared = false ∨ (width = s._width ∧ height = s._height)) :
    resize e width height s w = .returned () s w := by
  rcases h with h | ⟨h1, h2⟩
  · simp [resize, bind_run, pure_run, self, h]
  · simp [resize, bind_run, pure_run, self, h1, h2]

/-- Witness for C1: the freshly constructed device is not prepared, and
rendering on it changes nothing. -/
theorem render_not_prepared_noop_witness :
    (GraphicsDirect3D.new zeroed)._prepared = false ∧
    render healthy 0 (GraphicsDirect3D.new zeroed) World.start
      = .returned () (GraphicsDirect3D.new zeroed) World.start :=
  ⟨rfl, render_not_prepared_noop healthy 0 (GraphicsDirect3D.new zeroed) World.start rfl⟩

/-- Witness for C2: resizing the started device to the size it already has
changes nothing. -/
theorem resize_guard_noop_witness :
    ((1920 : Int) = readyDevice._width ∧ (1080 : Int) = readyDevice._height) ∧
    resize healthy 1920 1080 readyDevice readyWorld = .returned () readyDevice readyWorld :=
  ⟨⟨rfl, rfl⟩, resize_guard_noop healthy 1920 1080 readyDevice readyWorld (Or.inr ⟨rfl, rfl⟩)⟩

/-! ## The claims on `initialize` -/

/-- C8: `initialize` is idempotent.  On a device with `_initialized = true` it
returns at once: no member changes (window handle, width, height and
back-buffer index included) and no external call is issued, so the
configuration is not read and nothing is created.  Hence a second `initialize`
after a first one changes nothing: the pair ends exactly as the first call
alone. -/
theorem initialize_idempotent (e : Env) (window connection window2 connection2 : Nat)
    (s : GraphicsDirect3D) (w : World) :
    (s._initialized = true → initializeDevice e window connection s w = .returned () s w) ∧
    (initializeDevice e window connection >>= fun _ => initializeDevice e window2 connection2) s w
      = initializeDevice e window connection s w := by
  refine ⟨initialize_guard e window connection s w, ?_⟩
  rw [bind_run]
  cases h : initializeDevice e window connection s w with
  | returned a s1 w1 =>
    exact initialize_guard e window2 connection2 s1 w1
      (initialize_returns_initialized e window connection s s1 w w1 h)
  | aborted s1 w1 => rfl
  | blocked s1 w1 => rfl

/-- C9, amended: starting from the freshly constructed device, an `initialize`
call in which every backend call succeeds and the display-mode enumeration
reports at least one mode returns with `isInitialized` and `isPrepared` true,
with the stored fullscreen, vsync, multisampling and validation equal to the
configuration's, and with the stored back-buffer index equal to the
swapchain's current index. -/
theorem initialize_success (e : Env) (window connection : Nat) (u : Indeterminate) (w : World)
    (hm : e.displayModes ≠ []) (hf : ∀ t c, e.fails t c = false) :
    ∃ s1 w1, initializeDevice e window connection (GraphicsDirect3D.new u) w = .returned () s1 w1 ∧
      isInitialized s1 = true ∧ isPrepared s1 = true ∧
      s1._fullscreen = e.config.fullscreen ∧ s1._vsync = e.config.vsync ∧
      s1._multisampling = e.config.multisampling ∧ s1._validation = e.config.validation ∧
      s1._backBufferIndex = w1.swapIndex := by
  obtain ⟨_, s1, w1, h, h1, h2, h3, h4, h5, h6, h7, _⟩ :=
    post_returned (post_mono (startup_ok e window connection (GraphicsDirect3D.new u) w rfl hf)
      (fun _ _ _ h => h) (fun _ _ h => hm h) (fun _ _ h => h))
  exact ⟨s1, w1, h, h1, h2, h3, h4, h5, h6, h7⟩

/-- C10, amended: a failure of any call that `initialize` checks (factory,
device, command queue, adapter and output enumeration, both display-mode
queries, swapchain and its interface query, descriptor heap, each command
allocator, command list and its `Close`, each render-target buffer, fence) is
fatal.  If such a call issued by this `initialize` failed, the process was
aborted with `_initialized` still false and `_prepared` as it was; and when
`initialize` returns, with `_initialized = _prepared = true`, every such call
it issued succeeded.  A failure of `D3D12GetDebugInterface` is tolerated. -/
theorem initialize_checked_failure_is_fatal (e : Env) (window connection : Nat)
    (s : GraphicsDirect3D) (w : World) (hi : s._initialized = false) :
    (∀ t ev, (initializeDevice e window connection s w).world.trace[t]? = some ev →
      w.trace.length ≤ t → checkedAtSetup ev.call = true → e.fails t ev.call = true →
        (initializeDevice e window connection s w).isAborted = true ∧
        (initializeDevice e window connection s w).state._initialized = false ∧
        (initializeDevice e window connection s w).state._prepared = s._prepared) ∧
    ((initializeDevice e window connection s w).isReturned = true →
      (initializeDevice e window connection s w).state._initialized = true ∧
      (initializeDevice e window connection s w).state._prepared = true ∧
      ∀ t ev, (initializeDevice e window connection s w).world.trace[t]? = some ev →
        w.trace.length ≤ t → checkedAtSetup ev.call = true → e.fails t ev.call = false) := by
  have hp := startup_checked e window connection s w hi
  unfold post at hp
  cases h : initializeDevice e window connection s w with
  | returned a s1 w1 =>
    rw [h] at hp
    refine ⟨?_, fun _ => hp⟩
    intro t ev ht hn hc hfail
    have := hp.2.2 t ev ht hn hc
    rw [this] at hfail
    cases hfail
  | aborted s1 w1 =>
    rw [h] at hp
    refine ⟨fun _ _ _ _ _ _ => ⟨rfl, hp⟩, ?_⟩
    intro hr
    cases hr
  | blocked s1 w1 =>
    rw [h] at hp
    exact hp.elim

/-- Witness for C8: the started device is initialized, and a further
`initialize` leaves it and the world as they are. -/
theorem initialize_idempotent_witness :
    readyDevice._initialized = true ∧
    initializeDevice healthy 9 0 readyDevice readyWorld = .returned () readyDevice readyWorld :=
  ⟨rfl, (initialize_idempotent healthy 9 0 9 0 readyDevice readyWorld).1 rfl⟩

/-- Witness for C9: on `healthy` two display modes are enumerated and nothing
fails, so the startup of the freshly constructed device succeeds. -/
theorem initialize_success_witness :
    healthy.displayModes ≠ [] ∧ (∀ t c, healthy.fails t c = false) ∧
    ∃ s1 w1, initializeDevice healthy 7 0 (GraphicsDirect3D.new zeroed) World.start
        = .returned () s1 w1 ∧
      isInitialized s1 = true ∧ isPrepared s1 = true ∧
      s1._fullscreen = healthy.config.fullscreen ∧ s1._vsync = healthy.config.vsync ∧
      s1._multisampling = healthy.config.multisampling ∧
      s1._validation = healthy.config.validation ∧
      s1._backBufferIndex = w1.swapIndex :=
  ⟨by decide, fun _ _ => rfl,
    initialize_success healthy 7 0 zeroed World.start (by decide) (fun _ _ => rfl)⟩

/-- Witness for C10: the freshly constructed device is not initialized; when
its startup on `undebuggable` returns, every checked call has succeeded. -/
theorem initialize_checked_failure_is_fatal_witness :
    (GraphicsDirect3D.new zeroed)._initialized = false ∧
    ((initializeDevice undebuggable 7 0 (GraphicsDirect3D.new zeroed) World.start).isReturned
        = true →
      (initializeDevice undebuggable 7 0 (GraphicsDirect3D.new zeroed) World.start).state._initialized
        = true ∧
      (initializeDevice undebuggable 7 0 (GraphicsDirect3D.new zeroed) World.start).state._prepared
        = true ∧
      ∀ t ev,
        (initializeDevice undebuggable 7 0 (GraphicsDirect3D.new zeroed) World.start).world.trace[t]?
          = some ev →
        World.start.trace.length ≤ t → checkedAtSetup ev.call = true →
          undebuggable.fails t ev.call = false) :=
  ⟨rfl, (initialize_checked_failure_is_fatal undebuggable 7 0 (GraphicsDirect3D.new zeroed)
    World.start rfl).2⟩

/-! ## The claims on the frame path -/

/-- Whatever the backend answers, `buildCommands` leaves `_prepared` and the
swapchain alone, and the stored back-buffer index is the one it had or the
swapchain's. -/
theorem buildCommands_frame (e : Env) (s : GraphicsDirect3D) (w : World) :
    post (buildCommands e) s w
      (fun _ s1 w1 => s1._prepared = s._prepared ∧ w1.swapIndex = w.swapIndex ∧
        (s1._backBufferIndex = s._backBufferIndex ∨ s1._backBufferIndex = w.swapIndex))
      (fun _ _ => True) (fun _ _ => True) := by
  by_cases hz : w.swapIndex = 0 <;>
  simp [buildCommands, waitForGpu, post_bind, post_pure, post_self, post_assign, post_affect,
    post_issue, post_ite, post_abort, post_world, post_blockUntil, fallible, Signal,
    SetEventOnCompletion, waitOn, GetCurrentBackBufferIndex, GetDescriptorHandleIncrementSize,
    GetCPUDescriptorHandleForHeapStart, D3D_CHECK_RESULT, hz]

/-- However it ends, `buildCommands` has issued at least one call. -/
theorem buildCommands_logs (e : Env) (s : GraphicsDirect3D) (w : World) :
    post (buildCommands e) s w (fun _ _ w1 => w.trace.length < w1.trace.length)
      (fun _ w1 => w.trace.length < w1.trace.length)
      (fun _ w1 => w.trace.length < w1.trace.length) := by
  by_cases hz : w.swapIndex = 0 <;>
  simp [buildCommands, waitForGpu, post_bind, post_pure, post_self, post_assign, post_affect,
    post_issue, post_ite, post_abort, post_world, post_blockUntil, fallible, Signal,
    SetEventOnCompletion, waitOn, GetCurrentBackBufferIndex, GetDescriptorHandleIncrementSize,
    GetCPUDescriptorHandleForHeapStart, D3D_CHECK_RESULT, hz]
  all_goals intro _; split_ifs <;> omega

theorem post_world_all {α : Type} {x : Prog α} {s : GraphicsDirect3D} {w : World}
    {P : World → Prop}
    (h : post x s w (fun _ _ w1 => P w1) (fun _ w1 => P w1) (fun _ w1 => P w1)) :
    P (x s w).world := by
  unfold post at h
  cases hx : x s w <;> rw [hx] at h <;> exact h

/-- A render call on a prepared device issues at least one call, however it
ends: it is not skipped. -/
theorem render_prepared_logs (e : Env) (dt : ℚ) (s : GraphicsDirect3D) (w : World)
    (hp : s._prepared = true) :
    w.trace.length < (render e dt s w).world.trace.length := by
  apply post_world_all (P := fun w1 => w.trace.length < w1.trace.length)
  unfold render
  simp only [post_bind, post_self, post_ite, post_pure, hp, Bool.not_true, Bool.false_eq_true,
    if_false]
  refine post_mono (buildCommands_logs e s w) ?_ (fun _ _ h => h) (fun _ _ h => h)
  intro _ s1 w1 h1
  simp [post_bind, post_pure, post_self, post_assign, post_affect, post_issue, post_ite,
    post_world, post_blockUntil, fallible, Signal, SetEventOnCompletion, waitOn,
    ExecuteCommandLists, Present, reindexing, GetCurrentBackBufferIndex, GetCompletedValue]
  split_ifs <;> omega

/-- C7: a failing `Present` ends the frame quietly.  Let `render` on a prepared
device get as far as `Present`: `buildCommands` and `ExecuteCommandLists`
returned, with members `sB` and world `wE`.  If the `Present` issued next
fails, `render` returns normally, with the members as they were before
`Present` and with `Present` as the last call of the log, so no `Signal`
follows it; the swapchain's index and the stored back-buffer index are not
advanced; and `_prepared` is still true, so the next `render` call is not
skipped: it issues calls. -/
theorem render_present_failure (e : Env) (dt : ℚ) (s sB : GraphicsDirect3D) (w wE : World)
    (hp : s._prepared = true)
    (hreach : (buildCommands e >>= fun _ => ExecuteCommandLists e 1) s w = .returned () sB wE)
    (hfail : e.fails wE.trace.length (.Present (if sB._vsync then 1 else 0)) = true) :
    render e dt s w = .returned () sB
        (World.after e (.Present (if sB._vsync then 1 else 0)) sB._prepared wE) ∧
    (render e dt s w).world.trace = wE.trace ++ [⟨.Present (if sB._vsync then 1 else 0), true⟩] ∧
    (render e dt s w).world.swapIndex = w.swapIndex ∧
    (s._backBufferIndex = w.swapIndex →
      (render e dt s w).state._backBufferIndex = s._backBufferIndex) ∧
    (render e dt s w).state._prepared = true ∧
    ∀ dt2, (render e dt s w).world.trace.length
      < (render e dt2 (render e dt s w).state (render e dt s w).world).world.trace.length := by
  have hb := buildCommands_frame e s w
  unfold post at hb
  rw [bind_run] at hreach
  cases hbc : buildCommands e s w with
  | aborted s1 w1 => rw [hbc] at hreach; cases hreach
  | blocked s1 w1 => rw [hbc] at hreach; cases hreach
  | returned a s1 w1 =>
    rw [hbc] at hreach hb
    simp only at hreach hb
    obtain ⟨b1, b2, b3⟩ := hb
    have hE : sB = s1 ∧ wE = (World.after e (.ExecuteCommandLists 1) s1._prepared w1).submit
        .execute := by
      simp [ExecuteCommandLists, bind_run, issue_run, affect] at hreach
      exact ⟨hreach.1.symm, hreach.2.symm⟩
    obtain ⟨rfl, hwE⟩ := hE
    have hpB : sB._prepared = true := b1.trans hp
    have hrun : render e dt s w = .returned () sB
        (World.after e (.Present (if sB._vsync then 1 else 0)) sB._prepared wE) := by
      simp [render, bind_run, pure_run, self, hp, hbc, hreach, Present, reindexing, issue_run,
        hfail]
    rw [hrun]
    refine ⟨rfl, ?_, ?_, ?_, hpB, ?_⟩
    · simp [Outcome.world, hpB]
    · simp [Outcome.world, hwE, b2]
    · intro hsync
      rcases b3 with h | h
      · exact h
      · exact h.trans hsync.symm
    · intro dt2
      have := render_prepared_logs e dt2 sB
        (World.after e (.Present (if sB._vsync then 1 else 0)) sB._prepared wE) hpB
      simpa [Outcome.world, Outcome.state] using this

/-- Witness for C7: the first frame of the started device on `unpresentable`. -/
theorem render_present_failure_witness :
    render unpresentable 0 readyDevice readyWorld
      = .returned () (readyDevice.retargeted unpresentable 0).bumped
          (World.after unpresentable
            (.Present (if (readyDevice.retargeted unpresentable 0).bumped._vsync then 1 else 0))
            (readyDevice.retargeted unpresentable 0).bumped._prepared
            ((World.after unpresentable (.ExecuteCommandLists 1) true
              (World.built unpresentable readyDevice readyWorld)).submit .execute)) :=
  (render_present_failure unpresentable 0 readyDevice (readyDevice.retargeted unpresentable 0).bumped
    readyWorld
    ((World.after unpresentable (.ExecuteCommandLists 1) true
      (World.built unpresentable readyDevice readyWorld)).submit .execute)
    rfl
    (by
      rw [bind_run, buildCommands_run unpresentable readyDevice readyWorld rfl rfl rfl rfl rfl]
      rfl)
    rfl).1

theorem calls_tagged (p : Bool) (cs : List Call) :
    List.map (Event.call ∘ fun c => (⟨c, p⟩ : Event)) cs = cs := by
  induction cs with
  | nil => rfl
  | cons c cs ih => simp [ih]

/-- C5, amended: the full drain `waitForGpu` is on the frame path, at the end
of `buildCommands`.  In every `render` call on a prepared device in which no
backend call fails, the log starts with the recording calls and `Close`, then
the three calls of `waitForGpu` for the current slot's fence value (`Signal`,
`SetEventOnCompletion`, the infinite wait), and only then
`ExecuteCommandLists`. -/
theorem render_drains_every_frame (e : Env) (dt : ℚ) (s : GraphicsDirect3D) (w : World)
    (hp : s._prepared = true)
    (hf : ∀ t c, w.trace.length ≤ t → e.fails t c = false) :
    calls w.trace ++ (recordingCalls e s w ++
        [.Close, .Signal (s._fenceValues w.swapIndex),
         .SetEventOnCompletion (s._fenceValues w.swapIndex), .WaitForSingleObjectEx,
         .ExecuteCommandLists 1])
      <+: calls (render e dt s w).world.trace := by
  have hrun := buildCommands_run e s w (hf _ _ (le_refl _)) (hf _ _ (Nat.le_succ _))
    (hf _ _ (Nat.le_add_right _ _)) (hf _ _ (by omega)) (hf _ _ (by omega))
  apply post_world_all (P := fun w1 => calls w.trace ++ (recordingCalls e s w ++
        [Call.Close, Call.Signal (s._fenceValues w.swapIndex),
         Call.SetEventOnCompletion (s._fenceValues w.swapIndex), Call.WaitForSingleObjectEx,
         Call.ExecuteCommandLists 1]) <+: calls w1.trace)
  have hb : ∀ R A B, post (buildCommands e) s w R A B
      = R () (s.retargeted e w.swapIndex).bumped (World.built e s w) := by
    intro R A B
    unfold post
    rw [hrun]
  unfold render
  simp only [post_bind, post_self, post_ite, post_pure, hp, Bool.not_true, Bool.false_eq_true,
    if_false, hb]
  simp [post_bind, post_pure, post_self, post_assign, post_affect, post_issue, post_ite,
    post_world, post_blockUntil, fallible, Signal, SetEventOnCompletion, waitOn,
    ExecuteCommandLists, Present, reindexing, GetCurrentBackBufferIndex, GetCompletedValue,
    calls, hp, calls_tagged]

/-- Witness for C5: the first frame of the started device on `healthy`. -/
theorem render_drains_every_frame_witness :
    readyDevice._prepared = true ∧
    calls readyWorld.trace ++ (recordingCalls healthy readyDevice readyWorld ++
        [.Close, .Signal (readyDevice._fenceValues readyWorld.swapIndex),
         .SetEventOnCompletion (readyDevice._fenceValues readyWorld.swapIndex),
         .WaitForSingleObjectEx, .ExecuteCommandLists 1])
      <+: calls (render healthy 0 readyDevice readyWorld).world.trace :=
  ⟨rfl, render_drains_every_frame healthy 0 readyDevice readyWorld rfl (fun _ _ _ => rfl)⟩

/-- C5, counterexample: the calls of the first `render` on the started device
(on `healthy`, where nothing fails).  Between `Close` and
`ExecuteCommandLists` stand `Signal 0`, `SetEventOnCompletion 0` and
`WaitForSingleObjectEx`, which are exactly the calls of `waitForGpu`. -/
theorem render_runs_waitForGpu :
    readyDevice._prepared = true ∧
    calls ((waitForGpu healthy readyDevice readyWorld).world.trace.drop readyWorld.trace.length)
      = [.Signal 0, .SetEventOnCompletion 0, .WaitForSingleObjectEx] ∧
    calls ((render healthy 0 readyDevice readyWorld).world.trace.drop readyWorld.trace.length)
      = [.ResetAllocator (some 20), .ResetCommandList (some 20),
         .ResourceBarrier (some 26) .PRESENT .RENDER_TARGET,
         .GetDescriptorHandleIncrementSize, .GetCurrentBackBufferIndex,
         .GetCPUDescriptorHandleForHeapStart, .OMSetRenderTargets 4096,
         .ClearRenderTargetView 4096 0 0 0 1,
         .ResourceBarrier (some 26) .RENDER_TARGET .PRESENT, .Close,
         .Signal 0, .SetEventOnCompletion 0, .WaitForSingleObjectEx,
         .ExecuteCommandLists 1, .Present 1, .Signal 1, .GetCurrentBackBufferIndex,
         .GetCompletedValue] := by
  refine ⟨rfl, ?_, ?_⟩
  · simp [waitForGpu, bind_run, pure_run, self, assign, affect, issue_run, fallible, Signal,
      SetEventOnCompletion, waitOn, blockUntil, D3D_CHECK_RESULT, Env.hresult, FAILED, healthy,
      readyDevice, readyWorld, startupCalls, World.after, World.advance, World.log,
      World.submit, retireOps_zero, runUntil, calls, Outcome.world]
  · simp [render, buildCommands, waitForGpu, bind_run, pure_run, self, assign, affect,
      world, issue_run, fallible, Signal, SetEventOnCompletion, waitOn, blockUntil,
      ExecuteCommandLists, Present, reindexing, GetCurrentBackBufferIndex, GetCompletedValue,
      GetDescriptorHandleIncrementSize, GetCPUDescriptorHandleForHeapStart, D3D_CHECK_RESULT,
      Env.hresult, FAILED, healthy, readyDevice, readyWorld, startupCalls, World.after,
      World.advance, World.log, World.submit, World.select, retireOps_zero, runUntil,
      GP_GRAPHICS_BACK_BUFFERS, calls, Outcome.world, uint64_t]

/-! ## Resize -/

set_option maxHeartbeats 4000000 in
/-- C3: a `resize` to a different size on a prepared device, with no backend
call failing from here on, returns; its external calls are exactly the drain,
one `Release` for the render target of each slot (`Release r0`, `Release r1`
when the slots hold `r0` and `r1`), `GetDesc`, `ResizeBuffers`, the index read
and then one `GetBuffer i` with one `CreateRenderTargetView` for each buffer
`i = 0 .. K-1`; afterwards every slot holds the newly obtained buffer,
`getWidth`/`getHeight` give the requested size and `isPrepared` holds. -/
theorem resize_recreates_render_targets (e : Env) (width height : Int) (s : GraphicsDirect3D)
    (w : World)
    (hp : s._prepared = true) (hd : ¬ (width = s._width ∧ height = s._height))
    (hf : ∀ t c, w.trace.length ≤ t → e.fails t c = false) :
    (resize e width height s w).isReturned = true ∧
    calls (resize e width height s w).world.trace = calls w.trace ++
        [.Signal (s._fenceValues s._backBufferIndex),
         .SetEventOnCompletion (s._fenceValues s._backBufferIndex),
         .WaitForSingleObjectEx]
        ++ renderTargetReleases s ++
        [.GetDesc,
         .ResizeBuffers GP_GRAPHICS_BACK_BUFFERS width height,
         .GetCurrentBackBufferIndex,
         .GetDescriptorHandleIncrementSize,
         .GetCPUDescriptorHandleForHeapStart,
         .GetBuffer 0,
         .CreateRenderTargetView
            (some (w.trace.length + 3 + (renderTargetReleases s).length + 5)) e.heapStart,
         .GetBuffer 1,
         .CreateRenderTargetView
            (some (w.trace.length + 3 + (renderTargetReleases s).length + 7))
            (e.heapStart + e.descriptorSize),
         .GetCurrentBackBufferIndex] ∧
    (∀ r0 r1, s._renderTargets 0 = some r0 → s._renderTargets 1 = some r1 →
      renderTargetReleases s = [.Release r0, .Release r1]) ∧
    (resize e width height s w).state._renderTargets 0 =
      some (w.trace.length + 3 + (renderTargetReleases s).length + 5) ∧
    (resize e width height s w).state._renderTargets 1 =
      some (w.trace.length + 3 + (renderTargetReleases s).length + 7) ∧
    getWidth (resize e width height s w).state = width ∧
    getHeight (resize e width height s w).state = height ∧
    isPrepared (resize e width height s w).state = true := by
  have hS := hf w.trace.length (.Signal (s._fenceValues s._backBufferIndex)) (le_refl _)
  have hE := hf (w.trace.length + 1) (.SetEventOnCompletion (s._fenceValues s._backBufferIndex))
    (by omega)
  have hw := waitForGpu_run e s w hS hE
  have hR := hf (w.trace.length + 3 + (renderTargetReleases s).length + 1)
    (.ResizeBuffers GP_GRAPHICS_BACK_BUFFERS width height) (by omega)
  have hB0 := hf (w.trace.length + 3 + (renderTargetReleases s).length + 5) (.GetBuffer 0)
    (by omega)
  have hB1 := hf (w.trace.length + 3 + (renderTargetReleases s).length + 7) (.GetBuffer 1)
    (by omega)
  cases h0 : s._renderTargets 0 <;> cases h1 : s._renderTargets 1 <;>
  simp [renderTargetReleases, GP_GRAPHICS_BACK_BUFFERS, List.range, List.range.loop, h0, h1,
    Nat.add_assoc] at hR hB0 hB1 <;>
  simp [resize, bind_run, pure_run, self, assign, affect, hp, hd, hw,
    GP_GRAPHICS_BACK_BUFFERS, forLoop, SAFE_RELEASE, h0, h1, issue_run, ResizeBuffers, reindexing,
    D3D_CHECK_RESULT, FAILED, GetCurrentBackBufferIndex, createRenderTargets, world,
    GetDescriptorHandleIncrementSize, GetCPUDescriptorHandleForHeapStart, create, Env.hresult,
    GraphicsDirect3D.bumped, World.drained, calls, getWidth, getHeight, isPrepared,
    Outcome.isReturned, Outcome.world, Outcome.state, renderTargetReleases, List.range,
    List.range.loop, hR, hB0, hB1, Nat.add_assoc]

set_option maxHeartbeats 4000000 in
/-- C4: the steps of a `resize` that takes effect come in one fixed order,
whatever the backend answers.  The external calls it issues are an initial
segment of `resizeScript` (all of it when `resize` returns): first the drain of
`waitForGpu`, issued with `_prepared = true`; then, all with `_prepared = false`,
the release of the render targets, `ResizeBuffers` with the requested size, the
read of the back-buffer index, and the recreation of the render-target views
(`GetBuffer i`, `CreateRenderTargetView` for `i = 0, 1`).  Only when all of
these are through are the dimensions stored and is `_prepared` true again. -/
theorem resize_order (e : Env) (width height : Int) (s : GraphicsDirect3D) (w : World)
    (hp : s._prepared = true) (hd : ¬ (width = s._width ∧ height = s._height)) :
    (resize e width height s w).world.trace.take w.trace.length = w.trace ∧
    (resize e width height s w).world.trace.drop w.trace.length <+: resizeScript e width height s w ∧
    ((resize e width height s w).isReturned = true →
      (resize e width height s w).world.trace = w.trace ++ resizeScript e width height s w ∧
      (resize e width height s w).state._width = width ∧
      (resize e width height s w).state._height = height ∧
      (resize e width height s w).state._prepared = true) := by
  by_cases hS : e.fails w.trace.length (.Signal (s._fenceValues s._backBufferIndex)) = false
  swap
  · simp [resize, bind_run, pure_run, self, assign, affect, hp, hd, waitForGpu, Signal,
      issue_run, D3D_CHECK_RESULT, FAILED, abort, hS, Outcome.world, Outcome.isReturned,
      resizeScript]
  by_cases hE : e.fails (w.trace.length + 1)
      (.SetEventOnCompletion (s._fenceValues s._backBufferIndex)) = false
  swap
  · simp [resize, bind_run, pure_run, self, assign, affect, hp, hd, waitForGpu, Signal,
      issue_run, D3D_CHECK_RESULT, FAILED, abort, hS, hE, Outcome.world, Outcome.isReturned,
      resizeScript, SetEventOnCompletion, fallible, Env.hresult]
  have hw := waitForGpu_run e s w hS hE
  cases hR : e.fails (w.trace.length + 3 + (renderTargetReleases s).length + 1)
      (.ResizeBuffers GP_GRAPHICS_BACK_BUFFERS width height) <;>
  cases hB0 : e.fails (w.trace.length + 3 + (renderTargetReleases s).length + 5) (.GetBuffer 0) <;>
  cases hB1 : e.fails (w.trace.length + 3 + (renderTargetReleases s).length + 7) (.GetBuffer 1) <;>
  cases h0 : s._renderTargets 0 <;> cases h1 : s._renderTargets 1 <;>
  simp [renderTargetReleases, GP_GRAPHICS_BACK_BUFFERS, List.range, List.range.loop, h0, h1,
    Nat.add_assoc] at hR hB0 hB1 <;>
  simp [resize, bind_run, pure_run, self, assign, affect, hp, hd, hw,
    GP_GRAPHICS_BACK_BUFFERS, forLoop, SAFE_RELEASE, h0, h1, issue_run, ResizeBuffers, reindexing,
    D3D_CHECK_RESULT, FAILED, GetCurrentBackBufferIndex, createRenderTargets, world,
    GetDescriptorHandleIncrementSize, GetCPUDescriptorHandleForHeapStart, create, Env.hresult,
    GraphicsDirect3D.bumped, World.drained, abort, resizeScript, renderTargetReleases,
    List.range, List.range.loop, Outcome.isReturned, Outcome.world, Outcome.state, hR, hB0, hB1,
    Nat.add_assoc]


/-- Witness for C3: resizing the started device to 800 x 600 on `healthy`. -/
theorem resize_recreates_render_targets_witness :
    readyDevice._prepared = true ∧
    ¬ ((800 : Int) = readyDevice._width ∧ (600 : Int) = readyDevice._height) ∧
    (resize healthy 800 600 readyDevice readyWorld).isReturned = true ∧
    getWidth (resize healthy 800 600 readyDevice readyWorld).state = 800 ∧
    getHeight (resize healthy 800 600 readyDevice readyWorld).state = 600 ∧
    isPrepared (resize healthy 800 600 readyDevice readyWorld).state = true :=
  have h := resize_recreates_render_targets healthy 800 600 readyDevice readyWorld rfl
    (by decide) (fun _ _ _ => rfl)
  ⟨rfl, by decide, h.1, h.2.2.2.2.2.1, h.2.2.2.2.2.2.1, h.2.2.2.2.2.2.2⟩

/-- Witness for C4: the calls of a resize of the started device to 800 x 600
follow the script. -/
theorem resize_order_witness :
    readyDevice._prepared = true ∧
    ¬ ((800 : Int) = readyDevice._width ∧ (600 : Int) = readyDevice._height) ∧
    (resize healthy 800 600 readyDevice readyWorld).world.trace.drop readyWorld.trace.length
      <+: resizeScript healthy 800 600 readyDevice readyWorld :=
  ⟨rfl, by decide, (resize_order healthy 800 600 readyDevice readyWorld rfl (by decide)).2.1⟩

/-! ## Failures inside `resize` -/

theorem World.clean_of_trace (e : Env) (check : Call → Bool) (n : Nat) (w1 w2 : World)
    (h : w1.trace = w2.trace) : World.clean e check n w1 ↔ World.clean e check n w2 := by
  unfold World.clean
  rw [h]

theorem World.clean_submit (e : Env) (check : Call → Bool) (n : Nat) (w : World) (op : GpuOp) :
    World.clean e check n (w.submit op) ↔ World.clean e check n w := Iff.rfl

theorem World.clean_await (e : Env) (check : Call → Bool) (n : Nat) (w : World) (v : Nat) :
    World.clean e check n (w.await v) ↔ World.clean e check n w :=
  World.clean_of_trace e check n _ _ (World.await_trace w v)

theorem World.clean_drained (e : Env) (n v : Nat) (p : Bool) (w : World) :
    World.clean e checkedAtResize n (World.drained e v p w) ↔
      World.clean e checkedAtResize n w ∧
      (n ≤ w.trace.length → e.fails w.trace.length (.Signal v) = false) ∧
      (n ≤ w.trace.length + 1 → e.fails (w.trace.length + 1) (.SetEventOnCompletion v) = false) := by
  unfold World.drained
  simp [World.clean_await, World.clean_after, World.clean_submit, checkedAtResize, and_assoc]

set_option maxHeartbeats 4000000 in
/-- An effective `resize` never blocks.  It returns exactly when none of the
calls it checks has failed, and aborts the process otherwise. -/
theorem resize_checked (e : Env) (width height : Int) (s : GraphicsDirect3D) (w : World)
    (hp : s._prepared = true) (hd : ¬ (width = s._width ∧ height = s._height)) :
    post (resize e width height) s w
      (fun _ s1 w1 => s1._prepared = true ∧ World.clean e checkedAtResize w.trace.length w1)
      (fun _ w1 => ¬ World.clean e checkedAtResize w.trace.length w1)
      (fun _ _ => False) := by
  have hc0 := World.clean_self e checkedAtResize w
  unfold post
  by_cases hS : e.fails w.trace.length (.Signal (s._fenceValues s._backBufferIndex)) = false
  swap
  · simp [resize, bind_run, pure_run, self, assign, affect, hp, hd, waitForGpu, Signal,
      issue_run, D3D_CHECK_RESULT, FAILED, abort, hS, World.clean_after, checkedAtResize, hc0]
  by_cases hE : e.fails (w.trace.length + 1)
      (.SetEventOnCompletion (s._fenceValues s._backBufferIndex)) = false
  swap
  · simp [resize, bind_run, pure_run, self, assign, affect, hp, hd, waitForGpu, Signal,
      issue_run, D3D_CHECK_RESULT, FAILED, abort, hS, hE, SetEventOnCompletion, fallible,
      Env.hresult, World.clean_after, World.clean_submit, checkedAtResize, hc0]
  have hw := waitForGpu_run e s w hS hE
  cases hR : e.fails (w.trace.length + 3 + (renderTargetReleases s).length + 1)
      (.ResizeBuffers GP_GRAPHICS_BACK_BUFFERS width height) <;>
  cases hB0 : e.fails (w.trace.length + 3 + (renderTargetReleases s).length + 5) (.GetBuffer 0) <;>
  cases hB1 : e.fails (w.trace.length + 3 + (renderTargetReleases s).length + 7) (.GetBuffer 1) <;>
  cases h0 : s._renderTargets 0 <;> cases h1 : s._renderTargets 1 <;>
  simp [renderTargetReleases, GP_GRAPHICS_BACK_BUFFERS, List.range, List.range.loop, h0, h1,
    Nat.add_assoc] at hR hB0 hB1 <;>
  simp [resize, bind_run, pure_run, self, assign, affect, hp, hd, hw,
    GP_GRAPHICS_BACK_BUFFERS, forLoop, SAFE_RELEASE, h0, h1, issue_run, ResizeBuffers, reindexing,
    D3D_CHECK_RESULT, FAILED, GetCurrentBackBufferIndex, createRenderTargets, world,
    GetDescriptorHandleIncrementSize, GetCPUDescriptorHandleForHeapStart, create, Env.hresult,
    GraphicsDirect3D.bumped, abort, World.clean_after, World.clean_select, World.clean_drained,
    World.drained_trace, checkedAtResize, hc0, hS, hE, hR, hB0, hB1, Nat.add_assoc]

/-- C11, counterexample: on `unresizable` the startup goes through as on
`healthy`, and then `resize(800, 600)` on the prepared device issues the drain,
releases both render targets, and aborts the process at the failing
`ResizeBuffers`: it does not return. -/
theorem resize_failure_aborts :
    initializeDevice unresizable 7 0 (GraphicsDirect3D.new zeroed) World.start
      = .returned () readyDevice readyWorld ∧
    isPrepared readyDevice = true ∧
    calls ((resize unresizable 800 600 readyDevice readyWorld).world.trace.drop
        readyWorld.trace.length)
      = [.Signal 0, .SetEventOnCompletion 0, .WaitForSingleObjectEx, .Release 26, .Release 28,
         .GetDesc, .ResizeBuffers 2 800 600] ∧
    unresizable.fails (readyWorld.trace.length + 6) (.ResizeBuffers 2 800 600) = true ∧
    (resize unresizable 800 600 readyDevice readyWorld).isAborted = true ∧
    (resize unresizable 800 600 readyDevice readyWorld).isReturned = false := by
  refine ⟨?_, rfl, ?_, rfl, ?_, ?_⟩
  · simp [initializeDevice, readConfigAndValidation, createFactoryDeviceQueue, pickDisplayMode,
      createSwapchain, createFrameResources, createFenceAndEvent, matchDisplayMode, onlyIf,
      bind_run, pure_run, self, assign, affect, issue_run, healthy, unresizable,
      GraphicsDirect3D.new, zeroed, World.start, defaultConfig, fallible, create, Env.hresult,
      FAILED, SUCCEEDED, GP_ERROR, D3D_CHECK_RESULT, getHardwareAdapter, getHardwareAdapterLoop,
      findDisplayMode, SAFE_RELEASE, CreateSwapChainForHwnd, GetCurrentBackBufferIndex, world,
      forLoop, GP_GRAPHICS_BACK_BUFFERS, createRenderTargets, GetDescriptorHandleIncrementSize,
      GetCPUDescriptorHandleForHeapStart, CreateFence, World.after, World.advance, World.log,
      World.select, World.newFence,
      retireOps_zero, readyDevice, readyWorld, startupCalls, DXGI_CREATE_FACTORY_DEBUG]
  all_goals
    simp [resize, waitForGpu, bind_run, pure_run, self, assign, affect, issue_run, fallible,
      Signal, SetEventOnCompletion, waitOn, blockUntil, D3D_CHECK_RESULT, Env.hresult, FAILED,
      healthy, unresizable, readyDevice, readyWorld, startupCalls, World.after, World.advance,
      World.log, World.submit, retireOps_zero, runUntil, calls, Outcome.world,
      Outcome.isAborted, Outcome.isReturned, forLoop, GP_GRAPHICS_BACK_BUFFERS, SAFE_RELEASE,
      ResizeBuffers, reindexing, abort]

/-- C11, amended: an effective `resize` (prepared device, different size) never
blocks: it returns or it aborts the process.  It returns exactly when every
call it issued and checks with `D3D_CHECK_RESULT` (the `Signal` and
`SetEventOnCompletion` of the drain, `ResizeBuffers`, each `GetBuffer`)
succeeded, and then `_prepared` is true again; a failure of any of them is
fatal. -/
theorem resize_checked_failure_is_fatal (e : Env) (width height : Int) (s : GraphicsDirect3D)
    (w : World) (hp : s._prepared = true) (hd : ¬ (width = s._width ∧ height = s._height)) :
    ((resize e width height s w).isReturned = true ∨
      (resize e width height s w).isAborted = true) ∧
    ((resize e width height s w).isReturned = true ↔
      ∀ t ev, (resize e width height s w).world.trace[t]? = some ev → w.trace.length ≤ t →
        checkedAtResize ev.call = true → e.fails t ev.call = false) ∧
    ((resize e width height s w).isAborted = true ↔
      ∃ t ev, (resize e width height s w).world.trace[t]? = some ev ∧ w.trace.length ≤ t ∧
        checkedAtResize ev.call = true ∧ e.fails t ev.call = true) ∧
    ((resize e width height s w).isReturned = true →
      (resize e width height s w).state._prepared = true) := by
  have h := resize_checked e width height s w hp hd
  unfold post at h
  have hneg : ∀ w1 : World, (¬ World.clean e checkedAtResize w.trace.length w1) ↔
      ∃ t ev, w1.trace[t]? = some ev ∧ w.trace.length ≤ t ∧
        checkedAtResize ev.call = true ∧ e.fails t ev.call = true := by
    intro w1
    unfold World.clean
    push_neg
    constructor
    · rintro ⟨t, ev, h1, h2, h3, h4⟩
      exact ⟨t, ev, h1, h2, h3, by simpa using h4⟩
    · rintro ⟨t, ev, h1, h2, h3, h4⟩
      exact ⟨t, ev, h1, h2, h3, by simp [h4]⟩
  cases hr : resize e width height s w with
  | returned a s1 w1 =>
    rw [hr] at h
    refine ⟨Or.inl rfl, ⟨fun _ => h.2, fun _ => rfl⟩, ⟨fun hx => (by cases hx), fun hx => ?_⟩,
      fun _ => h.1⟩
    exact absurd h.2 ((hneg w1).mpr hx)
  | aborted s1 w1 =>
    rw [hr] at h
    refine ⟨Or.inr rfl, ⟨fun hx => (by cases hx), fun hx => absurd hx h⟩,
      ⟨fun _ => (hneg w1).mp h, fun _ => rfl⟩, fun hx => (by cases hx)⟩
  | blocked s1 w1 =>
    rw [hr] at h
    exact h.elim

/-- Witness for C11: resizing the started device on `unresizable`. -/
theorem resize_checked_failure_is_fatal_witness :
    readyDevice._prepared = true ∧
    ¬ ((800 : Int) = readyDevice._width ∧ (600 : Int) = readyDevice._height) ∧
    ((resize unresizable 800 600 readyDevice readyWorld).isAborted = true ↔
      ∃ t ev, (resize unresizable 800 600 readyDevice readyWorld).world.trace[t]? = some ev ∧
        readyWorld.trace.length ≤ t ∧ checkedAtResize ev.call = true ∧
        unresizable.fails t ev.call = true) :=
  ⟨rfl, by decide,
    (resize_checked_failure_is_fatal unresizable 800 600 readyDevice readyWorld rfl
      (by decide)).2.2.1⟩

/-! ## The size `initialize` ends up with -/

theorem swapchainsCreated_append (l1 l2 : List Event) :
    swapchainsCreated (l1 ++ l2) = swapchainsCreated l1 ++ swapchainsCreated l2 := by
  simp [swapchainsCreated, calls]

theorem swapchainsCreated_nil : swapchainsCreated [] = [] := rfl

theorem swapchainsCreated_cons (c : Call) (p : Bool) (l : List Event) :
    swapchainsCreated (⟨c, p⟩ :: l)
      = if isSwapchainCreation c = true then c :: swapchainsCreated l else swapchainsCreated l := by
  simp [swapchainsCreated, calls, List.filter_cons]

theorem swapchainsCreated_scanned (e : Env) (p : Bool) :
    ∀ (l : List Adapter) (i : Nat) (w : World),
      swapchainsCreated (World.scanned e p l i w).trace = swapchainsCreated w.trace := by
  intro l
  induction l with
  | nil => intro i w; simp [World.scanned, swapchainsCreated_append, swapchainsCreated_cons, swapchainsCreated_nil, isSwapchainCreation]
  | cons a rest ih =>
    intro i w
    by_cases h1 : a.software = true <;> by_cases h2 : a.probeSucceeds = true <;>
      simp [World.scanned, h1, h2, ih, swapchainsCreated_append, swapchainsCreated_cons, swapchainsCreated_nil, isSwapchainCreation]

/-- The mode found by the search loop has the size searched for. -/
theorem findDisplayMode_some (width height : Int) :
    ∀ (l : List DisplayMode) (k i : Nat), findDisplayMode width height l k = some i →
      k ≤ i ∧ (l.getD (i - k) ⟨0, 0⟩).Width = width ∧ (l.getD (i - k) ⟨0, 0⟩).Height = height := by
  intro l
  induction l with
  | nil => intro k i h; simp [findDisplayMode] at h
  | cons m rest ih =>
    intro k i h
    unfold findDisplayMode at h
    split at h
    · rename_i hm
      cases h
      simp [hm.1, hm.2]
    · obtain ⟨h1, h2, h3⟩ := ih (k + 1) i h
      have : i - k = (i - (k + 1)) + 1 := by omega
      rw [this]
      exact ⟨by omega, by simpa using h2, by simpa using h3⟩

/-- The search loop finds nothing when no mode has the size searched for. -/
theorem findDisplayMode_none (width height : Int) :
    ∀ (l : List DisplayMode) (k : Nat),
      (∀ m ∈ l, ¬ (m.Width = width ∧ m.Height = height)) → findDisplayMode width height l k = none := by
  intro l
  induction l with
  | nil => intro k _; rfl
  | cons m rest ih =>
    intro k h
    unfold findDisplayMode
    have hm := h m (List.mem_cons_self _ _)
    rw [if_neg (fun hc => hm ⟨hc.2, hc.1⟩)]
    exact ih (k + 1) (fun m1 h1 => h m1 (List.mem_cons_of_mem _ h1))

theorem readConfigAndValidation_dims (e : Env) (window : Nat) (s : GraphicsDirect3D) (w : World) :
    post (readConfigAndValidation e window) s w
      (fun _ s1 w1 => s1._width = e.config.width ∧ s1._height = e.config.height ∧
        s1._hwnd = window ∧ s1._multisampling = e.config.multisampling ∧
        s1._displayMode = s._displayMode ∧ s1._prepared = s._prepared ∧
        swapchainsCreated w1.trace = swapchainsCreated w.trace)
      (fun _ _ => True) (fun _ _ => True) := by
  cases hd : e.debugBuild <;> cases hv : e.config.validation <;>
  simp [readConfigAndValidation, post_bind, post_pure, post_self, post_assign,
    post_issue, post_ite, post_onlyIf, fallible, hd, hv, swapchainsCreated_append, swapchainsCreated_cons, swapchainsCreated_nil,
    isSwapchainCreation]

theorem createFactoryDeviceQueue_dims (e : Env) (flags : Nat) (s : GraphicsDirect3D) (w : World) :
    post (createFactoryDeviceQueue e flags) s w
      (fun _ s1 w1 => s1._width = s._width ∧ s1._height = s._height ∧
        s1._hwnd = s._hwnd ∧ s1._multisampling = s._multisampling ∧
        s1._displayMode = s._displayMode ∧ s1._prepared = s._prepared ∧
        swapchainsCreated w1.trace = swapchainsCreated w.trace)
      (fun _ _ => True) (fun _ _ => True) := by
  simp [createFactoryDeviceQueue, post_bind, post_pure, post_self, post_assign,
    post_issue, post_ite, post_onlyIf, post_loop, post_abort, create, getHardwareAdapter,
    GP_ERROR, D3D_CHECK_RESULT, swapchainsCreated_append, swapchainsCreated_cons, swapchainsCreated_nil, swapchainsCreated_scanned,
    isSwapchainCreation]

set_option maxHeartbeats 4000000 in
theorem pickDisplayMode_dims (e : Env) (s : GraphicsDirect3D) (w : World) :
    post (pickDisplayMode e) s w
      (fun _ s1 w1 => s1._width = s._width ∧ s1._height = s._height ∧
        s1._hwnd = s._hwnd ∧ s1._multisampling = s._multisampling ∧
        s1._displayMode
          = (findDisplayMode s._width s._height e.displayModes 0).getD s._displayMode ∧
        s1._prepared = s._prepared ∧
        swapchainsCreated w1.trace = swapchainsCreated w.trace)
      (fun _ _ => True) (fun _ _ => True) := by
  cases hfind : findDisplayMode s._width s._height e.displayModes 0 with
  | none =>
    simp [pickDisplayMode, post_bind, post_pure, post_self, post_assign,
      post_issue, post_ite, post_onlyIf, post_abort, create, fallible, hfind, matchDisplayMode,
      GP_ERROR, D3D_CHECK_RESULT, SAFE_RELEASE, swapchainsCreated_append, swapchainsCreated_cons,
      swapchainsCreated_nil, isSwapchainCreation]
    intros
    split_ifs <;> simp [post_bind, post_pure, post_assign, post_issue, swapchainsCreated_append,
      swapchainsCreated_cons, swapchainsCreated_nil, isSwapchainCreation]
  | some i =>
    obtain ⟨_, h2, h3⟩ := findDisplayMode_some _ _ _ _ _ hfind
    simp at h2 h3
    simp [pickDisplayMode, post_bind, post_pure, post_self, post_assign,
      post_issue, post_ite, post_onlyIf, post_abort, create, fallible, hfind, matchDisplayMode,
      GP_ERROR, D3D_CHECK_RESULT, SAFE_RELEASE, swapchainsCreated_append, swapchainsCreated_cons,
      swapchainsCreated_nil, isSwapchainCreation, h2, h3]
    intros
    split_ifs <;> simp [post_bind, post_pure, post_assign, post_issue, swapchainsCreated_append,
      swapchainsCreated_cons, swapchainsCreated_nil, isSwapchainCreation, h2, h3]

theorem createSwapchain_dims (e : Env) (factory : Option Nat) (s : GraphicsDirect3D) (w : World) :
    post (createSwapchain e factory) s w
      (fun _ s1 w1 => s1._width = s._width ∧ s1._height = s._height ∧
        s1._hwnd = s._hwnd ∧ s1._multisampling = s._multisampling ∧
        s1._displayMode = s._displayMode ∧ s1._prepared = s._prepared ∧
        swapchainsCreated w1.trace = swapchainsCreated w.trace ++
          [.CreateSwapChainForHwnd s._hwnd GP_GRAPHICS_BACK_BUFFERS s._width s._height
            (1 + s._multisampling)])
      (fun _ _ => True) (fun _ _ => True) := by
  cases factory <;>
  simp [createSwapchain, post_bind, post_pure, post_self, post_assign, post_affect,
    post_issue, post_ite, post_onlyIf, post_abort, create, D3D_CHECK_RESULT,
    CreateSwapChainForHwnd, SAFE_RELEASE, swapchainsCreated_append, swapchainsCreated_cons,
    swapchainsCreated_nil, isSwapchainCreation]

set_option maxHeartbeats 4000000 in
theorem createFrameResources_dims (e : Env) (s : GraphicsDirect3D) (w : World) :
    post (createFrameResources e) s w
      (fun _ s1 w1 => s1._width = s._width ∧ s1._height = s._height ∧
        s1._hwnd = s._hwnd ∧ s1._multisampling = s._multisampling ∧
        s1._displayMode = s._displayMode ∧ s1._prepared = s._prepared ∧
        swapchainsCreated w1.trace = swapchainsCreated w.trace)
      (fun _ _ => True) (fun _ _ => True) := by
  simp [createFrameResources, post_bind, post_pure, post_self, post_assign,
    post_world, post_issue, post_ite, post_abort, create, fallible, D3D_CHECK_RESULT,
    GetCurrentBackBufferIndex, forLoop, GP_GRAPHICS_BACK_BUFFERS, createRenderTargets,
    GetDescriptorHandleIncrementSize, GetCPUDescriptorHandleForHeapStart,
    swapchainsCreated_append, swapchainsCreated_cons, swapchainsCreated_nil, isSwapchainCreation]

theorem createFenceAndEvent_dims (e : Env) (s : GraphicsDirect3D) (w : World) :
    post (createFenceAndEvent e) s w
      (fun _ s1 w1 => s1._width = s._width ∧ s1._height = s._height ∧
        s1._hwnd = s._hwnd ∧ s1._multisampling = s._multisampling ∧
        s1._displayMode = s._displayMode ∧ s1._prepared = s._prepared ∧
        swapchainsCreated w1.trace = swapchainsCreated w.trace)
      (fun _ _ => True) (fun _ _ => True) := by
  simp [createFenceAndEvent, post_bind, post_pure, post_self, post_assign,
    post_affect, post_issue, post_ite, post_abort, create, D3D_CHECK_RESULT, CreateFence,
    swapchainsCreated_append, swapchainsCreated_cons, swapchainsCreated_nil, isSwapchainCreation]

/-- Whenever a startup returns, the stored size is the configured one, the
only swapchain it created was created with that size, and the stored mode
index is that of the first mode of that size, or untouched when there is none. -/
theorem startup_dims (e : Env) (window connection : Nat) (s : GraphicsDirect3D) (w : World)
    (hi : s._initialized = false) :
    post (initializeDevice e window connection) s w
      (fun _ s1 w1 => s1._width = e.config.width ∧ s1._height = e.config.height ∧
        s1._displayMode
          = (findDisplayMode e.config.width e.config.height e.displayModes 0).getD s._displayMode ∧
        swapchainsCreated w1.trace = swapchainsCreated w.trace ++
          [.CreateSwapChainForHwnd window GP_GRAPHICS_BACK_BUFFERS e.config.width e.config.height
            (1 + e.config.multisampling)])
      (fun _ _ => True) (fun _ _ => True) := by
  unfold initializeDevice
  simp only [post_bind, post_pure, post_self, post_assign, post_ite, hi, Bool.false_eq_true,
    if_false]
  refine post_mono (readConfigAndValidation_dims e window s w) ?_ (fun _ _ h => h)
    (fun _ _ h => h)
  intro flags s1 w1 ⟨a1, a2, a3, a4, a5, a6, a7⟩
  refine post_mono (createFactoryDeviceQueue_dims e flags s1 w1) ?_ (fun _ _ h => h)
    (fun _ _ h => h)
  intro factory s2 w2 ⟨b1, b2, b3, b4, b5, b6, b7⟩
  refine post_mono (pickDisplayMode_dims e s2 w2) ?_ (fun _ _ h => h) (fun _ _ h => h)
  intro _ s3 w3 ⟨c1, c2, c3, c4, c5, c6, c7⟩
  refine post_mono (createSwapchain_dims e factory s3 w3) ?_ (fun _ _ h => h) (fun _ _ h => h)
  intro _ s4 w4 ⟨d1, d2, d3, d4, d5, d6, d7⟩
  refine post_mono (createFrameResources_dims e s4 w4) ?_ (fun _ _ h => h) (fun _ _ h => h)
  intro _ s5 w5 ⟨e1, e2, e3, e4, e5, e6, e7⟩
  refine post_mono (createFenceAndEvent_dims e s5 w5) ?_ (fun _ _ h => h) (fun _ _ h => h)
  intro _ s6 w6 ⟨f1, f2, f3, f4, f5, f6, f7⟩
  have hw : s3._width = e.config.width := by rw [c1, b1, a1]
  have hh : s3._height = e.config.height := by rw [c2, b2, a2]
  refine ⟨?_, ?_, ?_, ?_⟩
  · show s6._width = _
    rw [f1, e1, d1, hw]
  · show s6._height = _
    rw [f2, e2, d2, hh]
  · show s6._displayMode = _
    rw [f5, e5, d5, c5, b1, b2, a1, a2, b5, a5]
  · show swapchainsCreated w6.trace = _
    rw [f7, e7, d7, c7, b7, a7, hw, hh, c3, b3, a3, c4, b4, a4]


/-- Two facts about how one program ends, taken together. -/
theorem post_and {α : Type} {x : Prog α} {s : GraphicsDirect3D} {w : World}
    {R R1 : α → GraphicsDirect3D → World → Prop} {A A1 B B1 : GraphicsDirect3D → World → Prop}
    (h : post x s w R A B) (h1 : post x s w R1 A1 B1) :
    post x s w (fun a s1 w1 => R a s1 w1 ∧ R1 a s1 w1) (fun s1 w1 => A s1 w1 ∧ A1 s1 w1)
      (fun s1 w1 => B s1 w1 ∧ B1 s1 w1) := by
  unfold post at h h1 ⊢
  cases hx : x s w with
  | returned a s1 w1 => rw [hx] at h h1; exact ⟨h, h1⟩
  | aborted s1 w1 => rw [hx] at h h1; exact ⟨h, h1⟩
  | blocked s1 w1 => rw [hx] at h h1; exact ⟨h, h1⟩

/-- A startup of the freshly constructed device in which nothing fails and at
least one display mode is enumerated returns, with the configured size. -/
theorem startup_sized (e : Env) (window connection : Nat) (u : Indeterminate) (w : World)
    (hm : e.displayModes ≠ []) (hf : ∀ t c, e.fails t c = false) :
    ∃ s1 w1, initializeDevice e window connection (GraphicsDirect3D.new u) w
        = .returned () s1 w1 ∧
      s1._initialized = true ∧ s1._prepared = true ∧
      s1._width = e.config.width ∧ s1._height = e.config.height ∧
      s1._displayMode
        = (findDisplayMode e.config.width e.config.height e.displayModes 0).getD 0 ∧
      swapchainsCreated w1.trace = swapchainsCreated w.trace ++
        [.CreateSwapChainForHwnd window GP_GRAPHICS_BACK_BUFFERS e.config.width e.config.height
          (1 + e.config.multisampling)] := by
  obtain ⟨_, s1, w1, h, ⟨h1, h2, _⟩, h3, h4, h5, h6⟩ :=
    post_returned (post_mono
      (post_and (startup_ok e window connection (GraphicsDirect3D.new u) w rfl hf)
        (startup_dims e window connection (GraphicsDirect3D.new u) w rfl))
      (fun _ _ _ h => h) (fun _ _ h => hm h.1) (fun _ _ h => h.1))
  exact ⟨s1, w1, h, h1, h2, h3, h4, h5, h6⟩

/-- C12, counterexample: on `unmatched` two display modes are enumerated, the
first of them 1280 x 720, and neither has the configured size 800 x 600.  The
startup of the freshly constructed device succeeds, and the size it stores and
creates its swapchain with is 800 x 600, not the size of the first mode. -/
theorem initialize_no_fallback_to_first_mode :
    unmatched.displayModes = [⟨1280, 720⟩, ⟨1920, 1080⟩] ∧
    (unmatched.config.width, unmatched.config.height) = (800, 600) ∧
    ∃ s1 w1, initializeDevice unmatched 7 0 (GraphicsDirect3D.new zeroed) World.start
        = .returned () s1 w1 ∧
      getWidth s1 = 800 ∧ getHeight s1 = 600 ∧
      swapchainsCreated w1.trace = [.CreateSwapChainForHwnd 7 2 800 600 1] := by
  refine ⟨rfl, rfl, ?_⟩
  obtain ⟨s1, w1, h, _, _, h3, h4, _, h6⟩ :=
    startup_sized unmatched 7 0 zeroed World.start (by simp [unmatched, healthy]) (fun _ _ => rfl)
  exact ⟨s1, w1, h, h3, h4, h6⟩

/-- C12, amended: when a non-empty list of display modes is enumerated, none
of them has the configured size and no backend call fails, `initialize` on the
freshly constructed device succeeds and keeps the configured size: `getWidth`
and `getHeight` give the configured width and height, the one swapchain it
creates is created with them, and the stored display-mode index stays 0. -/
theorem initialize_keeps_configured_size (e : Env) (window connection : Nat) (u : Indeterminate)
    (w : World) (hm : e.displayModes ≠ [])
    (hno : ∀ m ∈ e.displayModes, ¬ (m.Width = e.config.width ∧ m.Height = e.config.height))
    (hf : ∀ t c, e.fails t c = false) :
    ∃ s1 w1, initializeDevice e window connection (GraphicsDirect3D.new u) w
        = .returned () s1 w1 ∧
      isInitialized s1 = true ∧ isPrepared s1 = true ∧
      getWidth s1 = e.config.width ∧ getHeight s1 = e.config.height ∧
      swapchainsCreated w1.trace = swapchainsCreated w.trace ++
        [.CreateSwapChainForHwnd window GP_GRAPHICS_BACK_BUFFERS e.config.width e.config.height
          (1 + e.config.multisampling)] ∧
      s1._displayMode = 0 := by
  obtain ⟨s1, w1, h, h1, h2, h3, h4, h5, h6⟩ := startup_sized e window connection u w hm hf
  rw [findDisplayMode_none _ _ _ _ hno] at h5
  exact ⟨s1, w1, h, h1, h2, h3, h4, h6, h5⟩

/-- Witness for C12: the startup on `unmatched`. -/
theorem initialize_keeps_configured_size_witness :
    unmatched.displayModes ≠ [] ∧
    (∀ m ∈ unmatched.displayModes,
      ¬ (m.Width = unmatched.config.width ∧ m.Height = unmatched.config.height)) ∧
    ∃ s1 w1, initializeDevice unmatched 7 0 (GraphicsDirect3D.new zeroed) World.start
        = .returned () s1 w1 ∧
      isInitialized s1 = true ∧ isPrepared s1 = true ∧
      getWidth s1 = unmatched.config.width ∧ getHeight s1 = unmatched.config.height ∧
      swapchainsCreated w1.trace = swapchainsCreated World.start.trace ++
        [.CreateSwapChainForHwnd 7 GP_GRAPHICS_BACK_BUFFERS unmatched.config.width
          unmatched.config.height (1 + unmatched.config.multisampling)] ∧
      s1._displayMode = 0 :=
  ⟨by simp [unmatched, healthy], by simp [unmatched, healthy, defaultConfig],
    initialize_keeps_configured_size unmatched 7 0 zeroed World.start
      (by simp [unmatched, healthy]) (by simp [unmatched, healthy, defaultConfig])
      (fun _ _ => rfl)⟩

/-! ## Adapter selection -/

/-- C13, the code at the failing input.  `getHardwareAdapter` always leaves
null in `*ppAdapter`: the loop runs and the adapter it stops at is never
stored.  On `healthy`, where adapter 0 is a software adapter and adapter 1 is a
hardware adapter that passes the probe, the loop stops at adapter 1 (the probe
of adapter 1 is its last call), still null is yielded, and the device of a
startup is created with `D3D12CreateDevice(nullptr, ...)`. -/
theorem getHardwareAdapter_yields_null :
    (∀ (e : Env) (s : GraphicsDirect3D) (w : World),
      getHardwareAdapter e s w
        = .returned none s (World.scanned e s._prepared e.adapters 0 w)) ∧
    healthy.adapters = [⟨true, true⟩, ⟨false, true⟩] ∧
    calls (getHardwareAdapter healthy (GraphicsDirect3D.new zeroed) World.start).world.trace
      = [.EnumAdapters1 0, .GetDesc1 0, .EnumAdapters1 1, .GetDesc1 1,
         .D3D12CreateDeviceProbe 1] ∧
    Call.D3D12CreateDevice none ∈
      calls (initializeDevice healthy 7 0 (GraphicsDirect3D.new zeroed) World.start).world.trace := by
  have h : ∀ (e : Env) (s : GraphicsDirect3D) (w : World),
      getHardwareAdapter e s w
        = .returned none s (World.scanned e s._prepared e.adapters 0 w) := by
    intro e s w
    simp [getHardwareAdapter, bind_run, pure_run, getHardwareAdapterLoop_run]
  refine ⟨h, rfl, ?_, ?_⟩
  · rw [h]
    simp [healthy, World.scanned, World.start, calls, Outcome.world]
  · rw [startup_healthy]
    simp [Outcome.world, readyWorld, startupCalls, calls]

/-! ## The drain -/

/-- C14, counterexample: the started device with every fence value at
`UINT64_MAX`, on `healthy`.  `waitForGpu` signals `UINT64_MAX`, waits and
returns, and the increment of line 296 wraps: the fence value of the current
slot is 0 afterwards, not `UINT64_MAX + 1`. -/
theorem waitForGpu_wraps :
    maxedDevice._fenceValues maxedDevice._backBufferIndex = UINT64_MAX ∧
    (waitForGpu healthy maxedDevice readyWorld).isReturned = true ∧
    calls ((waitForGpu healthy maxedDevice readyWorld).world.trace.drop readyWorld.trace.length)
      = [.Signal UINT64_MAX, .SetEventOnCompletion UINT64_MAX, .WaitForSingleObjectEx] ∧
    (waitForGpu healthy maxedDevice readyWorld).state._fenceValues maxedDevice._backBufferIndex
      = 0 ∧
    (0 : Nat) ≠ UINT64_MAX + 1 := by
  rw [waitForGpu_run healthy maxedDevice readyWorld rfl rfl]
  refine ⟨rfl, rfl, ?_, ?_, by decide⟩
  · simp [Outcome.world, World.drained, calls, maxedDevice, maxed, readyDevice]
  · simp [Outcome.state, GraphicsDirect3D.bumped, maxedDevice, maxed, readyDevice, uint64_t,
      UINT64_MAX]

/-- C14, amended: `waitForGpu`, on a state with current slot
`c = _backBufferIndex` and stored fence value `v = _fenceValues[c]`, when its
two checked backend calls succeed: it returns; the calls it has issued are
`Signal(v)`, `SetEventOnCompletion(v)` and the infinite wait, in this order;
the fence has completed `v`; `_fenceValues[c]` is `v + 1` computed in
`uint64_t`, which is `v + 1` when `v < UINT64_MAX` and 0 when
`v = UINT64_MAX`; and the fence values of the other slots, the back-buffer
index, `_prepared`, `_initialized`, the width and the height are as before. -/
theorem waitForGpu_drains (e : Env) (s : GraphicsDirect3D) (w : World)
    (hS : e.fails w.trace.length (.Signal (s._fenceValues s._backBufferIndex)) = false)
    (hE : e.fails (w.trace.length + 1)
      (.SetEventOnCompletion (s._fenceValues s._backBufferIndex)) = false) :
    (waitForGpu e s w).isReturned = true ∧
    calls (waitForGpu e s w).world.trace = calls w.trace ++
      [.Signal (s._fenceValues s._backBufferIndex),
       .SetEventOnCompletion (s._fenceValues s._backBufferIndex),
       .WaitForSingleObjectEx] ∧
    s._fenceValues s._backBufferIndex ≤ (waitForGpu e s w).world.completed ∧
    (waitForGpu e s w).state._fenceValues s._backBufferIndex
      = uint64_t (s._fenceValues s._backBufferIndex + 1) ∧
    (s._fenceValues s._backBufferIndex < UINT64_MAX →
      (waitForGpu e s w).state._fenceValues s._backBufferIndex
        = s._fenceValues s._backBufferIndex + 1) ∧
    (s._fenceValues s._backBufferIndex = UINT64_MAX →
      (waitForGpu e s w).state._fenceValues s._backBufferIndex = 0) ∧
    (∀ i, i ≠ s._backBufferIndex →
      (waitForGpu e s w).state._fenceValues i = s._fenceValues i) ∧
    (waitForGpu e s w).state._backBufferIndex = s._backBufferIndex ∧
    (waitForGpu e s w).state._prepared = s._prepared ∧
    (waitForGpu e s w).state._initialized = s._initialized ∧
    (waitForGpu e s w).state._width = s._width ∧
    (waitForGpu e s w).state._height = s._height := by
  rw [waitForGpu_run e s w hS hE]
  refine ⟨rfl, ?_, drained_completed e _ _ w, ?_, ?_, ?_, ?_, rfl, rfl, rfl, rfl, rfl⟩
  · simp [Outcome.world, World.drained, calls]
  · simp [Outcome.state, GraphicsDirect3D.bumped]
  · intro hlt
    have h1 : s._fenceValues s._backBufferIndex + 1 < 2 ^ 64 := by
      unfold UINT64_MAX at hlt
      omega
    simp [Outcome.state, GraphicsDirect3D.bumped, uint64_t_of_lt h1]
  · intro heq
    simp [Outcome.state, GraphicsDirect3D.bumped, heq, uint64_t, UINT64_MAX]
  · intro i hi
    simp [Outcome.state, GraphicsDirect3D.bumped, hi]

/-- Witness for C14: the drain of the started device on `healthy`. -/
theorem waitForGpu_drains_witness :
    (waitForGpu healthy readyDevice readyWorld).isReturned = true ∧
    readyDevice._fenceValues readyDevice._backBufferIndex
      ≤ (waitForGpu healthy readyDevice readyWorld).world.completed ∧
    (waitForGpu healthy readyDevice readyWorld).state._fenceValues readyDevice._backBufferIndex
      = uint64_t (readyDevice._fenceValues readyDevice._backBufferIndex + 1) :=
  have h := waitForGpu_drains healthy readyDevice readyWorld rfl rfl
  ⟨h.1, h.2.2.1, h.2.2.2.1⟩

/-! ## Destruction -/

theorem calls_released (e : Env) (p : Bool) (x : Option Nat) (w : World) :
    calls (World.released e p x w).trace = calls w.trace ++ (x.map Call.Release).toList := by
  cases x <;> simp [World.released, calls]

/-- The macro `SAFE_RELEASE` on a pointer whose clearing changes nothing when
it is null already: afterwards the pointer is cleared in any case. -/
theorem post_SAFE_RELEASE (e : Env) (x : Option Nat) (clear : GraphicsDirect3D → GraphicsDirect3D)
    (s : GraphicsDirect3D) (w : World) (R : Unit → GraphicsDirect3D → World → Prop)
    (A B : GraphicsDirect3D → World → Prop) (h : x = none → clear s = s) :
    post (SAFE_RELEASE e x clear) s w R A B
      = R () (clear s) (World.released e s._prepared x w) := by
  cases x with
  | none => rw [h rfl]; rfl
  | some r => rfl

theorem store_none {f : Nat → Option Nat} {i : Nat} (h : f i = none) : store f i none = f := by
  funext j
  by_cases hj : j = i
  · subst hj; simp [h]
  · simp [hj]

theorem post_onlyIf_issue (e : Env) (c : Bool) (call : Call) (s : GraphicsDirect3D) (w : World)
    (R : Unit → GraphicsDirect3D → World → Prop) (A B : GraphicsDirect3D → World → Prop) :
    post (onlyIf c (do let _ ← issue e call)) s w R A B
      = R () s (if c = true then World.after e call s._prepared w else w) := by
  cases c <;> rfl

theorem filterMap_cons_toList {α β : Type} (f : α → Option β) (x : α) (l : List α) :
    List.filterMap f (x :: l) = (f x).toList ++ List.filterMap f l := by
  rw [List.filterMap_cons]
  cases f x <;> rfl

/-- What the destructor does: it returns, having issued `destroyCalls`, and
every owned pointer is null. -/
theorem destroy_run (e : Env) (s : GraphicsDirect3D) (w : World) :
    post (destroy e) s w
      (fun _ s1 w1 => calls w1.trace = calls w.trace ++ destroyCalls s ∧
        s1._fence = none ∧ s1._commandList = none ∧
        (∀ i, i < GP_GRAPHICS_BACK_BUFFERS → s1._commandAllocators i = none) ∧
        (∀ i, i < GP_GRAPHICS_BACK_BUFFERS → s1._renderTargets i = none) ∧
        s1._renderTargetViewHeap = none ∧ s1._swapchain = none ∧
        s1._commandQueue = none ∧ s1._device = none)
      (fun _ _ => False) (fun _ _ => False) := by
  unfold destroy
  simp only [post_bind, post_self, forLoop, GP_GRAPHICS_BACK_BUFFERS, post_pure]
  rw [post_onlyIf_issue]
  rw [post_SAFE_RELEASE (h := fun hx => by cases s; simp_all)]
  try dsimp only
  rw [post_SAFE_RELEASE (h := fun hx => by cases s; simp_all)]
  try dsimp only
  rw [post_SAFE_RELEASE (h := fun hx => by cases s; simp at hx ⊢; exact store_none (by simpa using hx))]
  try dsimp only
  rw [post_SAFE_RELEASE (h := fun hx => by cases s; simp at hx ⊢; exact store_none (by simpa using hx))]
  try dsimp only
  rw [post_SAFE_RELEASE (h := fun hx => by cases s; simp at hx ⊢; exact store_none (by simpa using hx))]
  try dsimp only
  rw [post_SAFE_RELEASE (h := fun hx => by cases s; simp at hx ⊢; exact store_none (by simpa using hx))]
  try dsimp only
  rw [post_SAFE_RELEASE (h := fun hx => by cases s; simp_all)]
  try dsimp only
  rw [post_SAFE_RELEASE (h := fun hx => by cases s; simp_all)]
  try dsimp only
  rw [post_SAFE_RELEASE (h := fun hx => by cases s; simp_all)]
  try dsimp only
  rw [post_SAFE_RELEASE (h := fun hx => by cases s; simp_all)]
  try dsimp only
  refine ⟨?_, rfl, rfl, ?_, ?_, rfl, rfl, rfl, rfl⟩
  · simp only [calls_released]
    cases hsc : s._swapchain.isSome <;>
    simp [destroyCalls, ownedResources, GP_GRAPHICS_BACK_BUFFERS, List.range,
      List.range.loop, filterMap_cons_toList, hsc, calls]
  · intro i hi
    interval_cases i <;> simp
  · intro i hi
    interval_cases i <;> simp

/-- C15: the destructor always returns.  Its external calls are
`destroyCalls`: when a swapchain exists, first `SetFullscreenState(false)`,
before any `Release`; then one `Release` for each of the fence, the command
list, the K command allocators, the K render targets, the render-target-view
heap, the swapchain, the command queue and the device that is not null, in
this order, and none for a null pointer.  Afterwards all these pointers are
null. -/
theorem destroy_releases_everything (e : Env) (s : GraphicsDirect3D) (w : World) :
    (destroy e s w).isReturned = true ∧
    calls (destroy e s w).world.trace = calls w.trace ++ destroyCalls s ∧
    (s._swapchain.isSome = true →
      ∃ rest, destroyCalls s = .SetFullscreenState false :: rest ∧
        rest = (ownedResources s).filterMap (Option.map Call.Release)) ∧
    (s._swapchain = none →
      destroyCalls s = (ownedResources s).filterMap (Option.map Call.Release)) ∧
    (∀ r, Call.Release r ∈ destroyCalls s ↔ some r ∈ ownedResources s) ∧
    ((ownedResources s).filterMap (Option.map Call.Release)).length
      = ((ownedResources s).filter Option.isSome).length ∧
    (destroy e s w).state._fence = none ∧
    (destroy e s w).state._commandList = none ∧
    (∀ i, i < GP_GRAPHICS_BACK_BUFFERS → (destroy e s w).state._commandAllocators i = none) ∧
    (∀ i, i < GP_GRAPHICS_BACK_BUFFERS → (destroy e s w).state._renderTargets i = none) ∧
    (destroy e s w).state._renderTargetViewHeap = none ∧
    (destroy e s w).state._swapchain = none ∧
    (destroy e s w).state._commandQueue = none ∧
    (destroy e s w).state._device = none := by
  obtain ⟨_, s1, w1, h, h1, h2, h3, h4, h5, h6, h7, h8, h9⟩ := post_returned (destroy_run e s w)
  rw [h]
  refine ⟨rfl, h1, ?_, ?_, ?_, ?_, h2, h3, h4, h5, h6, h7, h8, h9⟩
  · intro hsc
    exact ⟨_, by simp [destroyCalls, hsc], rfl⟩
  · intro hsc
    simp [destroyCalls, hsc]
  · intro r
    cases hsc : s._swapchain.isSome <;>
    simp [destroyCalls, hsc, List.mem_filterMap]
  · generalize ownedResources s = l
    induction l with
    | nil => rfl
    | cons x l ih => cases x <;> simp [List.filterMap_cons, List.filter_cons, ih]

/-- The destructor on the started device and on the freshly constructed one. -/
theorem destroyCalls_samples :
    destroyCalls readyDevice
      = [.SetFullscreenState false, .Release 31, .Release 22, .Release 20, .Release 21,
         .Release 26, .Release 28, .Release 19, .Release 16, .Release 8, .Release 7] ∧
    destroyCalls (GraphicsDirect3D.new zeroed) = [] := by
  constructor <;>
  simp [destroyCalls, ownedResources, readyDevice, GraphicsDirect3D.new, zeroed,
    GP_GRAPHICS_BACK_BUFFERS, List.range, List.range.loop]

/-- Witness for C15: destroying the started device. -/
theorem destroy_releases_everything_witness :
    (destroy healthy readyDevice readyWorld).isReturned = true ∧
    calls (destroy healthy readyDevice readyWorld).world.trace
      = calls readyWorld.trace ++ destroyCalls readyDevice ∧
    (destroy healthy readyDevice readyWorld).state._swapchain = none :=
  have h := destroy_releases_everything healthy readyDevice readyWorld
  ⟨h.1, h.2.1, h.2.2.2.2.2.2.2.2.2.2.2.1⟩

/-! ## The serializer: reading back what was written -/

namespace Serializer

theorem readValue_absent {name : String} {stream : List Item} (h : Absent name stream)
    (defaultValue : Value) : readValue name defaultValue stream = (defaultValue, stream) := by
  cases stream with
  | nil => rfl
  | cons item rest =>
    cases item with
    | property n v =>
      have hn : n ≠ name := fun hc => h (.property n v) rfl (by simp [Item.name?, hc])
      simp [Serializer.readValue, hn]
    | _ => rfl

theorem readEnum_absent {name : String} {stream : List Item} (h : Absent name stream)
    (a : Activator) (enumName : String) (defaultValue : Int) :
    readEnum a name enumName defaultValue stream = (defaultValue, stream) := by
  cases stream with
  | nil => rfl
  | cons item rest =>
    cases item with
    | property n v =>
      have hn : n ≠ name := fun hc => h (.property n v) rfl (by simp [Item.name?, hc])
      cases v <;> simp [Serializer.readEnum, hn]
    | _ => rfl

theorem readObjectWithin_absent {name : String} {stream : List Item} (h : Absent name stream)
    (depth : Nat) (a : Activator) :
    readObjectWithin depth a (some name) stream = some (none, stream) := by
  cases stream with
  | nil => cases depth <;> simp [Serializer.readObjectWithin]
  | cons item rest =>
    cases item with
    | beginObject n c =>
      have hn : n ≠ some name := fun hc => h (.beginObject n c) rfl (by simp [Item.name?, hc])
      cases depth <;> simp [Serializer.readObjectWithin, hn]
    | _ => cases depth <;> simp [Serializer.readObjectWithin]

theorem absent_cons {name : String} {item : Item} {rest : List Item}
    (h : item.name? ≠ some name) : Absent name (item :: rest) := by
  intro it hit
  simp at hit
  subst hit
  exact h

theorem absent_endObject (name : String) (rest : List Item) :
    Absent name (.endObject :: rest) :=
  absent_cons (by simp [Item.name?])

/-- What `read<Kind>` gives back after `write<Kind>`: the value written,
whether or not the writer left the field out. -/
theorem readValue_writeValue (w : Writer) (name : String) (value defaultValue : Value)
    (tail : List Item) (hk : value.kind = defaultValue.kind) (ht : Absent name tail) :
    readValue name defaultValue (w.writeValue name value defaultValue ++ tail) = (value, tail) := by
  unfold Writer.writeValue
  split
  · rename_i h
    rw [List.nil_append, readValue_absent ht, h.2]
  · simp [readValue, hk]

theorem readEnum_writeEnum (w : Writer) (a : Activator) (name enumName : String)
    (value defaultValue : Int) (tail : List Item)
    (hv : a.enumParse enumName (a.enumToString enumName value) = value) (ht : Absent name tail) :
    readEnum a name enumName defaultValue (w.writeEnum a name enumName value defaultValue ++ tail)
      = (value, tail) := by
  unfold Writer.writeEnum
  split
  · rename_i h
    rw [List.nil_append, readEnum_absent ht, h.2]
  · simp [readEnum, hv]

theorem noElements_kind (k : Kind) (h : k.isArray = true) : k.noElements.kind = k := by
  cases k <;> simp [Kind.isArray] at h <;> rfl

theorem readArray_writeArray (w : Writer) (name : String) (data : Value) (tail : List Item)
    (h : data.kind.isArray = true) :
    readArray name data.kind (w.writeArray name data ++ tail) = (data, tail) := by
  simp [readArray, Writer.writeArray, readValue, noElements_kind _ h]

theorem readStrings_writeStrings (w : Writer) (tail : List Item) :
    ∀ items : List String, readStrings items.length (w.writeStrings items ++ tail) = (items, tail) := by
  intro items
  induction items with
  | nil => rfl
  | cons s rest ih =>
    simp [readStrings, Writer.writeStrings, Writer.writeStringItem, readStringItem, ih]

/-- The first item a property is written with, if any, is stored under the
name of the property. -/
theorem writeProperty_head (w : Writer) (a : Activator) (name : String) (p : Property) :
    ∀ item, (w.writeProperty a name p).head? = some item → item.name? = some name := by
  intro item h
  cases p with
  | value v d =>
    simp only [Writer.writeProperty, Writer.writeValue] at h
    split at h <;> simp at h
    subst h; rfl
  | enum n v d =>
    simp only [Writer.writeProperty, Writer.writeEnum] at h
    split at h <;> simp at h
    subst h; rfl
  | array data =>
    simp [Writer.writeProperty, Writer.writeArray] at h
    subst h; rfl
  | stringList items =>
    simp [Writer.writeProperty, Writer.writeStringList] at h
    subst h; rfl
  | object o =>
    cases o
    simp [Writer.writeProperty, Writer.writeObject] at h
    subst h; rfl
  | noObject => simp [Writer.writeProperty] at h
  | objectList items =>
    simp [Writer.writeProperty, Writer.writeObjectList] at h
    subst h; rfl

/-- After the properties of an object comes nothing stored under a name that
is not one of theirs. -/
theorem absent_onSerialize (w : Writer) (a : Activator) (name : String) (rest : List Item) :
    ∀ ps : Properties, name ∉ ps.names →
      Absent name (w.onSerialize a ps ++ .endObject :: rest)
  | .nil, _ => absent_endObject name rest
  | .cons n p r, hn => by
    simp [Properties.names] at hn
    have ih := absent_onSerialize w a name rest r hn.2
    intro item hitem
    rw [Writer.onSerialize, List.append_assoc] at hitem
    cases hw : w.writeProperty a n p with
    | nil =>
      rw [hw, List.nil_append] at hitem
      exact ih item hitem
    | cons it0 its =>
      rw [hw] at hitem
      simp at hitem
      subst hitem
      have := writeProperty_head w a n p it0 (by rw [hw]; rfl)
      rw [this]
      simp
      exact fun hc => hn.1 hc.symm

mutual
/-- Reading an object back: `readObject` on what `writeObject` wrote gives the
object, and leaves what follows it in the stream. -/
theorem readObjectWithin_writeObject (w : Writer) (a : Activator) :
    ∀ (o : Serializable), o.Registered a → ∀ depth, o.depth ≤ depth →
      ∀ (name : Option String) (rest : List Item),
        readObjectWithin depth a name (w.writeObject a name o ++ rest) = some (some o, rest)
  | .mk c ps, h, depth, hd, name, rest => by
    simp only [Serializable.Registered] at h
    obtain ⟨hc, hn, hps⟩ := h
    simp only [Serializable.depth] at hd
    obtain ⟨d, rfl⟩ : ∃ d, depth = d + 1 := ⟨depth - 1, by omega⟩
    have ih := onDeserialize_onSerialize w a ps hps hn d (by omega) rest
    simp [Writer.writeObject, readObjectWithin, hc, ih]
termination_by structural o => o
theorem onDeserialize_onSerialize (w : Writer) (a : Activator) :
    ∀ (ps : Properties), ps.Registered a → ps.names.Nodup → ∀ d, ps.depth ≤ d →
      ∀ (rest : List Item),
        onDeserialize a (readObjectWithin d a) ps.blank
          (w.onSerialize a ps ++ .endObject :: rest) = some (ps, .endObject :: rest)
  | .nil, _, _, _, _, _ => rfl
  | .cons n p r, h, hn, d, hd, rest => by
    simp only [Properties.Registered] at h
    simp only [Properties.names, List.nodup_cons] at hn
    simp only [Properties.depth] at hd
    have ihp := readProperty_writeProperty w a n p h.1 d (by omega)
      (w.onSerialize a r ++ .endObject :: rest) (absent_onSerialize w a n rest r hn.1)
    have ihr := onDeserialize_onSerialize w a r h.2 hn.2 d (by omega) rest
    simp [Properties.blank, onDeserialize, Writer.onSerialize, ihp, ihr]
termination_by structural ps => ps
theorem readProperty_writeProperty (w : Writer) (a : Activator) (name : String) :
    ∀ (p : Property), p.Registered a → ∀ d, p.depth ≤ d →
      ∀ (tail : List Item), Absent name tail →
        readProperty a (readObjectWithin d a) name p.blank (w.writeProperty a name p ++ tail)
          = some (p, tail)
  | .value v dv, h, d, _, tail, ht => by
    simp only [Property.Registered] at h
    simp [Property.blank, readProperty, Writer.writeProperty, readValue_writeValue w name v dv tail h ht]
  | .enum n v dv, h, d, _, tail, ht => by
    simp only [Property.Registered] at h
    simp [Property.blank, readProperty, Writer.writeProperty,
      readEnum_writeEnum w a name n v dv tail h ht]
  | .array data, h, d, _, tail, _ => by
    simp only [Property.Registered] at h
    simp [Property.blank, readProperty, Writer.writeProperty, noElements_kind _ h,
      readArray_writeArray w name data tail h]
  | .stringList items, _, d, _, tail, _ => by
    simp [Property.blank, readProperty, Writer.writeProperty, Writer.writeStringList,
      readStringList, readStrings_writeStrings]
  | .object o, h, d, hd, tail, _ => by
    simp only [Property.Registered] at h
    simp only [Property.depth] at hd
    have ih := readObjectWithin_writeObject w a o h d hd (some name) tail
    simp [Property.blank, readProperty, Writer.writeProperty, ih]
  | .noObject, _, d, _, tail, ht => by
    simp [Property.blank, readProperty, Writer.writeProperty, readObjectWithin_absent ht]
  | .objectList items, h, d, hd, tail, _ => by
    simp only [Property.Registered] at h
    simp only [Property.depth] at hd
    have ih := readObjects_writeObjects w a items h d hd tail
    simp [Property.blank, readProperty, Writer.writeProperty, Writer.writeObjectList,
      readObjectList, ih]
termination_by structural p => p
theorem readObjects_writeObjects (w : Writer) (a : Activator) :
    ∀ (os : Objects), os.Registered a → ∀ d, os.depth ≤ d →
      ∀ (rest : List Item),
        readObjects (readObjectWithin d a) os.length (w.writeObjects a os ++ rest)
          = some (os, rest)
  | .nil, _, _, _, _ => rfl
  | .cons o r, h, d, hd, rest => by
    simp only [Objects.Registered] at h
    simp only [Objects.depth] at hd
    have iho := readObjectWithin_writeObject w a o h.1 d (by omega) none
      (w.writeObjects a r ++ rest)
    have ihr := readObjects_writeObjects w a r h.2 d (by omega) rest
    simp [Objects.length, readObjects, Writer.writeObjects, iho, ihr]
termination_by structural os => os
end

mutual
theorem depth_le_writeObject (w : Writer) (a : Activator) (name : Option String) :
    ∀ (o : Serializable), o.depth ≤ (w.writeObject a name o).length
  | .mk c ps => by
    have := depth_le_onSerialize w a ps
    simp [Serializable.depth, Writer.writeObject]
    omega
termination_by structural o => o
theorem depth_le_onSerialize (w : Writer) (a : Activator) :
    ∀ (ps : Properties), ps.depth ≤ (w.onSerialize a ps).length
  | .nil => by simp [Properties.depth]
  | .cons n p r => by
    have h1 := depth_le_writeProperty w a n p
    have h2 := depth_le_onSerialize w a r
    simp [Properties.depth, Writer.onSerialize]
    omega
termination_by structural ps => ps
theorem depth_le_writeProperty (w : Writer) (a : Activator) (name : String) :
    ∀ (p : Property), p.depth ≤ (w.writeProperty a name p).length
  | .value _ _ => by simp [Property.depth]
  | .enum _ _ _ => by simp [Property.depth]
  | .array _ => by simp [Property.depth]
  | .stringList _ => by simp [Property.depth]
  | .noObject => by simp [Property.depth]
  | .object o => by
    have := depth_le_writeObject w a (some name) o
    simpa [Property.depth, Writer.writeProperty] using this
  | .objectList os => by
    have := depth_le_writeObjects w a os
    simp [Property.depth, Writer.writeProperty]
    omega
termination_by structural p => p
theorem depth_le_writeObjects (w : Writer) (a : Activator) :
    ∀ (os : Objects), os.depth ≤ (w.writeObjects a os).length
  | .nil => by simp [Objects.depth]
  | .cons o r => by
    have h1 := depth_le_writeObject w a none o
    have h2 := depth_le_writeObjects w a r
    simp [Objects.depth, Writer.writeObjects]
    omega
termination_by structural os => os
end

/-- Reading an object back with `readObject`, whatever follows in the
stream. -/
theorem readObject_writeObject (w : Writer) (a : Activator) (o : Serializable)
    (h : o.Registered a) (name : Option String) (rest : List Item) :
    readObject a name (w.writeObject a name o ++ rest) = some (some o, rest) := by
  unfold readObject
  apply readObjectWithin_writeObject w a o h
  have := depth_le_writeObject w a name o
  simp
  omega

theorem readObjects_readObject (w : Writer) (a : Activator) (rest : List Item) :
    ∀ (os : Objects), os.Registered a →
      readObjects (readObject a) os.length (w.writeObjects a os ++ rest) = some (os, rest)
  | .nil, _ => rfl
  | .cons o r, h => by
    simp only [Objects.Registered] at h
    have iho := readObject_writeObject w a o h.1 none (w.writeObjects a r ++ rest)
    have ihr := readObjects_readObject w a rest r h.2
    simp [Objects.length, readObjects, Writer.writeObjects, iho, ihr]

theorem sampleActivator_classes :
    (Activator.after sampleRegistrations).createObject "gameplay::Scene"
      = some sampleScene.blank ∧
    (Activator.after sampleRegistrations).createObject "gameplay::Camera"
      = some sampleCamera.blank := by
  constructor <;>
  simp [Activator.after, sampleRegistrations, Activator.register, Activator.registerType,
    Activator.registerEnum, Activator.createObject, Activator.empty]

theorem sampleCamera_registered : sampleCamera.Registered (Activator.after sampleRegistrations) := by
  have h := sampleActivator_classes
  refine ⟨h.2, by decide, ?_⟩
  simp [Properties.Registered, Property.Registered, Value.kind, Kind.isArray]
  simp [Activator.after, sampleRegistrations, Activator.register, Activator.registerType,
    Activator.registerEnum, Activator.enumParse, Activator.enumToString, Activator.empty,
    toStringWith, parseWith, cameraTypes]

theorem sampleScene_registered : sampleScene.Registered (Activator.after sampleRegistrations) := by
  have h := sampleActivator_classes
  have hc := sampleCamera_registered
  refine ⟨h.1, by decide, ?_⟩
  simp [Properties.Registered, Property.Registered, Objects.Registered, Value.kind, hc]

/-- What a writer that leaves out defaults writes for the sample camera: the
class-name tag, the enumerated value under its name, the array, the closing
mark; the float at its default is left out. -/
theorem sampleCamera_stream :
    (Writer.mk .FORMAT_JSON true).writeObject (Activator.after sampleRegistrations)
        (some "camera") sampleCamera
      = [.beginObject (some "camera") "gameplay::Camera",
         .property "type" (.enumString "ORTHOGRAPHIC"),
         .property "mask" (.byteArray [1, 0, 255]),
         .endObject] := by
  simp [sampleCamera, Writer.writeObject, Writer.onSerialize, Writer.writeProperty,
    Writer.writeEnum, Writer.writeValue, Writer.writeArray, Activator.after, sampleRegistrations,
    Activator.register, Activator.registerType, Activator.registerEnum, Activator.enumToString,
    Activator.empty, toStringWith, cameraTypes]

/-- Nothing in the stream is stored under `name`: in particular the next item
is not. -/
theorem absent_of_unnamed {name : String} {stream : List Item}
    (h : ∀ item ∈ stream, item.name? ≠ some name) : Absent name stream := by
  intro item hitem
  cases stream with
  | nil => simp at hitem
  | cons it rest =>
    simp at hitem
    subst hitem
    exact h it (List.mem_cons_self _ _)

theorem createObject_after (className : String) :
    ∀ (calls : List Registration) (a : Activator), a._classes className = none →
      (∀ r ∈ calls, r.className? ≠ some className) →
      (calls.foldl Activator.register a)._classes className = none := by
  intro calls
  induction calls with
  | nil => intro a h _; exact h
  | cons r rest ih =>
    intro a h hr
    apply ih
    · have h1 := hr r (List.mem_cons_self _ _)
      cases r with
      | type c create =>
        have hc : className ≠ c := fun hc => h1 (by simp [Registration.className?, hc])
        simp [Activator.register, Activator.registerType, hc, h]
      | enum n ts p => simpa [Activator.register, Activator.registerEnum] using h
    · exact fun r1 h1 => hr r1 (List.mem_cons_of_mem _ h1)

theorem enums_after (enumName : String) :
    ∀ (calls : List Registration) (a : Activator), a._enums enumName = none →
      (∀ r ∈ calls, r.enumName? ≠ some enumName) →
      (calls.foldl Activator.register a)._enums enumName = none := by
  intro calls
  induction calls with
  | nil => intro a h _; exact h
  | cons r rest ih =>
    intro a h hr
    apply ih
    · have h1 := hr r (List.mem_cons_self _ _)
      cases r with
      | type c create => simpa [Activator.register, Activator.registerType] using h
      | enum n ts p =>
        have hc : enumName ≠ n := fun hc => h1 (by simp [Registration.enumName?, hc])
        simp [Activator.register, Activator.registerEnum, hc, h]
    · exact fun r1 h1 => hr r1 (List.mem_cons_of_mem _ h1)

/-- C16: the round-trip law, for a graph `G` whose class names are all
registered with the activator and whose enumerated values are converted both
ways by the callbacks registered for their enum names.  For either format and
whether or not the writer leaves out fields equal to their default, reading
with `readObject(nullptr)` what `writeObject(nullptr, G)` wrote gives a graph
equal to `G`, with every property of every kind as it was (bool, int, float,
enum, vectors, colors, matrix, string, string list, object, object list, int,
float and byte array), and the stream is read to its end. -/
theorem serializer_round_trip (format : Format) (omitsDefaults : Bool) (a : Activator)
    (G : Serializable) (h : G.Registered a) :
    readObject a none ((Writer.mk format omitsDefaults).writeObject a none G) = some (some G, []) := by
  have := readObject_writeObject (Writer.mk format omitsDefaults) a G h none []
  simpa using this

/-- Witness for C16: the sample scene, written by a JSON writer that leaves
out defaults and by a binary writer that does not. -/
theorem serializer_round_trip_witness :
    sampleScene.Registered (Activator.after sampleRegistrations) ∧
    readObject (Activator.after sampleRegistrations) none
      ((Writer.mk .FORMAT_JSON true).writeObject (Activator.after sampleRegistrations) none
        sampleScene) = some (some sampleScene, []) ∧
    readObject (Activator.after sampleRegistrations) none
      ((Writer.mk .FORMAT_BINARY false).writeObject (Activator.after sampleRegistrations) none
        sampleScene) = some (some sampleScene, []) :=
  ⟨sampleScene_registered,
    serializer_round_trip .FORMAT_JSON true _ sampleScene sampleScene_registered,
    serializer_round_trip .FORMAT_BINARY false _ sampleScene sampleScene_registered⟩

/-- C17: the default-omission law.  A property written with its value equal
to its default `d` and read with default `d` gives `d`, whether or not the
writer left the field out: for every typed value through `writeValue` and
`readValue`, for `writeBool`, `writeInt`, `writeFloat`, `writeString` and their
readers, and for `writeEnum` when the writer leaves the field out or the
registered callbacks convert `d` both ways.  And every read of a name under
which nothing is stored in the source gives the default (no elements for an
array, count 0 for a list, no object for `readObject`). -/
theorem default_omission (w : Writer) (a : Activator) (name enumName : String) (d : Value)
    (b : Bool) (i : Int) (f : Float32) (s : String) (e : Int) (kind : Kind)
    (tail : List Item) (ht : Absent name tail) :
    readValue name d (w.writeValue name d d ++ tail) = (d, tail) ∧
    readBool name b (w.writeBool name b b ++ tail) = (b, tail) ∧
    readInt name i (w.writeInt name i i ++ tail) = (i, tail) ∧
    readFloat name f (w.writeFloat name f f ++ tail) = (f, tail) ∧
    readString name s (w.writeString name s s ++ tail) = (s, tail) ∧
    (w.omitsDefaults = true ∨ a.enumParse enumName (a.enumToString enumName e) = e →
      readEnum a name enumName e (w.writeEnum a name enumName e e ++ tail) = (e, tail)) ∧
    ∀ stream : List Item, (∀ item ∈ stream, item.name? ≠ some name) →
      readValue name d stream = (d, stream) ∧
      readBool name b stream = (b, stream) ∧
      readInt name i stream = (i, stream) ∧
      readFloat name f stream = (f, stream) ∧
      readString name s stream = (s, stream) ∧
      readEnum a name enumName e stream = (e, stream) ∧
      readArray name kind stream = (kind.noElements, stream) ∧
      readStringList name stream = (0, stream) ∧
      readObjectList name stream = (0, stream) ∧
      readObject a (some name) stream = some (none, stream) := by
  refine ⟨readValue_writeValue w name d d tail rfl ht, ?_, ?_, ?_, ?_, ?_, ?_⟩
  · simp [readBool, Writer.writeBool, readValue_writeValue w name _ _ tail rfl ht]
  · simp [readInt, Writer.writeInt, readValue_writeValue w name _ _ tail rfl ht]
  · simp [readFloat, Writer.writeFloat, readValue_writeValue w name _ _ tail rfl ht]
  · simp [readString, Writer.writeString, readValue_writeValue w name _ _ tail rfl ht]
  · intro h
    rcases h with h | h
    · simp [Writer.writeEnum, h, readEnum_absent ht]
    · exact readEnum_writeEnum w a name enumName e e tail h ht
  · intro stream hs
    have hab := absent_of_unnamed hs
    refine ⟨readValue_absent hab d, ?_, ?_, ?_, ?_, readEnum_absent hab a enumName e, ?_, ?_, ?_,
      ?_⟩
    · simp [readBool, readValue_absent hab]
    · simp [readInt, readValue_absent hab]
    · simp [readFloat, readValue_absent hab]
    · simp [readString, readValue_absent hab]
    · simp [readArray, readValue_absent hab]
    · cases stream with
      | nil => rfl
      | cons item rest =>
        cases item with
        | stringList n c =>
          have hn : n ≠ name := fun hc => hab (.stringList n c) rfl (by simp [Item.name?, hc])
          simp [readStringList, hn]
        | _ => rfl
    · cases stream with
      | nil => rfl
      | cons item rest =>
        cases item with
        | objectList n c =>
          have hn : n ≠ name := fun hc => hab (.objectList n c) rfl (by simp [Item.name?, hc])
          simp [readObjectList, hn]
        | _ => rfl
    · exact readObjectWithin_absent hab _ a

/-- Witness for C17: an int property `layer` equal to its default 7, at the
end of the stream. -/
theorem default_omission_witness :
    Absent "layer" [] ∧
    readInt "layer" 7 ((Writer.mk .FORMAT_JSON true).writeInt "layer" 7 7 ++ []) = (7, []) ∧
    readInt "layer" 7 ((Writer.mk .FORMAT_JSON false).writeInt "layer" 7 7 ++ []) = (7, []) :=
  ⟨fun _ h => by simp at h,
    (default_omission (Writer.mk .FORMAT_JSON true) Activator.empty "layer" "" (.int 7) true 7 ⟨0⟩
      "" 0 .int [] (fun _ h => by simp at h)).2.2.1,
    (default_omission (Writer.mk .FORMAT_JSON false) Activator.empty "layer" "" (.int 7) true 7 ⟨0⟩
      "" 0 .int [] (fun _ h => by simp at h)).2.2.1⟩

/-- C18: the list cardinality law.  From a stream written by
`writeObjectList(name, N)` followed by one `writeObject(nullptr, o)` for each
of the `N` objects of a list, `readObjectList(name)` returns `N`, and `N` calls
of `readObject(nullptr)` then each give an object, the objects of the list in
order.  Likewise `readStringList` returns the count announced by
`writeStringList`, and that many `readString` calls give the strings. -/
theorem list_cardinality (w : Writer) (a : Activator) (name : String) (objects : Objects)
    (strings : List String) (rest : List Item) (h : objects.Registered a) :
    readObjectList name
        (w.writeObjectList name objects.length ++ (w.writeObjects a objects ++ rest))
      = (objects.length, w.writeObjects a objects ++ rest) ∧
    readObjects (readObject a) objects.length (w.writeObjects a objects ++ rest)
      = some (objects, rest) ∧
    readStringList name
        (w.writeStringList name strings.length ++ (w.writeStrings strings ++ rest))
      = (strings.length, w.writeStrings strings ++ rest) ∧
    readStrings strings.length (w.writeStrings strings ++ rest) = (strings, rest) := by
  refine ⟨?_, readObjects_readObject w a rest objects h, ?_, readStrings_writeStrings w rest strings⟩
  · simp [readObjectList, Writer.writeObjectList]
  · simp [readStringList, Writer.writeStringList]

/-- Witness for C18: a list of two sample cameras and a list of two strings. -/
theorem list_cardinality_witness :
    (Objects.cons sampleCamera (.cons sampleCamera .nil)).Registered
      (Activator.after sampleRegistrations) ∧
    readObjects (readObject (Activator.after sampleRegistrations)) 2
        ((Writer.mk .FORMAT_BINARY false).writeObjects (Activator.after sampleRegistrations)
          (.cons sampleCamera (.cons sampleCamera .nil)) ++ [])
      = some (.cons sampleCamera (.cons sampleCamera .nil), []) :=
  ⟨⟨sampleCamera_registered, sampleCamera_registered, trivial⟩,
    (list_cardinality (Writer.mk .FORMAT_BINARY false) (Activator.after sampleRegistrations)
      "cameras" (.cons sampleCamera (.cons sampleCamera .nil)) ["a", "b"] []
      ⟨sampleCamera_registered, sampleCamera_registered, trivial⟩).2.1⟩

/-- C19: unregistered types.  For a class name that no `registerType` call
was made for, `createObject` produces no object, and `readObject` on a stream
that carries a class name for which `createObject` produces no object fails: it
returns no object at all.  After `registerType(className, create)`,
`createObject(className)` is the result of `create`; a later `registerType` for
the same name replaces the callback; other class names are not affected.
Whenever `readObject` does return an object for a stream that carries a class
name, it is the object `createObject` made for that class name, filled in. -/
theorem unregistered_type :
    (∀ (calls : List Registration) (className : String),
      (∀ r ∈ calls, r.className? ≠ some className) →
        (Activator.after calls).createObject className = none) ∧
    (∀ (a : Activator) (className : String), a.createObject className = none →
      ∀ (name : Option String) (rest : List Item),
        readObject a name (.beginObject name className :: rest) = none) ∧
    (∀ (a : Activator) (className : String) (name : Option String) (rest rest1 : List Item)
        (o : Serializable),
      readObject a name (.beginObject name className :: rest) = some (some o, rest1) →
        ∃ created, a.createObject className = some created ∧
          o.getClassName = created.getClassName) ∧
    (∀ (a : Activator) (className : String) (create : CreateObjectCallback),
      (a.registerType className create).createObject className = some (create ())) ∧
    (∀ (a : Activator) (className : String) (create create2 : CreateObjectCallback),
      ((a.registerType className create).registerType className create2).createObject className
        = some (create2 ())) ∧
    (∀ (a : Activator) (className other : String) (create : CreateObjectCallback),
      other ≠ className →
        (a.registerType className create).createObject other = a.createObject other) := by
  refine ⟨?_, ?_, ?_, ?_, ?_, ?_⟩
  · intro calls className h
    have := createObject_after className calls Activator.empty rfl h
    simp [Activator.createObject, Activator.after, this]
  · intro a className h name rest
    simp [readObject, readObjectWithin, h]
  · intro a className name rest rest1 o h
    cases hc : a.createObject className with
    | none => simp [readObject, readObjectWithin, hc] at h
    | some created =>
      refine ⟨created, rfl, ?_⟩
      obtain ⟨c1, ps⟩ := created
      simp only [readObject, List.length_cons, readObjectWithin, if_true, hc] at h
      split at h
      · simp at h
        rw [← h.1]
        rfl
      · simp at h
  · intro a className create
    simp [Activator.registerType, Activator.createObject]
  · intro a className create create2
    simp [Activator.registerType, Activator.createObject]
  · intro a className other create h
    simp [Activator.registerType, Activator.createObject, h]

/-- Witness for C19: the class name `Unknown::Type` with the sample
registrations. -/
theorem unregistered_type_witness :
    (∀ r ∈ sampleRegistrations, r.className? ≠ some "Unknown::Type") ∧
    (Activator.after sampleRegistrations).createObject "Unknown::Type" = none ∧
    readObject (Activator.after sampleRegistrations) none
      [.beginObject none "Unknown::Type", .endObject] = none :=
  have h : ∀ r ∈ sampleRegistrations, r.className? ≠ some "Unknown::Type" := by
    simp [sampleRegistrations, Registration.className?]
  ⟨h, unregistered_type.1 sampleRegistrations "Unknown::Type" h,
    unregistered_type.2.1 _ "Unknown::Type"
      (unregistered_type.1 sampleRegistrations "Unknown::Type" h) none [.endObject]⟩

/-- C20: the enum fallback.  For an enum name that no `registerEnum` call was
made for, `enumParse` returns -1 and `enumToString` returns the fallback
string.  For a registered enum name, `enumParse` returns what the registered
parse callback returns, which is -1 for every string that is not the name of a
value of the enum when the callback keeps to its contract (`parseWith`); so
`enumParse("gameplay::Camera::Type", "NOT_A_VALUE")` is -1. -/
theorem enum_fallback :
    (∀ (calls : List Registration) (enumName : String),
      (∀ r ∈ calls, r.enumName? ≠ some enumName) →
        ∀ (str : String) (value : Int),
          (Activator.after calls).enumParse enumName str = -1 ∧
          (Activator.after calls).enumToString enumName value = defaultEnumString) ∧
    (∀ (a : Activator) (enumName str : String) (enumToString : EnumToStringCallback)
        (enumParse : EnumParseCallback),
      (a.registerEnum enumName enumToString enumParse).enumParse enumName str
        = enumParse enumName str) ∧
    (∀ (names : List (String × Int)) (enumName str : String),
      (∀ p ∈ names, p.1 ≠ str) → parseWith names enumName str = -1) ∧
    (Activator.after sampleRegistrations).enumParse "gameplay::Camera::Type" "NOT_A_VALUE" = -1 ∧
    (Activator.after sampleRegistrations).enumParse "gameplay::Camera::Type" "ORTHOGRAPHIC" = 2 := by
  refine ⟨?_, ?_, ?_, ?_, ?_⟩
  · intro calls enumName h str value
    have := enums_after enumName calls Activator.empty rfl h
    simp [Activator.enumParse, Activator.enumToString, Activator.after, this]
  · intro a enumName str ts p
    simp [Activator.registerEnum, Activator.enumParse]
  · intro names enumName str h
    have : names.find? (fun p => p.1 == str) = none := by
      simp [List.find?_eq_none]
      exact fun p1 p2 hp => h (p1, p2) hp
    simp [parseWith, this]
  · simp [Activator.after, sampleRegistrations, Activator.register, Activator.registerType,
      Activator.registerEnum, Activator.enumParse, Activator.empty, parseWith, cameraTypes]
  · simp [Activator.after, sampleRegistrations, Activator.register, Activator.registerType,
      Activator.registerEnum, Activator.enumParse, Activator.empty, parseWith, cameraTypes]

/-- Witness for C20: the enum name `Unknown::Enum` with the sample
registrations. -/
theorem enum_fallback_witness :
    (∀ r ∈ sampleRegistrations, r.enumName? ≠ some "Unknown::Enum") ∧
    (Activator.after sampleRegistrations).enumParse "Unknown::Enum" "PERSPECTIVE" = -1 ∧
    (Activator.after sampleRegistrations).enumToString "Unknown::Enum" 1 = defaultEnumString :=
  have h : ∀ r ∈ sampleRegistrations, r.enumName? ≠ some "Unknown::Enum" := by
    simp [sampleRegistrations, Registration.enumName?]
  ⟨h, (enum_fallback.1 sampleRegistrations "Unknown::Enum" h "PERSPECTIVE" 1).1,
    (enum_fallback.1 sampleRegistrations "Unknown::Enum" h "PERSPECTIVE" 1).2⟩

end Serializer

/-! ## The fence bookkeeping of a frame -/

theorem Ends.runUntil_le (v : Nat) : ∀ (q : List GpuOp) (c : Nat), Ends v q c →
    ∀ x, x ≤ v → ∃ r, runUntil x q c = some r ∧ x ≤ r.2 := by
  intro q
  induction q with
  | nil =>
    intro c h x hx
    rcases h with ⟨_, h⟩ | ⟨q0, h⟩
    · exact ⟨([], c), by simp [runUntil, le_trans hx h], le_trans hx h⟩
    · simp at h
  | cons op q1 ih =>
    intro c h x hx
    by_cases hc : x ≤ c
    · exact ⟨(op :: q1, c), by cases op <;> simp [runUntil, hc], hc⟩
    · have hq1 : Ends v q1 (match op with | .execute => c | .signal y => y) := by
        rcases h with ⟨h, _⟩ | ⟨q0, h⟩
        · cases h
        · cases q0 with
          | nil =>
            simp at h
            obtain ⟨rfl, rfl⟩ := h
            exact Or.inl ⟨rfl, le_refl _⟩
          | cons op0 q00 =>
            simp at h
            exact Or.inr ⟨q00, h.2⟩
      cases op with
      | execute =>
        obtain ⟨r, hr, hv⟩ := ih c hq1 x hx
        exact ⟨r, by simp [runUntil, hc, hr], hv⟩
      | signal y =>
        obtain ⟨r, hr, hv⟩ := ih y hq1 x hx
        exact ⟨r, by simp [runUntil, hc, hr], hv⟩

theorem signalValues_append (l1 l2 : List Call) :
    signalValues (l1 ++ l2) = signalValues l1 ++ signalValues l2 := by
  simp [signalValues]

theorem signals_append (l1 l2 : List Event) : signals (l1 ++ l2) = signals l1 ++ signals l2 := by
  simp [signals, signalValues, calls]

theorem signals_nil : signals [] = [] := rfl

theorem signalValues_recording (e : Env) (s : GraphicsDirect3D) (w : World) :
    signalValues (recordingCalls e s w) = [] := by
  unfold recordingCalls
  split <;> simp [signalValues]

theorem signalValues_frame (e : Env) (s : GraphicsDirect3D) (w : World) :
    signalValues (frameCalls e s w)
      = [s._fenceValues w.swapIndex, uint64_t (s._fenceValues w.swapIndex + 1)] := by
  unfold frameCalls
  rw [signalValues_append, signalValues_recording]
  simp [signalValues]

theorem calls_append (l1 l2 : List Event) : calls (l1 ++ l2) = calls l1 ++ calls l2 := by
  simp [calls]

theorem calls_tagged_map (cs : List Call) (p : Bool) :
    calls (cs.map fun c => ⟨c, p⟩) = cs := by
  simp [calls, calls_tagged]

theorem Ends.after_call {f : Nat} {w : World} (e : Env) (c : Call) (p : Bool)
    (h : Ends f w.queue w.completed) :
    Ends f (World.after e c p w).queue (World.after e c p w).completed :=
  Ends.retire f _ _ _ h

/-- The queue after the signal of `f` was submitted in the world `w` and four
more calls were issued: a wait for a value up to `f` ends. -/
theorem wait_after_signal (e : Env) (f x : Nat) (p : Bool) (c1 c2 c3 c4 : Call) (w : World)
    (hx : x ≤ f) :
    (runUntil x
      (World.after e c4 p (World.after e c3 p (World.after e c2 p
        (World.after e c1 p (w.submit (.signal f)))))).queue
      (World.after e c4 p (World.after e c3 p (World.after e c2 p
        (World.after e c1 p (w.submit (.signal f)))))).completed).isSome = true := by
  have h0 : Ends f (w.submit (.signal f)).queue (w.submit (.signal f)).completed :=
    Or.inr ⟨_, rfl⟩
  have h := Ends.after_call e c4 p (Ends.after_call e c3 p (Ends.after_call e c2 p
    (Ends.after_call e c1 p h0)))
  obtain ⟨r, hr, _⟩ := Ends.runUntil_le f _ _ h x hx
  rw [hr]
  rfl

theorem wait_after_signal_none (e : Env) (f x : Nat) (p : Bool) (c1 c2 c3 c4 : Call) (w : World)
    (h : runUntil x
      (World.after e c4 p (World.after e c3 p (World.after e c2 p
        (World.after e c1 p (w.submit (.signal f)))))).queue
      (World.after e c4 p (World.after e c3 p (World.after e c2 p
        (World.after e c1 p (w.submit (.signal f)))))).completed = none) :
    f < x := by
  by_contra hx
  have := wait_after_signal e f x p c1 c2 c3 c4 w (by omega)
  rw [h] at this
  cases this

set_option maxHeartbeats 4000000 in
/-- A frame on a prepared device on which no backend call fails, whatever the
members and the world.  With `c` the swapchain's current slot, `v` the fence
value stored for it, `f = v + 1` in `uint64_t` the value signalled after the
present and `n` the slot the swapchain selects at the present: the call never
aborts; it blocks only when the value stored for `n` is beyond `f`; and when it
returns the members are as set out below. -/
theorem render_frame (e : Env) (dt : ℚ) (s : GraphicsDirect3D) (w : World)
    (hf : ∀ t c, e.fails t c = false) (hp : s._prepared = true) :
    post (render e dt) s w
      (fun _ s1 w1 =>
        s1._backBufferIndex = nextSlot e s w ∧ w1.swapIndex = nextSlot e s w ∧
        s1._fenceValues
          = store (store s._fenceValues w.swapIndex (uint64_t (s._fenceValues w.swapIndex + 1)))
            (nextSlot e s w) (uint64_t (uint64_t (s._fenceValues w.swapIndex + 1) + 1)) ∧
        s1._prepared = s._prepared ∧ s1._initialized = s._initialized ∧
        s1._width = s._width ∧ s1._height = s._height ∧
        (calls w1.trace = calls w.trace ++ frameCalls e s w ∨
          calls w1.trace = calls w.trace ++ frameCalls e s w ++
            [.SetEventOnCompletion
                (store s._fenceValues w.swapIndex (uint64_t (s._fenceValues w.swapIndex + 1))
                  (nextSlot e s w)),
             .WaitForSingleObject]))
      (fun _ _ => False)
      (fun _ w1 => nextSlot e s w ≠ w.swapIndex ∧
        uint64_t (s._fenceValues w.swapIndex + 1) < s._fenceValues (nextSlot e s w) ∧
        calls w1.trace = calls w.trace ++ frameCalls e s w ++
          [.SetEventOnCompletion (s._fenceValues (nextSlot e s w)), .WaitForSingleObject]) := by
  by_cases hz : w.swapIndex = 0 <;>
  simp [render, post_bind, post_pure, post_self, post_assign,
      post_affect, post_issue, post_ite, post_abort, post_world, post_blockUntil, fallible,
      Signal, SetEventOnCompletion, waitOn, ExecuteCommandLists, Present, reindexing,
      GetCurrentBackBufferIndex, GetCompletedValue, post_buildCommands e hf, hf, hp,
      GraphicsDirect3D.bumped, GraphicsDirect3D.retargeted, nextSlot, frameCalls,
      calls_tagged, calls, hz, Nat.add_assoc] <;>
  split_ifs <;> simp_all <;>
  (intro _ hnone
   have h := wait_after_signal_none e _ _ true _ _ _ _ _ hnone
   first | exact h | omega)

/-! ## The fence values of one frame -/

set_option maxHeartbeats 4000000 in
/-- C21, counterexample, on `healthy`, where no backend call fails.  First the
started device with the fence values 0 for slot 0 and 5 for slot 1: `render`
drains slot 0 (value 0), submits, presents, signals 1 and moves to slot 1; the
fence has not reached the 5 stored for slot 1, so the call arms the event for 5
and waits.  Nothing queued takes the fence to 5: the call does not return.
Then the started device with `UINT64_MAX - 1` in slot 0 and 0 in slot 1:
`render` returns, the value it signals after the present is `UINT64_MAX`, and
the increment of line 248 wraps: slot 1 holds 0 afterwards, not the value
signalled plus one. -/
theorem render_stalls_or_wraps :
    staleDevice._prepared = true ∧ (∀ t c, healthy.fails t c = false) ∧
    (render healthy 0 staleDevice readyWorld).isReturned = false ∧
    (render healthy 0 staleDevice readyWorld).isAborted = false ∧
    calls ((render healthy 0 staleDevice readyWorld).world.trace.drop readyWorld.trace.length)
      = [.ResetAllocator (some 20), .ResetCommandList (some 20),
         .ResourceBarrier (some 26) .PRESENT .RENDER_TARGET,
         .GetDescriptorHandleIncrementSize, .GetCurrentBackBufferIndex,
         .GetCPUDescriptorHandleForHeapStart, .OMSetRenderTargets 4096,
         .ClearRenderTargetView 4096 0 0 0 1,
         .ResourceBarrier (some 26) .RENDER_TARGET .PRESENT, .Close,
         .Signal 0, .SetEventOnCompletion 0, .WaitForSingleObjectEx,
         .ExecuteCommandLists 1, .Present 1, .Signal 1, .GetCurrentBackBufferIndex,
         .GetCompletedValue, .SetEventOnCompletion 5, .WaitForSingleObject] ∧
    nearWrapDevice._prepared = true ∧
    (render healthy 0 nearWrapDevice readyWorld).isReturned = true ∧
    signals ((render healthy 0 nearWrapDevice readyWorld).world.trace.drop
        readyWorld.trace.length)
      = [UINT64_MAX - 1, UINT64_MAX] ∧
    (render healthy 0 nearWrapDevice readyWorld).state._backBufferIndex = 1 ∧
    (render healthy 0 nearWrapDevice readyWorld).state._fenceValues 1 = 0 ∧
    (0 : Nat) ≠ UINT64_MAX + 1 := by
  refine ⟨rfl, fun _ _ => rfl, ?_, ?_, ?_, rfl, ?_, ?_, ?_, ?_, by decide⟩ <;>
  simp [render, buildCommands, waitForGpu, bind_run, pure_run, self, assign, affect,
    world, issue_run, fallible, Signal, SetEventOnCompletion, waitOn, blockUntil,
    ExecuteCommandLists, Present, reindexing, GetCurrentBackBufferIndex, GetCompletedValue,
    GetDescriptorHandleIncrementSize, GetCPUDescriptorHandleForHeapStart, D3D_CHECK_RESULT,
    Env.hresult, FAILED, healthy, staleDevice, nearWrapDevice, nearWrap, zeroed, readyDevice,
    readyWorld, startupCalls, World.after,
    World.advance, World.log, World.submit, World.select, retireOps_zero, runUntil,
    GP_GRAPHICS_BACK_BUFFERS, calls, signals, signalValues, Outcome.world, Outcome.state,
    Outcome.isReturned, Outcome.isAborted, store, uint64_t, UINT64_MAX]

/-- C21, amended: the fence bookkeeping of one frame, with the two increments
computed in `uint64_t`.  Take a prepared device, `c` the swapchain's current
slot, `v = _fenceValues[c]` at entry, a backend on which no call fails, and `n`
the slot the swapchain selects at the present; write `f` for `v + 1` in
`uint64_t`, and when `n` is not `c` let the value stored for `n` at entry be at
most `f`.  Then `render` returns.  Its calls are those of
`frameCalls`: the recording and the drain of `buildCommands` (which signals `v`
and leaves `f` in slot `c`), then `ExecuteCommandLists`, then `Present`, then
`Signal` with the value `f` now stored for the slot just submitted, then the
index read, the read of the completed value and at most one wait, for the value
then stored for `n`.  On return the back-buffer index is `n`, `_fenceValues[n]`
is `f + 1` in `uint64_t` (the value signalled after the present plus one, or 0
when that value is `UINT64_MAX`), slot `c` holds `f` when it is not `n`, no
other slot has changed, and the width, the height, `_initialized` and
`_prepared` are as before. -/
theorem render_fence_bookkeeping (e : Env) (dt : ℚ) (s : GraphicsDirect3D) (w : World)
    (hp : s._prepared = true) (hf : ∀ t c, e.fails t c = false)
    (hn : nextSlot e s w ≠ w.swapIndex →
      s._fenceValues (nextSlot e s w) ≤ uint64_t (s._fenceValues w.swapIndex + 1)) :
    ∃ s1 w1, render e dt s w = .returned () s1 w1 ∧
      (calls w1.trace = calls w.trace ++ frameCalls e s w ∨
        calls w1.trace = calls w.trace ++ frameCalls e s w ++
          [.SetEventOnCompletion
              (if nextSlot e s w = w.swapIndex then uint64_t (s._fenceValues w.swapIndex + 1)
                else s._fenceValues (nextSlot e s w)),
           .WaitForSingleObject]) ∧
      signals w1.trace = signals w.trace ++
        [s._fenceValues w.swapIndex, uint64_t (s._fenceValues w.swapIndex + 1)] ∧
      w1.swapIndex = nextSlot e s w ∧
      s1._backBufferIndex = nextSlot e s w ∧
      s1._fenceValues (nextSlot e s w)
        = uint64_t (uint64_t (s._fenceValues w.swapIndex + 1) + 1) ∧
      (s._fenceValues w.swapIndex + 1 < UINT64_MAX →
        s1._fenceValues (nextSlot e s w) = (s._fenceValues w.swapIndex + 1) + 1) ∧
      (nextSlot e s w ≠ w.swapIndex →
        s1._fenceValues w.swapIndex = uint64_t (s._fenceValues w.swapIndex + 1)) ∧
      (∀ i, i ≠ w.swapIndex → i ≠ nextSlot e s w → s1._fenceValues i = s._fenceValues i) ∧
      getWidth s1 = getWidth s ∧ getHeight s1 = getHeight s ∧
      isInitialized s1 = isInitialized s ∧ isPrepared s1 = isPrepared s := by
  have h := render_frame e dt s w hf hp
  unfold post at h
  cases hr : render e dt s w with
  | aborted s1 w1 => rw [hr] at h; exact h.elim
  | blocked s1 w1 =>
    rw [hr] at h
    have := hn h.1
    omega
  | returned a s1 w1 =>
    rw [hr] at h
    obtain ⟨h1, h2, h3, h4, h5, h6, h7, h8⟩ := h
    refine ⟨s1, w1, rfl, ?_, ?_, h2, h1, ?_, ?_, ?_, ?_, h6, h7, h5, h4⟩
    · rcases h8 with h8 | h8
      · exact Or.inl h8
      · right
        rw [h8]
        by_cases hcn : nextSlot e s w = w.swapIndex <;> simp [store, hcn]
    · unfold signals
      rcases h8 with h8 | h8 <;> rw [h8] <;>
        (simp only [signalValues_append, signalValues_frame]; try simp [signalValues])
    · rw [h3]; simp [store]
    · intro hlt
      have k1 : s._fenceValues w.swapIndex + 1 < 2 ^ 64 := by
        unfold UINT64_MAX at hlt
        omega
      have k2 : s._fenceValues w.swapIndex + 1 + 1 < 2 ^ 64 := by
        unfold UINT64_MAX at hlt
        omega
      rw [h3]
      simp [store, uint64_t_of_lt k1, uint64_t_of_lt k2]
    · intro hcn
      rw [h3]; simp [store, hcn, Ne.symm hcn]
    · intro i hi1 hi2
      rw [h3]; simp [store, hi1, hi2]

/-- Witness for C21: the first frame of the started device on `healthy`. -/
theorem render_fence_bookkeeping_witness :
    readyDevice._prepared = true ∧
    (nextSlot healthy readyDevice readyWorld ≠ readyWorld.swapIndex →
      readyDevice._fenceValues (nextSlot healthy readyDevice readyWorld)
        ≤ uint64_t (readyDevice._fenceValues readyWorld.swapIndex + 1)) ∧
    ∃ s1 w1, render healthy 0 readyDevice readyWorld = .returned () s1 w1 ∧
      s1._backBufferIndex = nextSlot healthy readyDevice readyWorld ∧
      s1._fenceValues (nextSlot healthy readyDevice readyWorld)
        = uint64_t (uint64_t (readyDevice._fenceValues readyWorld.swapIndex + 1) + 1) :=
  have h := render_fence_bookkeeping healthy 0 readyDevice readyWorld rfl (fun _ _ => rfl)
    (fun _ => by simp [readyDevice])
  ⟨rfl, fun _ => by simp [readyDevice], by
    obtain ⟨s1, w1, h1, _, _, _, h5, h6, _⟩ := h
    exact ⟨s1, w1, h1, h5, h6⟩⟩

/-! ## The wait of a frame -/

/-- C22, counterexample: the started device with the fence values 0 for slot 0
and 5 for slot 1, on `unarmed`.  The first `render` reaches the index advance
with new slot 1; the completed value read is below the 5 stored for slot 1, but
`SetEventOnCompletion(5)` fails, and `render` returns at once: the call
`WaitForSingleObject` is not issued. -/
theorem render_skips_wait_when_arming_fails :
    staleDevice._prepared = true ∧
    (render unarmed 0 staleDevice readyWorld).isReturned = true ∧
    (render unarmed 0 staleDevice readyWorld).state._backBufferIndex = 1 ∧
    (render unarmed 0 staleDevice readyWorld).world.completed < staleDevice._fenceValues 1 ∧
    calls ((render unarmed 0 staleDevice readyWorld).world.trace.drop readyWorld.trace.length)
      = [.ResetAllocator (some 20), .ResetCommandList (some 20),
         .ResourceBarrier (some 26) .PRESENT .RENDER_TARGET,
         .GetDescriptorHandleIncrementSize, .GetCurrentBackBufferIndex,
         .GetCPUDescriptorHandleForHeapStart, .OMSetRenderTargets 4096,
         .ClearRenderTargetView 4096 0 0 0 1,
         .ResourceBarrier (some 26) .RENDER_TARGET .PRESENT, .Close,
         .Signal 0, .SetEventOnCompletion 0, .WaitForSingleObjectEx,
         .ExecuteCommandLists 1, .Present 1, .Signal 1, .GetCurrentBackBufferIndex,
         .GetCompletedValue, .SetEventOnCompletion 5] := by
  refine ⟨rfl, ?_, ?_, ?_, ?_⟩ <;>
  simp [render, buildCommands, waitForGpu, bind_run, pure_run, self, assign, affect,
    world, issue_run, fallible, Signal, SetEventOnCompletion, waitOn, blockUntil,
    ExecuteCommandLists, Present, reindexing, GetCurrentBackBufferIndex, GetCompletedValue,
    GetDescriptorHandleIncrementSize, GetCPUDescriptorHandleForHeapStart, D3D_CHECK_RESULT,
    Env.hresult, FAILED, healthy, unarmed, staleDevice, readyDevice, readyWorld, startupCalls,
    World.after, World.advance, World.log, World.submit, World.select, retireOps_zero, runUntil,
    GP_GRAPHICS_BACK_BUFFERS, calls, Outcome.world, Outcome.state, Outcome.isReturned, store,
    uint64_t]

set_option maxHeartbeats 1000000 in
/-- C22, amended: the wait condition of a frame.  Let `render` on a prepared
device reach the index advance: `buildCommands` and `ExecuteCommandLists`
returned, with members `sB` and world `wE`, and the `Present` and the `Signal`
issued next succeed.  Let `n` be the swapchain's new current slot, `x` the
fence value stored for `n` at that moment and `c` the completed value read.
The call never aborts, and what it logs after the read of the completed value
is `waitCalls`: nothing when `x ≤ c`; `SetEventOnCompletion(x)` alone when
`c < x` and arming the event fails; `SetEventOnCompletion(x)` and the wait
`WaitForSingleObject` when `c < x` and arming succeeds.  So `render` blocks on
the wait handle if and only if `c < x` and `SetEventOnCompletion(x)` succeeds,
and then it waits for exactly `x`. -/
theorem render_wait_condition (e : Env) (dt : ℚ) (s sB : GraphicsDirect3D) (w wE : World)
    (hp : s._prepared = true)
    (hreach : (buildCommands e >>= fun _ => ExecuteCommandLists e 1) s w = .returned () sB wE)
    (hP : e.fails wE.trace.length (.Present (if sB._vsync then 1 else 0)) = false)
    (hS : e.fails (wE.trace.length + 1) (.Signal (sB._fenceValues sB._backBufferIndex)) = false) :
    (render e dt s w).isAborted = false ∧
    (render e dt s w).world.trace
      = (World.advanced e sB wE).trace ++ waitCalls e sB (World.advanced e sB wE) ∧
    (Call.WaitForSingleObject ∈
        calls ((render e dt s w).world.trace.drop (World.advanced e sB wE).trace.length) ↔
      (World.advanced e sB wE).completed < sB._fenceValues (World.advanced e sB wE).swapIndex ∧
      e.fails (World.advanced e sB wE).trace.length
        (.SetEventOnCompletion (sB._fenceValues (World.advanced e sB wE).swapIndex)) = false) := by
  have hb := buildCommands_frame e s w
  unfold post at hb
  rw [bind_run] at hreach
  cases hbc : buildCommands e s w with
  | aborted s1 w1 => rw [hbc] at hreach; cases hreach
  | blocked s1 w1 => rw [hbc] at hreach; cases hreach
  | returned a s1 w1 =>
    rw [hbc] at hreach hb
    simp only at hreach hb
    obtain ⟨b1, b2, b3⟩ := hb
    have hE : sB = s1 ∧ wE = (World.after e (.ExecuteCommandLists 1) s1._prepared w1).submit
        .execute := by
      simp [ExecuteCommandLists, bind_run, issue_run, affect] at hreach
      exact ⟨hreach.1.symm, hreach.2.symm⟩
    obtain ⟨rfl, hwE⟩ := hE
    have hpB : sB._prepared = true := b1.trans hp
    subst hwE
    simp [hpB, Nat.add_assoc] at hP hS
    have hb1 : ∀ R A B, post (buildCommands e) s w R A B = R () sB w1 := by
      intro R A B
      unfold post
      rw [hbc]
    have hpost : post (render e dt) s w
        (fun _ _ w2 => w2.trace = (World.advanced e sB
            ((World.after e (.ExecuteCommandLists 1) sB._prepared w1).submit .execute)).trace ++
          waitCalls e sB (World.advanced e sB
            ((World.after e (.ExecuteCommandLists 1) sB._prepared w1).submit .execute)))
        (fun _ _ => False)
        (fun _ w2 => w2.trace = (World.advanced e sB
            ((World.after e (.ExecuteCommandLists 1) sB._prepared w1).submit .execute)).trace ++
          waitCalls e sB (World.advanced e sB
            ((World.after e (.ExecuteCommandLists 1) sB._prepared w1).submit .execute))) := by
      simp [render, post_bind, post_pure, post_self, post_assign, post_affect, post_issue,
        post_ite, post_abort, post_world, post_blockUntil, fallible, Signal,
        SetEventOnCompletion, waitOn, ExecuteCommandLists, Present, reindexing,
        GetCurrentBackBufferIndex, GetCompletedValue, hb1, hp, hpB, hP, hS, World.advanced,
        waitCalls, Nat.add_assoc]
      split_ifs <;> simp_all
    have key : (render e dt s w).isAborted = false ∧
        (render e dt s w).world.trace = (World.advanced e sB
            ((World.after e (.ExecuteCommandLists 1) sB._prepared w1).submit .execute)).trace ++
          waitCalls e sB (World.advanced e sB
            ((World.after e (.ExecuteCommandLists 1) sB._prepared w1).submit .execute)) := by
      unfold post at hpost
      cases hr : render e dt s w with
      | aborted s2 w2 => rw [hr] at hpost; exact hpost.elim
      | blocked s2 w2 => rw [hr] at hpost; exact ⟨rfl, hpost⟩
      | returned a2 s2 w2 => rw [hr] at hpost; exact ⟨rfl, hpost⟩
    refine ⟨key.1, key.2, ?_⟩
    rw [key.2]
    generalize World.advanced e sB
      ((World.after e (.ExecuteCommandLists 1) sB._prepared w1).submit .execute) = W
    unfold waitCalls
    by_cases h1 : W.completed < sB._fenceValues W.swapIndex <;>
    cases h2 : e.fails W.trace.length (.SetEventOnCompletion (sB._fenceValues W.swapIndex)) <;>
    simp [h1, h2, calls]

/-- Witness for C22: the first frame of the started device on `healthy`. -/
theorem render_wait_condition_witness :
    readyDevice._prepared = true ∧
    (render healthy 0 readyDevice readyWorld).isAborted = false ∧
    (Call.WaitForSingleObject ∈
        calls ((render healthy 0 readyDevice readyWorld).world.trace.drop
          (World.advanced healthy (readyDevice.retargeted healthy 0).bumped
            ((World.after healthy (.ExecuteCommandLists 1) true
              (World.built healthy readyDevice readyWorld)).submit .execute)).trace.length) ↔
      (World.advanced healthy (readyDevice.retargeted healthy 0).bumped
          ((World.after healthy (.ExecuteCommandLists 1) true
            (World.built healthy readyDevice readyWorld)).submit .execute)).completed
        < (readyDevice.retargeted healthy 0).bumped._fenceValues
          (World.advanced healthy (readyDevice.retargeted healthy 0).bumped
            ((World.after healthy (.ExecuteCommandLists 1) true
              (World.built healthy readyDevice readyWorld)).submit .execute)).swapIndex ∧
      healthy.fails
        (World.advanced healthy (readyDevice.retargeted healthy 0).bumped
          ((World.after healthy (.ExecuteCommandLists 1) true
            (World.built healthy readyDevice readyWorld)).submit .execute)).trace.length
        (.SetEventOnCompletion ((readyDevice.retargeted healthy 0).bumped._fenceValues
          (World.advanced healthy (readyDevice.retargeted healthy 0).bumped
            ((World.after healthy (.ExecuteCommandLists 1) true
              (World.built healthy readyDevice readyWorld)).submit .execute)).swapIndex)) = false) :=
  have h := render_wait_condition healthy 0 readyDevice (readyDevice.retargeted healthy 0).bumped
    readyWorld
    ((World.after healthy (.ExecuteCommandLists 1) true
      (World.built healthy readyDevice readyWorld)).submit .execute)
    rfl
    (by
      rw [bind_run, buildCommands_run healthy readyDevice readyWorld rfl rfl rfl rfl rfl]
      rfl)
    rfl rfl
  ⟨rfl, h.1, h.2.2⟩

/-! ## `_prepared` and `_initialized` between calls -/

theorem World.steady_after (e : Env) (p : Bool) (n : Nat) (c : Call) (q : Bool) (w : World) :
    World.steady p n (World.after e c q w) ↔
      World.steady p n w ∧ (n ≤ w.trace.length → q = p) := by
  unfold World.steady
  constructor
  · intro h
    refine ⟨fun t ev ht => h t ev ?_, fun hn => h w.trace.length ⟨c, q⟩ ?_ hn⟩
    · have hlt : t < w.trace.length := (List.getElem?_eq_some.mp ht).1
      simp [List.getElem?_append_left hlt, ht]
    · simp
  · rintro ⟨h1, h2⟩ t ev ht hn
    by_cases hlt : t < w.trace.length
    · rw [World.after_trace, List.getElem?_append_left hlt] at ht
      exact h1 t ev ht hn
    · rw [World.after_trace, List.getElem?_append_right (by omega)] at ht
      have hlen := (List.getElem?_eq_some.mp ht).1
      simp at hlen
      have ht0 : t = w.trace.length := by omega
      subst ht0
      simp at ht
      subst ht
      exact h2 hn

theorem World.steady_of_trace (p : Bool) (n : Nat) (w1 w2 : World) (h : w1.trace = w2.trace) :
    World.steady p n w1 ↔ World.steady p n w2 := by
  unfold World.steady
  rw [h]

theorem World.steady_submit (p : Bool) (n : Nat) (w : World) (op : GpuOp) :
    World.steady p n (w.submit op) ↔ World.steady p n w := Iff.rfl

theorem World.steady_select (p : Bool) (n : Nat) (w : World) (i : Nat) :
    World.steady p n (w.select i) ↔ World.steady p n w := Iff.rfl

theorem World.steady_await (p : Bool) (n : Nat) (w : World) (v : Nat) :
    World.steady p n (w.await v) ↔ World.steady p n w :=
  World.steady_of_trace p n _ _ (World.await_trace w v)

theorem World.steady_self (p : Bool) (w : World) : World.steady p w.trace.length w := by
  intro t ev ht hn
  have := (List.getElem?_eq_some.mp ht).1
  omega

set_option maxHeartbeats 4000000 in
/-- Whatever the backend answers, `buildCommands` leaves `_prepared` and
`_initialized` alone, and all its calls are issued with the value `_prepared`
had at entry. -/
theorem buildCommands_steady (e : Env) (s : GraphicsDirect3D) (w : World) :
    post (buildCommands e) s w
      (fun _ s1 w1 => s1._prepared = s._prepared ∧ s1._initialized = s._initialized ∧
        World.steady s._prepared w.trace.length w1)
      (fun _ w1 => World.steady s._prepared w.trace.length w1)
      (fun _ w1 => World.steady s._prepared w.trace.length w1) := by
  have h0 := World.steady_self s._prepared w
  by_cases hz : w.swapIndex = 0 <;>
  simp [buildCommands, waitForGpu, post_bind, post_pure, post_self, post_assign, post_affect,
    post_issue, post_ite, post_abort, post_world, post_blockUntil, fallible, Signal,
    SetEventOnCompletion, waitOn, GetCurrentBackBufferIndex, GetDescriptorHandleIncrementSize,
    GetCPUDescriptorHandleForHeapStart, D3D_CHECK_RESULT, hz, World.steady_after,
    World.steady_submit, World.steady_await, h0]

/-- Whatever the backend answers, `render` leaves `_prepared` and
`_initialized` alone, and all its calls are issued with the value `_prepared`
had at entry. -/
theorem render_steady (e : Env) (dt : ℚ) (s : GraphicsDirect3D) (w : World) :
    post (render e dt) s w
      (fun _ s1 w1 => s1._prepared = s._prepared ∧ s1._initialized = s._initialized ∧
        World.steady s._prepared w.trace.length w1)
      (fun _ w1 => World.steady s._prepared w.trace.length w1)
      (fun _ w1 => World.steady s._prepared w.trace.length w1) := by
  have h0 := World.steady_self s._prepared w
  unfold render
  cases hp : s._prepared
  · simp [post_bind, post_self, post_ite, post_pure, hp]
    rw [← hp]
    exact h0
  · simp only [post_bind, post_self, post_ite, post_pure, hp, Bool.not_true, Bool.false_eq_true,
      if_false]
    have hb := buildCommands_steady e s w
    rw [hp] at hb
    refine post_mono hb ?_ (fun _ _ h => h) (fun _ _ h => h)
    intro _ s1 w1 ⟨h1, h2, h3⟩
    simp [post_bind, post_pure, post_self, post_assign, post_affect, post_issue, post_ite,
      post_world, post_blockUntil, fallible, Signal, SetEventOnCompletion, waitOn,
      ExecuteCommandLists, Present, reindexing, GetCurrentBackBufferIndex, GetCompletedValue,
      World.steady_after, World.steady_submit, World.steady_select, World.steady_await,
      h1, h2, h3]

set_option maxHeartbeats 4000000 in
/-- Whatever the backend answers, a `resize` that returns leaves `_prepared`
and `_initialized` as they were at entry. -/
theorem resize_flags (e : Env) (width height : Int) (s : GraphicsDirect3D) (w : World) :
    post (resize e width height) s w
      (fun _ s1 _ => s1._prepared = s._prepared ∧ s1._initialized = s._initialized)
      (fun _ _ => True) (fun _ _ => True) := by
  by_cases hg : s._prepared = false ∨ (width = s._width ∧ height = s._height)
  · unfold post
    rw [resize_guard_noop e width height s w hg]
    exact ⟨rfl, rfl⟩
  · have hp : s._prepared = true := by
      cases h : s._prepared
      · exact absurd (Or.inl h) hg
      · rfl
    have hd : ¬ (width = s._width ∧ height = s._height) := fun h => hg (Or.inr h)
    cases h0 : s._renderTargets 0 <;> cases h1 : s._renderTargets 1 <;>
    simp [resize, waitForGpu, post_bind, post_pure, post_self, post_assign, post_affect,
      post_issue, post_ite, post_abort, post_world, post_blockUntil, fallible, Signal,
      SetEventOnCompletion, waitOn, D3D_CHECK_RESULT, hp, hd, forLoop, GP_GRAPHICS_BACK_BUFFERS,
      SAFE_RELEASE, h0, h1, ResizeBuffers, reindexing, GetCurrentBackBufferIndex,
      createRenderTargets, GetDescriptorHandleIncrementSize, GetCPUDescriptorHandleForHeapStart,
      create]

/-- One call that returns keeps `_prepared = _initialized`, and `_initialized`
is afterwards true when it was or when the call is an `initialize`. -/
theorem Op.run_flags (e : Env) (op : Op) (s0 s1 : GraphicsDirect3D) (w0 w1 : World)
    (hinv : s0._prepared = s0._initialized)
    (h : op.run e s0 w0 = .returned () s1 w1) :
    s1._prepared = s1._initialized ∧ s1._initialized = (s0._initialized || op.isInitialize) := by
  cases op with
  | init window connection =>
    cases hi : s0._initialized
    · have hc := startup_checked e window connection s0 w0 hi
      unfold post at hc
      simp only [Op.run] at h
      rw [h] at hc
      simp [hc.1, hc.2.1, Op.isInitialize]
    · have hg := initialize_guard e window connection s0 w0 hi
      simp only [Op.run] at h
      rw [hg] at h
      cases h
      simp [hinv, hi, Op.isInitialize]
  | resize width height =>
    have hc := resize_flags e width height s0 w0
    unfold post at hc
    simp only [Op.run] at h
    rw [h] at hc
    simp [hc.1, hc.2, hinv, Op.isInitialize]
  | render elapsedTime =>
    have hc := render_steady e elapsedTime s0 w0
    unfold post at hc
    simp only [Op.run] at h
    rw [h] at hc
    simp [hc.1, hc.2.1, hinv, Op.isInitialize]

theorem runOps_flags (e : Env) : ∀ (ops : List Op) (s0 s : GraphicsDirect3D) (w0 w : World),
    s0._prepared = s0._initialized → runOps e ops s0 w0 = .returned () s w →
    s._prepared = s._initialized ∧
      s._initialized = (s0._initialized || ops.any Op.isInitialize) := by
  intro ops
  induction ops with
  | nil =>
    intro s0 s w0 w hinv h
    simp only [runOps, pure_run] at h
    cases h
    simp [hinv]
  | cons op rest ih =>
    intro s0 s w0 w hinv h
    simp only [runOps] at h
    rw [bind_run] at h
    cases hop : op.run e s0 w0 with
    | aborted s1 w1 => rw [hop] at h; cases h
    | blocked s1 w1 => rw [hop] at h; cases h
    | returned a s1 w1 =>
      rw [hop] at h
      obtain ⟨k1, k2⟩ := Op.run_flags e op s0 s1 w0 w1 hinv hop
      obtain ⟨j1, j2⟩ := ih s1 s w1 w k1 h
      refine ⟨j1, ?_⟩
      rw [j2, k2]
      simp [Bool.or_assoc]

/-- C23: the resizing window is not observable between calls.  Take the
freshly constructed device and any sequence of `initialize`, `resize` and
`render` calls that all return, on any backend.  After the last of them
`isPrepared() = isInitialized()`, and both are true exactly when an
`initialize` is among the calls (both false before the first `initialize`,
both true ever after).  Moreover, once they are true, every external call that
a further `render` or `initialize` issues is issued with `_prepared = true`:
`_prepared` is false only inside `resize`. -/
theorem resizing_not_observable (e : Env) (u : Indeterminate) (w0 : World) (ops : List Op)
    (s : GraphicsDirect3D) (w : World)
    (h : runOps e ops (GraphicsDirect3D.new u) w0 = .returned () s w) :
    isPrepared s = isInitialized s ∧
    isInitialized s = ops.any Op.isInitialize ∧
    (isInitialized s = true → ∀ op : Op, op.isResize = false →
      ∀ t ev, (op.run e s w).world.trace[t]? = some ev → w.trace.length ≤ t →
        ev.prepared = true) := by
  obtain ⟨h1, h2⟩ := runOps_flags e ops (GraphicsDirect3D.new u) s w0 w rfl h
  refine ⟨h1, by simpa [GraphicsDirect3D.new] using h2, ?_⟩
  intro hi op hop
  have hp : s._prepared = true := h1.trans hi
  cases op with
  | init window connection =>
    simp only [Op.run]
    rw [initialize_guard e window connection s w hi]
    exact World.steady_self true w
  | resize width height => cases hop
  | render elapsedTime =>
    simp only [Op.run]
    have hc := render_steady e elapsedTime s w
    rw [hp] at hc
    exact post_world_all (P := fun w1 => World.steady true w.trace.length w1)
      (post_mono hc (fun _ _ _ h => h.2.2) (fun _ _ h => h) (fun _ _ h => h))

/-- Witness for C23: `initialize` on `healthy`. -/
theorem resizing_not_observable_witness :
    isPrepared readyDevice = isInitialized readyDevice ∧
    isInitialized readyDevice = [Op.init 7 0].any Op.isInitialize :=
  have h := resizing_not_observable healthy zeroed World.start [.init 7 0] readyDevice
    readyWorld (by
      simp only [runOps, Op.run]
      rw [bind_run, startup_healthy]
      rfl)
  ⟨h.1, h.2.1⟩

/-! ## The commands of a frame -/

theorem recorded_append (l1 l2 : List Event) :
    recorded (l1 ++ l2) = recorded l1 ++ recorded l2 := by
  simp [recorded, calls]

theorem recorded_nil : recorded [] = [] := rfl

theorem recorded_cons (c : Call) (p : Bool) (l : List Event) :
    recorded (⟨c, p⟩ :: l)
      = if isRecording c = true then c :: recorded l else recorded l := by
  simp [recorded, calls, List.filter_cons]

set_option maxHeartbeats 4000000 in
/-- C24: the commands `buildCommands` records.  When the reset of the allocator
and the reset of the command list succeed, then however the call goes on, the
commands it has recorded into the command list are, in this order and with
nothing else: the transition barrier `PRESENT -> RENDER_TARGET` on the render
target `r` of the stored back-buffer index, `OMSetRenderTargets` with the
render-target view handle `h`, `ClearRenderTargetView` of the same `h` with the
colour `(0, 0, 0, 1)`, the transition barrier `RENDER_TARGET -> PRESENT` on the
same `r`, and `Close`. -/
theorem buildCommands_records (e : Env) (s : GraphicsDirect3D) (w : World)
    (hA : e.fails w.trace.length
      (.ResetAllocator (s._commandAllocators s._backBufferIndex)) = false)
    (hL : e.fails (w.trace.length + 1)
      (.ResetCommandList (s._commandAllocators s._backBufferIndex)) = false) :
    recorded (buildCommands e s w).world.trace = recorded w.trace ++
      [.ResourceBarrier (s._renderTargets s._backBufferIndex) .PRESENT .RENDER_TARGET,
       .OMSetRenderTargets (s.retargeted e w.swapIndex)._renderTargetViewHandle,
       .ClearRenderTargetView (s.retargeted e w.swapIndex)._renderTargetViewHandle 0 0 0 1,
       .ResourceBarrier (s._renderTargets s._backBufferIndex) .RENDER_TARGET .PRESENT,
       .Close] := by
  apply post_world_all (P := fun w1 => recorded w1.trace = recorded w.trace ++
      [Call.ResourceBarrier (s._renderTargets s._backBufferIndex) .PRESENT .RENDER_TARGET,
       Call.OMSetRenderTargets (s.retargeted e w.swapIndex)._renderTargetViewHandle,
       Call.ClearRenderTargetView (s.retargeted e w.swapIndex)._renderTargetViewHandle 0 0 0 1,
       Call.ResourceBarrier (s._renderTargets s._backBufferIndex) .RENDER_TARGET .PRESENT,
       Call.Close])
  by_cases hz : w.swapIndex = 0 <;>
  simp [buildCommands, waitForGpu, post_bind, post_pure, post_self, post_assign, post_affect,
    post_issue, post_ite, post_abort, post_world, post_blockUntil, fallible, Signal,
    SetEventOnCompletion, waitOn, GetCurrentBackBufferIndex, GetDescriptorHandleIncrementSize,
    GetCPUDescriptorHandleForHeapStart, D3D_CHECK_RESULT, hz, hA, hL, recorded_append,
    recorded_cons, recorded_nil, isRecording, GraphicsDirect3D.retargeted]

/-- Witness for C24: the first frame of the started device on `healthy`. -/
theorem buildCommands_records_witness :
    recorded (buildCommands healthy readyDevice readyWorld).world.trace
      = recorded readyWorld.trace ++
      [.ResourceBarrier (readyDevice._renderTargets readyDevice._backBufferIndex)
          .PRESENT .RENDER_TARGET,
       .OMSetRenderTargets (readyDevice.retargeted healthy readyWorld.swapIndex)._renderTargetViewHandle,
       .ClearRenderTargetView
          (readyDevice.retargeted healthy readyWorld.swapIndex)._renderTargetViewHandle 0 0 0 1,
       .ResourceBarrier (readyDevice._renderTargets readyDevice._backBufferIndex)
          .RENDER_TARGET .PRESENT,
       .Close] :=
  buildCommands_records healthy readyDevice readyWorld rfl rfl

/-! ## The render target of a frame -/

set_option maxHeartbeats 4000000 in
/-- C25, the code at the failing input.  On `presentFailsOnce` the startup goes
through as on `healthy`; the first frame renders buffer 0 and presents; the
second frame renders buffer 1 with the handle `4128 = heapStart + 1 * size`
and its `Present`, the call at position 64, fails, so that the swapchain stays
at buffer 1.  The third frame is again a frame of buffer 1, and the handle
`buildCommands` passes to `OMSetRenderTargets` and `ClearRenderTargetView` is
`4160 = heapStart + 2 * size`: the previous handle moved on by one more
descriptor, not the descriptor of buffer 1. -/
theorem render_target_handle_drifts :
    initializeDevice presentFailsOnce 7 0 (GraphicsDirect3D.new zeroed) World.start
      = .returned () readyDevice readyWorld ∧
    presentFailsOnce.fails 64 (.Present 1) = true ∧
    calls (((renderAll presentFailsOnce [0, 0] readyDevice readyWorld).world.trace.drop 51).take 14)
      = [.ResetAllocator (some 21), .ResetCommandList (some 21),
         .ResourceBarrier (some 28) .PRESENT .RENDER_TARGET,
         .GetDescriptorHandleIncrementSize, .GetCurrentBackBufferIndex,
         .OMSetRenderTargets 4128, .ClearRenderTargetView 4128 0 0 0 1,
         .ResourceBarrier (some 28) .RENDER_TARGET .PRESENT, .Close,
         .Signal 2, .SetEventOnCompletion 2, .WaitForSingleObjectEx,
         .ExecuteCommandLists 1, .Present 1] ∧
    (renderAll presentFailsOnce [0, 0] readyDevice readyWorld).isReturned = true ∧
    (renderAll presentFailsOnce [0, 0] readyDevice readyWorld).state._backBufferIndex = 1 ∧
    (renderAll presentFailsOnce [0, 0] readyDevice readyWorld).world.swapIndex = 1 ∧
    (renderAll presentFailsOnce [0, 0] readyDevice readyWorld).world.trace.length = 65 ∧
    calls (((renderAll presentFailsOnce [0, 0, 0] readyDevice readyWorld).world.trace.drop 65).take 9)
      = [.ResetAllocator (some 21), .ResetCommandList (some 21),
         .ResourceBarrier (some 28) .PRESENT .RENDER_TARGET,
         .GetDescriptorHandleIncrementSize, .GetCurrentBackBufferIndex,
         .OMSetRenderTargets 4160, .ClearRenderTargetView 4160 0 0 0 1,
         .ResourceBarrier (some 28) .RENDER_TARGET .PRESENT, .Close] ∧
    presentFailsOnce.heapStart + 1 * presentFailsOnce.descriptorSize = 4128 ∧
    Call.CreateRenderTargetView (readyDevice._renderTargets 1) 4128 ∈ calls readyWorld.trace := by
  refine ⟨?_, rfl, ?_, ?_, ?_, ?_, ?_, ?_, rfl, ?_⟩
  · simp [initializeDevice, readConfigAndValidation, createFactoryDeviceQueue, pickDisplayMode,
      createSwapchain, createFrameResources, createFenceAndEvent, matchDisplayMode, onlyIf,
      bind_run, pure_run, self, assign, affect, issue_run, healthy, presentFailsOnce,
      GraphicsDirect3D.new, zeroed, World.start, defaultConfig, fallible, create, Env.hresult,
      FAILED, SUCCEEDED, GP_ERROR, D3D_CHECK_RESULT, getHardwareAdapter, getHardwareAdapterLoop,
      findDisplayMode, SAFE_RELEASE, CreateSwapChainForHwnd, GetCurrentBackBufferIndex, world,
      forLoop, GP_GRAPHICS_BACK_BUFFERS, createRenderTargets, GetDescriptorHandleIncrementSize,
      GetCPUDescriptorHandleForHeapStart, CreateFence, World.after, World.advance, World.log,
      World.select, World.newFence,
      retireOps_zero, readyDevice, readyWorld, startupCalls, DXGI_CREATE_FACTORY_DEBUG]
  all_goals
    simp [renderAll, render, buildCommands, waitForGpu, bind_run, pure_run, self, assign, affect,
      world, issue_run, fallible, Signal, SetEventOnCompletion, waitOn, blockUntil,
      ExecuteCommandLists, Present, reindexing, GetCurrentBackBufferIndex, GetCompletedValue,
      GetDescriptorHandleIncrementSize, GetCPUDescriptorHandleForHeapStart, D3D_CHECK_RESULT,
      Env.hresult, FAILED, healthy, presentFailsOnce, readyDevice, readyWorld, startupCalls,
      World.after, World.advance, World.log, World.submit, World.select, retireOps_zero, runUntil,
      GP_GRAPHICS_BACK_BUFFERS, calls, Outcome.world, Outcome.state, Outcome.isReturned, store,
      uint64_t]

/-! ## A failed reset of the command list -/

set_option maxHeartbeats 4000000 in
/-- C27, the code at the failing input.  On `unresettable` the startup goes
through as on `healthy`, and in the first `render` the reset of the command
list fails: `buildCommands` returns at once, after its two resets, and
`render` goes on as in any frame: it submits the command list with
`ExecuteCommandLists`, calls `Present`, signals the fence and advances the
back-buffer index. -/
theorem render_submits_after_failed_reset :
    initializeDevice unresettable 7 0 (GraphicsDirect3D.new zeroed) World.start
      = .returned () readyDevice readyWorld ∧
    unresettable.fails 34 (.ResetCommandList (some 20)) = true ∧
    calls ((buildCommands unresettable readyDevice readyWorld).world.trace.drop
        readyWorld.trace.length)
      = [.ResetAllocator (some 20), .ResetCommandList (some 20)] ∧
    (render unresettable 0 readyDevice readyWorld).isReturned = true ∧
    calls ((render unresettable 0 readyDevice readyWorld).world.trace.drop
        readyWorld.trace.length)
      = [.ResetAllocator (some 20), .ResetCommandList (some 20),
         .ExecuteCommandLists 1, .Present 1, .Signal 0, .GetCurrentBackBufferIndex,
         .GetCompletedValue] ∧
    (render unresettable 0 readyDevice readyWorld).state._backBufferIndex = 1 := by
  refine ⟨?_, rfl, ?_, ?_, ?_, ?_⟩
  · simp [initializeDevice, readConfigAndValidation, createFactoryDeviceQueue, pickDisplayMode,
      createSwapchain, createFrameResources, createFenceAndEvent, matchDisplayMode, onlyIf,
      bind_run, pure_run, self, assign, affect, issue_run, healthy, unresettable,
      GraphicsDirect3D.new, zeroed, World.start, defaultConfig, fallible, create, Env.hresult,
      FAILED, SUCCEEDED, GP_ERROR, D3D_CHECK_RESULT, getHardwareAdapter, getHardwareAdapterLoop,
      findDisplayMode, SAFE_RELEASE, CreateSwapChainForHwnd, GetCurrentBackBufferIndex, world,
      forLoop, GP_GRAPHICS_BACK_BUFFERS, createRenderTargets, GetDescriptorHandleIncrementSize,
      GetCPUDescriptorHandleForHeapStart, CreateFence, World.after, World.advance, World.log,
      World.select, World.newFence,
      retireOps_zero, readyDevice, readyWorld, startupCalls, DXGI_CREATE_FACTORY_DEBUG]
  all_goals
    simp [render, buildCommands, waitForGpu, bind_run, pure_run, self, assign, affect,
      world, issue_run, fallible, Signal, SetEventOnCompletion, waitOn, blockUntil,
      ExecuteCommandLists, Present, reindexing, GetCurrentBackBufferIndex, GetCompletedValue,
      GetDescriptorHandleIncrementSize, GetCPUDescriptorHandleForHeapStart, D3D_CHECK_RESULT,
      Env.hresult, FAILED, healthy, unresettable, readyDevice, readyWorld, startupCalls,
      World.after, World.advance, World.log, World.submit, World.select, retireOps_zero, runUntil,
      GP_GRAPHICS_BACK_BUFFERS, calls, Outcome.world, Outcome.state, Outcome.isReturned, store,
      uint64_t]

/-! ## The display mode `initialize` selects -/

/-- When some mode has the size searched for, the search loop finds the first
such mode. -/
theorem findDisplayMode_first (width height : Int) :
    ∀ (l : List DisplayMode) (k : Nat),
      (∃ m ∈ l, m.Width = width ∧ m.Height = height) →
      ∃ i, findDisplayMode width height l k = some (k + i) ∧ i < l.length ∧
        (l.getD i ⟨0, 0⟩).Width = width ∧ (l.getD i ⟨0, 0⟩).Height = height ∧
        ∀ j, j < i → ¬ ((l.getD j ⟨0, 0⟩).Width = width ∧ (l.getD j ⟨0, 0⟩).Height = height) := by
  intro l
  induction l with
  | nil => intro k h; simp at h
  | cons m rest ih =>
    intro k h
    by_cases hm : m.Height = height ∧ m.Width = width
    · refine ⟨0, ?_, by simp, by simp [hm.2], by simp [hm.1], ?_⟩
      · simp [findDisplayMode, hm]
      · intro j hj
        omega
    · have hrest : ∃ m1 ∈ rest, m1.Width = width ∧ m1.Height = height := by
        obtain ⟨m1, hm1, hw, hh⟩ := h
        rcases List.mem_cons.mp hm1 with rfl | hin
        · exact absurd ⟨hh, hw⟩ hm
        · exact ⟨m1, hin, hw, hh⟩
      obtain ⟨i, h1, h2, h3, h4, h5⟩ := ih (k + 1) hrest
      refine ⟨i + 1, ?_, by simp; omega, by simpa using h3, by simpa using h4, ?_⟩
      · unfold findDisplayMode
        rw [if_neg hm, h1]
        congr 1
        omega
      · intro j hj
        cases j with
        | zero =>
          simp
          intro hw hh
          exact hm ⟨hh, hw⟩
        | succ j1 =>
          have := h5 j1 (by omega)
          simpa using this

/-- C26: the display mode `initialize` selects.  Take a non-empty list of
enumerated display modes (with an empty one `initialize` is fatal) and a
backend on which no call fails.  `initialize` on the freshly constructed device
returns, and the one swapchain it creates is created with exactly the
configured width and height.  When some mode has the configured width and
height, `_displayMode` is the lowest index of such a mode; when no mode has,
`_displayMode` stays 0. -/
theorem display_mode_match (e : Env) (window connection : Nat) (u : Indeterminate) (w : World)
    (hm : e.displayModes ≠ []) (hf : ∀ t c, e.fails t c = false) :
    ∃ s1 w1, initializeDevice e window connection (GraphicsDirect3D.new u) w
        = .returned () s1 w1 ∧
      swapchainsCreated w1.trace = swapchainsCreated w.trace ++
        [.CreateSwapChainForHwnd window GP_GRAPHICS_BACK_BUFFERS e.config.width e.config.height
          (1 + e.config.multisampling)] ∧
      ((∃ m ∈ e.displayModes, m.Width = e.config.width ∧ m.Height = e.config.height) →
        s1._displayMode < e.displayModes.length ∧
        (e.displayModes.getD s1._displayMode ⟨0, 0⟩).Width = e.config.width ∧
        (e.displayModes.getD s1._displayMode ⟨0, 0⟩).Height = e.config.height ∧
        ∀ j, j < s1._displayMode →
          ¬ ((e.displayModes.getD j ⟨0, 0⟩).Width = e.config.width ∧
             (e.displayModes.getD j ⟨0, 0⟩).Height = e.config.height)) ∧
      ((∀ m ∈ e.displayModes, ¬ (m.Width = e.config.width ∧ m.Height = e.config.height)) →
        s1._displayMode = 0) := by
  obtain ⟨s1, w1, h, _, _, _, _, h5, h6⟩ := startup_sized e window connection u w hm hf
  refine ⟨s1, w1, h, h6, ?_, ?_⟩
  · intro hex
    obtain ⟨i, k1, k2, k3, k4, k5⟩ :=
      findDisplayMode_first e.config.width e.config.height e.displayModes 0 hex
    rw [k1] at h5
    simp at h5
    rw [h5]
    exact ⟨k2, k3, k4, k5⟩
  · intro hno
    rw [findDisplayMode_none _ _ _ _ hno] at h5
    exact h5

/-- Witness for C26: the startup on `healthy`, where the second of the two
modes has the configured size. -/
theorem display_mode_match_witness :
    healthy.displayModes ≠ [] ∧
    ∃ s1 w1, initializeDevice healthy 7 0 (GraphicsDirect3D.new zeroed) World.start
        = .returned () s1 w1 ∧
      swapchainsCreated w1.trace = swapchainsCreated World.start.trace ++
        [.CreateSwapChainForHwnd 7 GP_GRAPHICS_BACK_BUFFERS healthy.config.width
          healthy.config.height (1 + healthy.config.multisampling)] ∧
      ((∃ m ∈ healthy.displayModes,
          m.Width = healthy.config.width ∧ m.Height = healthy.config.height) →
        s1._displayMode < healthy.displayModes.length ∧
        (healthy.displayModes.getD s1._displayMode ⟨0, 0⟩).Width = healthy.config.width ∧
        (healthy.displayModes.getD s1._displayMode ⟨0, 0⟩).Height = healthy.config.height ∧
        ∀ j, j < s1._displayMode →
          ¬ ((healthy.displayModes.getD j ⟨0, 0⟩).Width = healthy.config.width ∧
             (healthy.displayModes.getD j ⟨0, 0⟩).Height = healthy.config.height)) ∧
      ((∀ m ∈ healthy.displayModes,
          ¬ (m.Width = healthy.config.width ∧ m.Height = healthy.config.height)) →
        s1._displayMode = 0) :=
  ⟨by simp [healthy],
    display_mode_match healthy 7 0 zeroed World.start (by simp [healthy]) (fun _ _ => rfl)⟩

/-! ## The fence values after a resize -/

set_option maxHeartbeats 4000000 in
/-- A `resize` to a different size on a prepared device, with no backend call
failing: it returns, the one value it signals is the fence value `v` of the
stored back-buffer index, every slot of the fence ring holds `v + 1` (in
`uint64_t`) afterwards, and the stored back-buffer index is the swapchain's. -/
theorem resize_frame (e : Env) (width height : Int) (s : GraphicsDirect3D) (w : World)
    (hf : ∀ t c, e.fails t c = false)
    (hp : s._prepared = true) (hd : ¬ (width = s._width ∧ height = s._height)) :
    (resize e width height s w).isReturned = true ∧
    (resize e width height s w).state._fenceValues
      = store (store (store s._fenceValues s._backBufferIndex
          (uint64_t (s._fenceValues s._backBufferIndex + 1))) 0
          (uint64_t (s._fenceValues s._backBufferIndex + 1)))
          1 (uint64_t (s._fenceValues s._backBufferIndex + 1)) ∧
    (resize e width height s w).state._backBufferIndex
      = (resize e width height s w).world.swapIndex ∧
    (resize e width height s w).world.swapIndex < GP_GRAPHICS_BACK_BUFFERS ∧
    (resize e width height s w).state._prepared = true ∧
    (resize e width height s w).state._initialized = s._initialized ∧
    signals (resize e width height s w).world.trace
      = signals w.trace ++ [s._fenceValues s._backBufferIndex] := by
  have hw := waitForGpu_run e s w (hf _ _) (hf _ _)
  have hlt : ∀ x : Nat, x % 2 < 2 := fun x => Nat.mod_lt x (by decide)
  cases h0 : s._renderTargets 0 <;> cases h1 : s._renderTargets 1 <;>
  simp [resize, bind_run, pure_run, self, assign, affect, hp, hd, hw,
    GP_GRAPHICS_BACK_BUFFERS, forLoop, SAFE_RELEASE, h0, h1, issue_run, ResizeBuffers, reindexing,
    D3D_CHECK_RESULT, FAILED, GetCurrentBackBufferIndex, createRenderTargets, world,
    GetDescriptorHandleIncrementSize, GetCPUDescriptorHandleForHeapStart, create, Env.hresult,
    GraphicsDirect3D.bumped, World.drained, signals, signalValues, calls, hf, hlt,
    Outcome.isReturned, Outcome.state, Outcome.world]

/-- C29, counterexample: the started device with every fence value at
`UINT64_MAX`, resized to 800 x 600 on `healthy`.  The resize returns, and the
increment of line 296 has wrapped: every slot of the ring holds 0, not
`UINT64_MAX + 1`. -/
theorem resize_wraps :
    maxedDevice._prepared = true ∧
    ¬ ((800 : Int) = maxedDevice._width ∧ (600 : Int) = maxedDevice._height) ∧
    maxedDevice._fenceValues maxedDevice._backBufferIndex = UINT64_MAX ∧
    (resize healthy 800 600 maxedDevice readyWorld).isReturned = true ∧
    (∀ i, i < GP_GRAPHICS_BACK_BUFFERS →
      (resize healthy 800 600 maxedDevice readyWorld).state._fenceValues i = 0) ∧
    (0 : Nat) ≠ UINT64_MAX + 1 := by
  obtain ⟨h1, h2, _⟩ := resize_frame healthy 800 600 maxedDevice readyWorld (fun _ _ => rfl) rfl
    (by decide)
  refine ⟨rfl, by decide, rfl, h1, ?_, by decide⟩
  intro i hi
  rw [h2]
  unfold GP_GRAPHICS_BACK_BUFFERS at hi
  interval_cases i <;>
    simp [store, maxedDevice, maxed, readyDevice, uint64_t, UINT64_MAX]

/-- C29, amended: `resize` equalises the fence ring.  Take a prepared device
with stored back-buffer index `c` and `v = _fenceValues[c]` at entry, a
requested size different from the stored one, and a backend on which no call
fails.  `resize` returns with `_fenceValues[i]` equal to `v + 1` computed in
`uint64_t` for every slot `i = 0 .. K-1`: that is `v + 1` when
`v < UINT64_MAX` and 0 when `v = UINT64_MAX`.  The back-buffer index it ends
with is the swapchain's index after `ResizeBuffers`, whichever of the `K` slots
that is, so the slot that is current after the resize holds that value too. -/
theorem resize_equalises_fences (e : Env) (width height : Int) (s : GraphicsDirect3D) (w : World)
    (hp : s._prepared = true) (hd : ¬ (width = s._width ∧ height = s._height))
    (hf : ∀ t c, e.fails t c = false) :
    (resize e width height s w).isReturned = true ∧
    (∀ i, i < GP_GRAPHICS_BACK_BUFFERS →
      (resize e width height s w).state._fenceValues i
        = uint64_t (s._fenceValues s._backBufferIndex + 1)) ∧
    (s._fenceValues s._backBufferIndex < UINT64_MAX →
      ∀ i, i < GP_GRAPHICS_BACK_BUFFERS →
        (resize e width height s w).state._fenceValues i
          = s._fenceValues s._backBufferIndex + 1) ∧
    (s._fenceValues s._backBufferIndex = UINT64_MAX →
      ∀ i, i < GP_GRAPHICS_BACK_BUFFERS →
        (resize e width height s w).state._fenceValues i = 0) ∧
    (resize e width height s w).state._backBufferIndex
      = (resize e width height s w).world.swapIndex ∧
    (resize e width height s w).state._backBufferIndex < GP_GRAPHICS_BACK_BUFFERS ∧
    (resize e width height s w).state._fenceValues
        (resize e width height s w).state._backBufferIndex
      = uint64_t (s._fenceValues s._backBufferIndex + 1) ∧
    signals (resize e width height s w).world.trace
      = signals w.trace ++ [s._fenceValues s._backBufferIndex] := by
  obtain ⟨h1, h2, h3, h4, _, _, h7⟩ := resize_frame e width height s w hf hp hd
  have hall : ∀ i, i < GP_GRAPHICS_BACK_BUFFERS →
      (resize e width height s w).state._fenceValues i
        = uint64_t (s._fenceValues s._backBufferIndex + 1) := by
    intro i hi
    rw [h2]
    unfold GP_GRAPHICS_BACK_BUFFERS at hi
    interval_cases i <;> simp [store]
  refine ⟨h1, hall, ?_, ?_, h3, h3 ▸ h4, hall _ (h3 ▸ h4), h7⟩
  · intro hlt i hi
    have k1 : s._fenceValues s._backBufferIndex + 1 < 2 ^ 64 := by
      unfold UINT64_MAX at hlt
      omega
    rw [hall i hi, uint64_t_of_lt k1]
  · intro heq i hi
    rw [hall i hi, heq]
    simp [uint64_t, UINT64_MAX]

/-- Witness for C29: resizing the started device to 800 x 600 on `healthy`. -/
theorem resize_equalises_fences_witness :
    readyDevice._prepared = true ∧
    ¬ ((800 : Int) = readyDevice._width ∧ (600 : Int) = readyDevice._height) ∧
    (resize healthy 800 600 readyDevice readyWorld).isReturned = true ∧
    (∀ i, i < GP_GRAPHICS_BACK_BUFFERS →
      (resize healthy 800 600 readyDevice readyWorld).state._fenceValues i
        = uint64_t (readyDevice._fenceValues readyDevice._backBufferIndex + 1)) :=
  have h := resize_equalises_fences healthy 800 600 readyDevice readyWorld rfl (by decide)
    (fun _ _ => rfl)
  ⟨rfl, by decide, h.1, h.2.1⟩

/-! ## The fence signals of a session -/

theorem signals_cons (c : Call) (p : Bool) (l : List Event) :
    signals (⟨c, p⟩ :: l) = signalValues [c] ++ signals l := by
  simp [signals, signalValues, calls, List.filterMap_cons]
  cases c <;> simp

theorem signals_scanned (e : Env) (p : Bool) :
    ∀ (l : List Adapter) (i : Nat) (w : World),
      signals (World.scanned e p l i w).trace = signals w.trace := by
  intro l
  induction l with
  | nil => intro i w; simp [World.scanned, signals_append, signals_cons, signals_nil, signalValues]
  | cons a rest ih =>
    intro i w
    by_cases h1 : a.software = true <;> by_cases h2 : a.probeSucceeds = true <;>
      simp [World.scanned, h1, h2, ih, signals_append, signals_cons, signals_nil, signalValues]

theorem readConfigAndValidation_quiet (e : Env) (window : Nat) (s : GraphicsDirect3D) (w : World) :
    post (readConfigAndValidation e window) s w
      (fun _ s1 w1 => s1._fenceValues = s._fenceValues ∧ signals w1.trace = signals w.trace)
      (fun _ w1 => signals w1.trace = signals w.trace) (fun _ _ => True) := by
  cases hd : e.debugBuild <;> cases hv : e.config.validation <;>
  simp [readConfigAndValidation, post_bind, post_pure, post_self, post_assign,
    post_issue, post_ite, post_onlyIf, fallible, hd, hv, signals_append, signals_cons,
    signals_nil, signalValues]

theorem createFactoryDeviceQueue_quiet (e : Env) (flags : Nat) (s : GraphicsDirect3D) (w : World) :
    post (createFactoryDeviceQueue e flags) s w
      (fun _ s1 w1 => s1._fenceValues = s._fenceValues ∧ signals w1.trace = signals w.trace)
      (fun _ w1 => signals w1.trace = signals w.trace) (fun _ _ => True) := by
  simp [createFactoryDeviceQueue, post_bind, post_pure, post_self, post_assign,
    post_issue, post_ite, post_onlyIf, post_loop, post_abort, create, getHardwareAdapter,
    GP_ERROR, D3D_CHECK_RESULT, signals_append, signals_cons, signals_nil, signals_scanned,
    signalValues]

set_option maxHeartbeats 4000000 in
theorem pickDisplayMode_quiet (e : Env) (s : GraphicsDirect3D) (w : World) :
    post (pickDisplayMode e) s w
      (fun _ s1 w1 => s1._fenceValues = s._fenceValues ∧ signals w1.trace = signals w.trace)
      (fun _ w1 => signals w1.trace = signals w.trace) (fun _ _ => True) := by
  cases hfind : findDisplayMode s._width s._height e.displayModes 0 <;>
  simp [pickDisplayMode, post_bind, post_pure, post_self, post_assign,
    post_issue, post_ite, post_onlyIf, post_abort, create, fallible, hfind, matchDisplayMode,
    GP_ERROR, D3D_CHECK_RESULT, SAFE_RELEASE, signals_append, signals_cons, signals_nil,
    signalValues] <;>
  intros <;>
  split_ifs <;> simp [post_bind, post_pure, post_assign, post_issue, signals_append,
    signals_cons, signals_nil, signalValues]

theorem createSwapchain_quiet (e : Env) (factory : Option Nat) (s : GraphicsDirect3D) (w : World) :
    post (createSwapchain e factory) s w
      (fun _ s1 w1 => s1._fenceValues = s._fenceValues ∧ signals w1.trace = signals w.trace)
      (fun _ w1 => signals w1.trace = signals w.trace) (fun _ _ => True) := by
  cases factory <;>
  simp [createSwapchain, post_bind, post_pure, post_self, post_assign, post_affect,
    post_issue, post_ite, post_onlyIf, post_abort, create, D3D_CHECK_RESULT,
    CreateSwapChainForHwnd, SAFE_RELEASE, signals_append, signals_cons, signals_nil,
    signalValues]

set_option maxHeartbeats 4000000 in
theorem createFrameResources_quiet (e : Env) (s : GraphicsDirect3D) (w : World) :
    post (createFrameResources e) s w
      (fun _ s1 w1 => s1._fenceValues = s._fenceValues ∧ signals w1.trace = signals w.trace)
      (fun _ w1 => signals w1.trace = signals w.trace) (fun _ _ => True) := by
  simp [createFrameResources, post_bind, post_pure, post_self, post_assign,
    post_world, post_issue, post_ite, post_abort, create, fallible, D3D_CHECK_RESULT,
    GetCurrentBackBufferIndex, forLoop, GP_GRAPHICS_BACK_BUFFERS, createRenderTargets,
    GetDescriptorHandleIncrementSize, GetCPUDescriptorHandleForHeapStart,
    signals_append, signals_cons, signals_nil, signalValues]

theorem createFenceAndEvent_quiet (e : Env) (s : GraphicsDirect3D) (w : World) :
    post (createFenceAndEvent e) s w
      (fun _ s1 w1 => s1._fenceValues = s._fenceValues ∧ signals w1.trace = signals w.trace)
      (fun _ w1 => signals w1.trace = signals w.trace) (fun _ _ => True) := by
  simp [createFenceAndEvent, post_bind, post_pure, post_self, post_assign,
    post_affect, post_issue, post_ite, post_abort, create, D3D_CHECK_RESULT, CreateFence,
    signals_append, signals_cons, signals_nil, signalValues]

/-- However a startup ends, it has issued no `Signal`, and when it returns the
fence values are the ones it found. -/
theorem startup_quiet (e : Env) (window connection : Nat) (s : GraphicsDirect3D) (w : World)
    (hi : s._initialized = false) :
    post (initializeDevice e window connection) s w
      (fun _ s1 w1 => s1._fenceValues = s._fenceValues ∧ signals w1.trace = signals w.trace)
      (fun _ w1 => signals w1.trace = signals w.trace) (fun _ _ => True) := by
  unfold initializeDevice
  simp only [post_bind, post_pure, post_self, post_assign, post_ite, hi, Bool.false_eq_true,
    if_false]
  refine post_mono (readConfigAndValidation_quiet e window s w) ?_ (fun _ _ h => h)
    (fun _ _ h => h)
  intro flags s1 w1 ⟨a1, a2⟩
  refine post_mono (createFactoryDeviceQueue_quiet e flags s1 w1) ?_ (fun _ _ h => h.trans a2)
    (fun _ _ h => h)
  intro factory s2 w2 ⟨b1, b2⟩
  refine post_mono (pickDisplayMode_quiet e s2 w2) ?_ (fun _ _ h => h.trans (b2.trans a2))
    (fun _ _ h => h)
  intro _ s3 w3 ⟨c1, c2⟩
  refine post_mono (createSwapchain_quiet e factory s3 w3) ?_
    (fun _ _ h => h.trans (c2.trans (b2.trans a2))) (fun _ _ h => h)
  intro _ s4 w4 ⟨d1, d2⟩
  refine post_mono (createFrameResources_quiet e s4 w4) ?_
    (fun _ _ h => h.trans (d2.trans (c2.trans (b2.trans a2)))) (fun _ _ h => h)
  intro _ s5 w5 ⟨e1, e2⟩
  refine post_mono (createFenceAndEvent_quiet e s5 w5) ?_
    (fun _ _ h => h.trans (e2.trans (d2.trans (c2.trans (b2.trans a2))))) (fun _ _ h => h)
  intro _ s6 w6 ⟨f1, f2⟩
  exact ⟨by show s6._fenceValues = _; rw [f1, e1, d1, c1, b1, a1],
    by show signals w6.trace = _; rw [f2, e2, d2, c2, b2, a2]⟩

theorem consecutive_range' (v k : Nat) : Consecutive (List.range' v k) := by
  intro i a b ha hb
  have hi : i + 1 < k := by
    have := (List.getElem?_eq_some.mp hb).1
    simpa using this
  rw [List.getElem?_range' v 1 (by omega)] at ha
  rw [List.getElem?_range' v 1 hi] at hb
  cases ha
  cases hb
  omega

theorem consecutive_nil : Consecutive [] := by
  intro i a b ha
  simp at ha

/-- What a program ends with is what its outcome holds. -/
theorem post_outcome {α : Type} (x : Prog α) (s : GraphicsDirect3D) (w : World) :
    post x s w (fun _ s1 w1 => s1 = (x s w).state ∧ w1 = (x s w).world)
      (fun _ _ => True) (fun _ _ => True) := by
  unfold post
  cases x s w <;> simp [Outcome.state, Outcome.world]

/-- The startup of `startup_healthy` when the constructor found every fence
value at `UINT64_MAX`: the startup leaves the fence values alone. -/
theorem startup_maxed :
    initializeDevice healthy 7 0 (GraphicsDirect3D.new maxed) World.start
      = .returned () maxedDevice readyWorld := by
  simp [initializeDevice, readConfigAndValidation, createFactoryDeviceQueue, pickDisplayMode,
    createSwapchain, createFrameResources, createFenceAndEvent, matchDisplayMode, onlyIf,
    bind_run, pure_run, self, assign, affect, issue_run, healthy,
    GraphicsDirect3D.new, zeroed, maxed, maxedDevice, World.start, defaultConfig, fallible,
    create, Env.hresult,
    FAILED, SUCCEEDED, GP_ERROR, D3D_CHECK_RESULT, getHardwareAdapter, getHardwareAdapterLoop,
    findDisplayMode, SAFE_RELEASE, CreateSwapChainForHwnd, GetCurrentBackBufferIndex, world,
    forLoop, GP_GRAPHICS_BACK_BUFFERS, createRenderTargets, GetDescriptorHandleIncrementSize,
    GetCPUDescriptorHandleForHeapStart, CreateFence, World.after, World.advance, World.log,
    World.select, World.newFence,
    retireOps_zero, readyDevice, readyWorld, startupCalls, DXGI_CREATE_FACTORY_DEBUG]

/-- The startup on `catchingUp` when the constructor found the members of
`nearWrap`: nothing is queued during a startup, so the GPU has nothing to
retire, and the fence values are left alone. -/
theorem startup_nearWrap :
    initializeDevice catchingUp 7 0 (GraphicsDirect3D.new nearWrap) World.start
      = .returned () nearWrapDevice readyWorld := by
  simp [initializeDevice, readConfigAndValidation, createFactoryDeviceQueue, pickDisplayMode,
    createSwapchain, createFrameResources, createFenceAndEvent, matchDisplayMode, onlyIf,
    bind_run, pure_run, self, assign, affect, issue_run, healthy, catchingUp,
    GraphicsDirect3D.new, zeroed, nearWrap, nearWrapDevice, World.start, defaultConfig, fallible,
    create, Env.hresult,
    FAILED, SUCCEEDED, GP_ERROR, D3D_CHECK_RESULT, getHardwareAdapter, getHardwareAdapterLoop,
    findDisplayMode, SAFE_RELEASE, CreateSwapChainForHwnd, GetCurrentBackBufferIndex, world,
    forLoop, GP_GRAPHICS_BACK_BUFFERS, createRenderTargets, GetDescriptorHandleIncrementSize,
    GetCPUDescriptorHandleForHeapStart, CreateFence, World.after, World.advance, World.log,
    World.select, World.newFence,
    retireOps_zero, retireOps_nil, readyDevice, readyWorld, startupCalls,
    DXGI_CREATE_FACTORY_DEBUG]

/-- One frame keeps the invariant of the fence values while its two increments
stay below `2 ^ 64`: it signals the next two values and moves the fence value
of the current slot on by two, and when it blocks it has signalled them too. -/
theorem render_fence_step (e : Env) (dt : ℚ) (s : GraphicsDirect3D) (w : World) (W : List Nat)
    (hf : ∀ t c, e.fails t c = false) (h : FenceInv s w W)
    (hnw : s._fenceValues w.swapIndex + 2 < 2 ^ 64) :
    post (render e dt) s w
      (fun _ s1 w1 => FenceInv s1 w1 (W ++ [w.swapIndex, nextSlot e s w]) ∧
        s1._fenceValues w1.swapIndex ≤ s._fenceValues w.swapIndex + 2)
      (fun _ _ => False)
      (fun _ w1 => ∃ v k, signals w1.trace = List.range' v k) := by
  obtain ⟨hp, hi, hb, ⟨k, hk, hs⟩, hW⟩ := h
  have hu1 : uint64_t (s._fenceValues w.swapIndex + 1) = s._fenceValues w.swapIndex + 1 :=
    uint64_t_of_lt (by omega)
  have hu2 : uint64_t (s._fenceValues w.swapIndex + 1 + 1) = s._fenceValues w.swapIndex + 2 :=
    uint64_t_of_lt (by omega)
  have hsv := signalValues_frame e s w
  rw [hu1] at hsv
  have hrf := render_frame e dt s w hf hp
  simp only [hu1, hu2] at hrf
  have hsig : ∀ (w1 : World) (tail : List Call), signalValues tail = [] →
      calls w1.trace = calls w.trace ++ frameCalls e s w ++ tail →
      signals w1.trace = List.range' (s._fenceValues w.swapIndex + 2 - (k + 2)) (k + 2) := by
    intro w1 tail ht hc
    unfold signals at hs ⊢
    rw [hc, signalValues_append, signalValues_append, hsv, ht, hs]
    have h1 : s._fenceValues w.swapIndex + 2 - (k + 2) = s._fenceValues w.swapIndex - k := by
      omega
    rw [h1, List.append_nil, List.range'_concat _ (k + 1), List.range'_concat _ k]
    have h2 : s._fenceValues w.swapIndex - k + 1 * k = s._fenceValues w.swapIndex := by omega
    have h3 : s._fenceValues w.swapIndex - k + 1 * (k + 1) = s._fenceValues w.swapIndex + 1 := by
      omega
    rw [h2, h3]
    simp
  refine post_mono hrf ?_ (fun _ _ h => h) ?_
  · intro _ s1 w1 ⟨h1, h2, h3, h4, h5, _, _, h8⟩
    have hv : s1._fenceValues w1.swapIndex = s._fenceValues w.swapIndex + 2 := by
      rw [h2, h3]; simp [store]
    refine ⟨⟨h4.trans hp, h5.trans hi, h1.trans h2.symm, ⟨k + 2, ?_, ?_⟩, ?_⟩, le_of_eq hv⟩
    · rw [h2, h3]; simpa [store] using hk
    · rw [hv]
      rcases h8 with h8 | h8
      · exact hsig w1 [] rfl (by simpa using h8)
      · exact hsig w1 _ (by simp [signalValues]) h8
    · intro i hi2
      rw [hv, h3]
      simp only [List.mem_append, List.mem_cons, List.mem_singleton, List.not_mem_nil,
        or_false] at hi2
      unfold store
      split_ifs with c1 c2
      · omega
      · omega
      · rcases hi2 with hi2 | hi2 | hi2
        · have := hW i hi2
          omega
        · exact absurd hi2 c2
        · exact absurd hi2 c1
  · intro _ w1 ⟨_, _, h3⟩
    exact ⟨_, _, hsig w1 _ (by simp [signalValues]) h3⟩

/-- A `resize` keeps the invariant of the fence values while its increment
stays below `2 ^ 64`: when it takes effect it signals the next value and
leaves the one after it in every slot. -/
theorem resize_fence_step (e : Env) (width height : Int) (s : GraphicsDirect3D) (w : World)
    (W : List Nat) (hf : ∀ t c, e.fails t c = false) (h : FenceInv s w W)
    (hnw : s._fenceValues w.swapIndex + 2 < 2 ^ 64) :
    post (resize e width height) s w
      (fun _ s1 w1 => FenceInv s1 w1 (W ++ (Op.resize width height).slotsWritten e s w) ∧
        s1._fenceValues w1.swapIndex ≤ s._fenceValues w.swapIndex + 2)
      (fun _ _ => False)
      (fun _ w1 => ∃ v k, signals w1.trace = List.range' v k) := by
  obtain ⟨hp, hi, hb, ⟨k, hk, hs⟩, hW⟩ := h
  by_cases hd : width = s._width ∧ height = s._height
  · unfold post
    rw [resize_guard_noop e width height s w (Or.inr hd)]
    refine ⟨⟨hp, hi, hb, ⟨k, hk, hs⟩, ?_⟩, Nat.le_add_right _ _⟩
    intro i hi2
    simp [Op.slotsWritten, hp, hd.1, hd.2] at hi2
    exact hW i hi2
  · have hu1 : uint64_t (s._fenceValues s._backBufferIndex + 1)
        = s._fenceValues s._backBufferIndex + 1 :=
      uint64_t_of_lt (by rw [hb]; omega)
    obtain ⟨r1, r2, r3, r4, r5, r6, r7⟩ := resize_frame e width height s w hf hp hd
    rw [hu1] at r2
    unfold post
    cases hr : resize e width height s w with
    | aborted s1 w1 => rw [hr] at r1; cases r1
    | blocked s1 w1 => rw [hr] at r1; cases r1
    | returned a s1 w1 =>
      rw [hr] at r2 r3 r4 r5 r6 r7
      simp only [Outcome.state, Outcome.world] at r2 r3 r4 r5 r6 r7
      have hall : ∀ i, i < 2 → s1._fenceValues i = s._fenceValues w.swapIndex + 1 := by
        intro i hi2
        rw [r2, hb]
        interval_cases i <;> simp [store]
      have hcur : s1._fenceValues w1.swapIndex = s._fenceValues w.swapIndex + 1 :=
        hall _ r4
      refine ⟨⟨r5, r6.trans hi, r3, ⟨k + 1, ?_, ?_⟩, ?_⟩, by omega⟩
      · omega
      · rw [hcur, r7, hs, hb, List.range'_concat _ k]
        have h1 : s._fenceValues w.swapIndex + 1 - (k + 1) = s._fenceValues w.swapIndex - k := by
          omega
        have h2 : s._fenceValues w.swapIndex - k + 1 * k = s._fenceValues w.swapIndex := by
          omega
        rw [h1, h2]
      · intro i hi2
        rw [hcur, r2, hb]
        unfold store
        split_ifs
        · omega
        · omega
        · omega
        · have hd2 : (width == s._width && height == s._height) = false := by
            simpa using hd
          simp [Op.slotsWritten, hp, hd2, GP_GRAPHICS_BACK_BUFFERS] at hi2
          rcases hi2 with hi2 | hi2 | hi2
          · have := hW i hi2
            omega
          · rw [hb] at hi2
            contradiction
          · omega

/-- Any call on a running device keeps the invariant of the fence values while
two increments stay below `2 ^ 64`, and moves the fence value of the current
slot on by two at most. -/
theorem Op.fence_step (e : Env) (op : Op) (s : GraphicsDirect3D) (w : World) (W : List Nat)
    (hf : ∀ t c, e.fails t c = false) (h : FenceInv s w W)
    (hnw : s._fenceValues w.swapIndex + 2 < 2 ^ 64) :
    post (op.run e) s w
      (fun _ s1 w1 => FenceInv s1 w1 (W ++ op.slotsWritten e s w) ∧
        s1._fenceValues w1.swapIndex ≤ s._fenceValues w.swapIndex + 2)
      (fun _ _ => False)
      (fun _ w1 => ∃ v k, signals w1.trace = List.range' v k) := by
  cases op with
  | init window connection =>
    simp only [Op.run]
    unfold post
    rw [initialize_guard e window connection s w h.2.1]
    exact ⟨by simpa [Op.slotsWritten] using h, Nat.le_add_right _ _⟩
  | resize width height => exact resize_fence_step e width height s w W hf h hnw
  | render dt =>
    have hr := render_fence_step e dt s w W hf h hnw
    simpa [Op.run, Op.slotsWritten, h.1] using hr

theorem runOps_fence (e : Env) (hf : ∀ t c, e.fails t c = false) :
    ∀ (ops : List Op) (s : GraphicsDirect3D) (w : World) (W : List Nat), FenceInv s w W →
      s._fenceValues w.swapIndex + 2 * ops.length < 2 ^ 64 →
      post (runOps e ops) s w
        (fun _ s1 w1 => FenceInv s1 w1 (W ++ slotsWritten e ops s w))
        (fun _ _ => False)
        (fun _ w1 => ∃ v k, signals w1.trace = List.range' v k) := by
  intro ops
  induction ops with
  | nil =>
    intro s w W h _
    simpa [runOps, post_pure, slotsWritten] using h
  | cons op rest ih =>
    intro s w W h hnw
    simp only [List.length_cons] at hnw
    simp only [runOps]
    refine post_bind_of (post_mono (post_and (Op.fence_step e op s w W hf h (by omega))
      (post_outcome (op.run e) s w)) (fun _ _ _ hx => hx) (fun _ _ hx => hx.1)
      (fun _ _ hx => hx.1)) ?_
    intro _ s1 w1 ⟨⟨h1, hle⟩, h2, h3⟩
    have hr := ih s1 w1 _ h1 (by omega)
    rw [h2, h3] at hr
    simpa [slotsWritten, List.append_assoc, ← h2, ← h3] using hr

/-- C28, counterexample: the freshly constructed device whose fence values the
allocator left at `UINT64_MAX`, on `healthy`, and the session `initialize;
render`.  Both calls return.  The frame signals `UINT64_MAX` in its drain and,
the increment of line 296 having wrapped, 0 after the present: the second
value is not one more than the first.  The increment of line 248 leaves 1 in
the slot that is current afterwards, which is not greater than the
`UINT64_MAX` signalled before. -/
theorem fence_signals_wrap :
    (∀ t c, healthy.fails t c = false) ∧
    (sessionOf healthy maxed 7 0 [.render 0]).isReturned = true ∧
    signals (sessionOf healthy maxed 7 0 [.render 0]).world.trace = [UINT64_MAX, 0] ∧
    ¬ Consecutive (signals (sessionOf healthy maxed 7 0 [.render 0]).world.trace) ∧
    (sessionOf healthy maxed 7 0 [.render 0]).state._fenceValues
      (sessionOf healthy maxed 7 0 [.render 0]).state._backBufferIndex = 1 ∧
    ¬ ∀ x ∈ signals (sessionOf healthy maxed 7 0 [.render 0]).world.trace,
      x < (sessionOf healthy maxed 7 0 [.render 0]).state._fenceValues
        (sessionOf healthy maxed 7 0 [.render 0]).state._backBufferIndex := by
  have hrun : (sessionOf healthy maxed 7 0 [.render 0]).isReturned = true ∧
      signals (sessionOf healthy maxed 7 0 [.render 0]).world.trace = [UINT64_MAX, 0] ∧
      (sessionOf healthy maxed 7 0 [.render 0]).state._fenceValues
        (sessionOf healthy maxed 7 0 [.render 0]).state._backBufferIndex = 1 := by
    unfold sessionOf
    simp only [runOps, Op.run]
    rw [bind_run, startup_maxed]
    refine ⟨?_, ?_, ?_⟩ <;>
    simp [render, buildCommands, waitForGpu, bind_run, pure_run, self, assign, affect,
      world, issue_run, fallible, Signal, SetEventOnCompletion, waitOn, blockUntil,
      ExecuteCommandLists, Present, reindexing, GetCurrentBackBufferIndex, GetCompletedValue,
      GetDescriptorHandleIncrementSize, GetCPUDescriptorHandleForHeapStart, D3D_CHECK_RESULT,
      Env.hresult, FAILED, healthy, maxedDevice, maxed, zeroed, readyDevice, readyWorld,
      startupCalls, World.after, World.advance, World.log, World.submit, World.select,
      retireOps_zero, runUntil, GP_GRAPHICS_BACK_BUFFERS, signals, signalValues, calls, store,
      uint64_t, UINT64_MAX, Outcome.isReturned, Outcome.world, Outcome.state]
  obtain ⟨hr, hs, hv⟩ := hrun
  refine ⟨fun _ _ => rfl, hr, hs, ?_, hv, ?_⟩
  · intro h
    rw [hs] at h
    have := h 0 UINT64_MAX 0 rfl rfl
    simp [UINT64_MAX] at this
  · intro h
    rw [hs, hv] at h
    have := h UINT64_MAX (by simp)
    simp [UINT64_MAX] at this

/-- C28, amended: the fence signals of a session are monotone as long as no
fence value wraps.  Take the freshly constructed device whose values in
`_fenceValues` leave room below `2 ^ 64` for two increments per call of the
session, a backend on which no call fails, and the session `initialize`
followed by any sequence of `render` and `resize` calls (further `initialize`
calls change nothing).  The swapchain changes its current index only at its
creation, at `Present` and at `ResizeBuffers`.  However far the session gets,
the values it has passed to `Signal` are consecutive: each is exactly one more
than the one before.  And when all the calls have returned, so that the next
call can start: the stored back-buffer index is the swapchain's current slot,
the fence value stored for it is greater than every value signalled so far, and
it is at least the value stored for every slot that one of the calls has
written. -/
theorem fence_signals_monotone (e : Env) (u : Indeterminate) (window connection : Nat)
    (ops : List Op) (hf : ∀ t c, e.fails t c = false)
    (hw : ∀ i, u.fenceValues i + 2 * ops.length < 2 ^ 64) :
    Consecutive (signals (sessionOf e u window connection ops).world.trace) ∧
    ((sessionOf e u window connection ops).isReturned = true →
      (sessionOf e u window connection ops).state._backBufferIndex
        = (sessionOf e u window connection ops).world.swapIndex ∧
      (∀ x ∈ signals (sessionOf e u window connection ops).world.trace,
        x < (sessionOf e u window connection ops).state._fenceValues
          (sessionOf e u window connection ops).state._backBufferIndex) ∧
      (∀ i ∈ slotsWritten e (.init window connection :: ops) (GraphicsDirect3D.new u) World.start,
        (sessionOf e u window connection ops).state._fenceValues i
          ≤ (sessionOf e u window connection ops).state._fenceValues
            (sessionOf e u window connection ops).state._backBufferIndex)) := by
  have key : post (runOps e (.init window connection :: ops)) (GraphicsDirect3D.new u) World.start
      (fun _ s1 w1 => FenceInv s1 w1
        (slotsWritten e (.init window connection :: ops) (GraphicsDirect3D.new u) World.start))
      (fun _ w1 => signals w1.trace = [])
      (fun _ w1 => ∃ v k, signals w1.trace = List.range' v k) := by
    simp only [runOps]
    refine post_bind_of (post_mono (post_and
      (post_and (startup_ok e window connection (GraphicsDirect3D.new u) World.start rfl hf)
        (startup_quiet e window connection (GraphicsDirect3D.new u) World.start rfl))
      (post_outcome (Op.run e (.init window connection)) (GraphicsDirect3D.new u) World.start))
      (fun _ _ _ hx => hx) (fun _ _ hx => hx.1.2) (fun _ _ hx => hx.1.1.elim)) ?_
    intro _ s0 w0 ⟨⟨⟨a1, a2, _, _, _, _, a7, _⟩, b1, b2⟩, c1, c2⟩
    have hinv : FenceInv s0 w0 [] :=
      ⟨a2, a1, a7, ⟨0, Nat.zero_le _, by rw [b2]; rfl⟩, fun i hi => by cases hi⟩
    have hbud : s0._fenceValues w0.swapIndex + 2 * ops.length < 2 ^ 64 := by
      rw [b1]
      exact hw _
    have hr := runOps_fence e hf ops s0 w0 [] hinv hbud
    refine post_mono hr ?_ (fun _ _ hx => hx.elim) (fun _ _ hx => hx)
    intro _ s1 w1 hx
    rw [c1, c2] at hx
    simpa [slotsWritten, Op.slotsWritten] using hx
  unfold sessionOf
  unfold post at key
  cases hr : runOps e (.init window connection :: ops) (GraphicsDirect3D.new u) World.start with
  | aborted s1 w1 =>
    rw [hr] at key
    refine ⟨?_, fun hx => by cases hx⟩
    simp only [Outcome.world]
    rw [key]
    exact consecutive_nil
  | blocked s1 w1 =>
    rw [hr] at key
    obtain ⟨v, k, hv⟩ := key
    refine ⟨?_, fun hx => by cases hx⟩
    simp only [Outcome.world]
    rw [hv]
    exact consecutive_range' v k
  | returned a s1 w1 =>
    rw [hr] at key
    obtain ⟨_, _, k3, ⟨k, hk, hs⟩, k5⟩ := key
    simp only [Outcome.world, Outcome.state]
    refine ⟨?_, fun _ => ⟨k3, ?_, ?_⟩⟩
    · rw [hs]
      exact consecutive_range' _ k
    · intro x hx
      rw [hs, List.mem_range'_1] at hx
      rw [k3]
      omega
    · intro i hi
      rw [k3]
      exact k5 i hi

set_option maxHeartbeats 4000000 in
/-- A frame, a resize to 800 x 600 and another frame after the startup on
`healthy`: every call returns, and the values signalled are 0, 1, 2, 3, 4. -/
theorem sample_session_returns :
    (sessionOf healthy zeroed 7 0 [.render 0, .resize 800 600, .render 0]).isReturned = true ∧
    signals (sessionOf healthy zeroed 7 0 [.render 0, .resize 800 600, .render 0]).world.trace
      = [0, 1, 2, 3, 4] := by
  unfold sessionOf
  simp only [runOps, Op.run]
  rw [bind_run, startup_healthy]
  constructor <;>
  simp [render, resize, buildCommands, waitForGpu, bind_run, pure_run, self, assign, affect,
    world, issue_run, fallible, Signal, SetEventOnCompletion, waitOn, blockUntil,
    ExecuteCommandLists, Present, reindexing, ResizeBuffers, GetCurrentBackBufferIndex,
    GetCompletedValue, GetDescriptorHandleIncrementSize, GetCPUDescriptorHandleForHeapStart,
    D3D_CHECK_RESULT, createRenderTargets, create, forLoop, SAFE_RELEASE,
    Env.hresult, FAILED, healthy, readyDevice, readyWorld, startupCalls, World.after,
    World.advance, World.log, World.submit, World.select, retireOps_zero, runUntil,
    GP_GRAPHICS_BACK_BUFFERS, Outcome.isReturned, Outcome.world, signals, signalValues, calls,
    store, uint64_t]

/-- Witness for C28: a frame, a resize and another frame after `initialize`, on
`healthy`, from fence values that are all 0. -/
theorem fence_signals_monotone_witness :
    (∀ t c, healthy.fails t c = false) ∧
    (∀ i, zeroed.fenceValues i
      + 2 * ([.render 0, .resize 800 600, .render 0] : List Op).length < 2 ^ 64) ∧
    Consecutive (signals
      (sessionOf healthy zeroed 7 0 [.render 0, .resize 800 600, .render 0]).world.trace) ∧
    ∀ x ∈ signals
        (sessionOf healthy zeroed 7 0 [.render 0, .resize 800 600, .render 0]).world.trace,
      x < (sessionOf healthy zeroed 7 0 [.render 0, .resize 800 600, .render 0]).state._fenceValues
        (sessionOf healthy zeroed 7 0
          [.render 0, .resize 800 600, .render 0]).state._backBufferIndex :=
  have hw : ∀ i, zeroed.fenceValues i
      + 2 * ([.render 0, .resize 800 600, .render 0] : List Op).length < 2 ^ 64 :=
    fun _ => by simp [zeroed]
  have h := fence_signals_monotone healthy zeroed 7 0 [.render 0, .resize 800 600, .render 0]
    (fun _ _ => rfl) hw
  ⟨fun _ _ => rfl, hw, h.1, (h.2 sample_session_returns.1).2.1⟩

/-! ## Frame pacing over a session -/

set_option maxRecDepth 4000 in
set_option maxHeartbeats 4000000 in
/-- C6, counterexample: the freshly constructed device with the fence value
`UINT64_MAX - 1` in slot 0 and 0 in slot 1, on `catchingUp`, where no call
fails, and three frames after `initialize` (`n = 3`, `K = 2`).  All the calls
return.  The value signalled after presenting frame 1 is `UINT64_MAX`; the
increment of line 248 then wraps, and the later frames signal 0, 1, 2 and 3.
The wait of frame 2 takes the fence to `UINT64_MAX`, the GPU then retires the
signals of 0 and 1, and the drain of frame 3 takes the fence to 2: when the
third call returns the completed value is 2, far below `UINT64_MAX`. -/
theorem frame_pacing_wraps :
    (∀ t c, catchingUp.fails t c = false) ∧
    GP_GRAPHICS_BACK_BUFFERS < ([0, 0, 0] : List ℚ).length ∧
    (session catchingUp nearWrap 7 0 [0, 0, 0]).isReturned = true ∧
    lastSignal (session catchingUp nearWrap 7 0 (([0, 0, 0] : List ℚ).take
      (([0, 0, 0] : List ℚ).length - GP_GRAPHICS_BACK_BUFFERS))).world.trace
      = some UINT64_MAX ∧
    (session catchingUp nearWrap 7 0 [0, 0, 0]).world.completed = 2 ∧
    ¬ UINT64_MAX ≤ (session catchingUp nearWrap 7 0 [0, 0, 0]).world.completed := by
  have h3 : (session catchingUp nearWrap 7 0 [0, 0, 0]).isReturned = true ∧
      (session catchingUp nearWrap 7 0 [0, 0, 0]).world.completed = 2 := by
    unfold session
    rw [bind_run, startup_nearWrap]
    constructor <;>
    simp [renderAll, render, buildCommands, waitForGpu, bind_run, pure_run, self, assign,
      affect, world, issue_run, fallible, Signal, SetEventOnCompletion, waitOn, blockUntil,
      ExecuteCommandLists, Present, reindexing, GetCurrentBackBufferIndex, GetCompletedValue,
      GetDescriptorHandleIncrementSize, GetCPUDescriptorHandleForHeapStart, D3D_CHECK_RESULT,
      Env.hresult, FAILED, healthy, catchingUp, nearWrapDevice, nearWrap, zeroed, readyDevice,
      readyWorld, startupCalls, World.after, World.advance, World.log, World.submit,
      World.select, retireOps_zero, retireOps, runUntil, GP_GRAPHICS_BACK_BUFFERS, store,
      uint64_t, UINT64_MAX, Outcome.isReturned, Outcome.world]
  have h1 : lastSignal (session catchingUp nearWrap 7 0 [0]).world.trace = some UINT64_MAX := by
    unfold session
    rw [bind_run, startup_nearWrap]
    simp [renderAll, render, buildCommands, waitForGpu, bind_run, pure_run, self, assign,
      affect, world, issue_run, fallible, Signal, SetEventOnCompletion, waitOn, blockUntil,
      ExecuteCommandLists, Present, reindexing, GetCurrentBackBufferIndex, GetCompletedValue,
      GetDescriptorHandleIncrementSize, GetCPUDescriptorHandleForHeapStart, D3D_CHECK_RESULT,
      Env.hresult, FAILED, healthy, catchingUp, nearWrapDevice, nearWrap, zeroed, readyDevice,
      readyWorld, startupCalls, World.after, World.advance, World.log, World.submit,
      World.select, retireOps_zero, retireOps, runUntil, GP_GRAPHICS_BACK_BUFFERS, store,
      uint64_t, UINT64_MAX, Outcome.world, lastSignal]
  have ht : ([0, 0, 0] : List ℚ).take (([0, 0, 0] : List ℚ).length - GP_GRAPHICS_BACK_BUFFERS)
      = [0] := by
    simp [GP_GRAPHICS_BACK_BUFFERS]
  refine ⟨fun _ _ => rfl, by decide, h3.1, ?_, h3.2, ?_⟩
  · rw [ht]
    exact h1
  · rw [h3.2]
    simp [UINT64_MAX]

/-- C6, amended: frame pacing, as long as no fence value wraps.  Take any
backend on which no call fails, and the session `initialize; render; ...;
render` with `n > K` render calls on the freshly constructed device whose
values in `_fenceValues` leave room below `2 ^ 64` for the two increments of
each frame.  If the `n`-th call returns, then the session cut after the
`(n-K)`-th render call returned too, the last value it passed to `Signal` (the
one signalled after presenting frame `n-K`) is some `v`, and when the `n`-th
call returns the fence's completed value is at least `v`. -/
theorem frame_pacing (e : Env) (u : Indeterminate) (window connection : Nat) (ts : List ℚ)
    (hf : ∀ t c, e.fails t c = false)
    (hw : ∀ i, u.fenceValues i + 2 * ts.length < 2 ^ 64)
    (hret : (session e u window connection ts).isReturned = true)
    (hn : GP_GRAPHICS_BACK_BUFFERS < ts.length) :
    (session e u window connection
      (ts.take (ts.length - GP_GRAPHICS_BACK_BUFFERS))).isReturned = true ∧
    ∃ v, lastSignal (session e u window connection
        (ts.take (ts.length - GP_GRAPHICS_BACK_BUFFERS))).world.trace = some v ∧
      v ≤ (session e u window connection ts).world.completed := by
  have hsplit : ts = ts.take (ts.length - GP_GRAPHICS_BACK_BUFFERS)
      ++ ts.drop (ts.length - GP_GRAPHICS_BACK_BUFFERS) := (List.take_append_drop _ _).symm
  generalize hl1 : ts.take (ts.length - GP_GRAPHICS_BACK_BUFFERS) = l1 at hsplit ⊢
  generalize hl2 : ts.drop (ts.length - GP_GRAPHICS_BACK_BUFFERS) = l2 at hsplit
  have hlen1 : l1 ≠ [] := by
    intro h
    rw [h] at hl1
    have := congrArg List.length hl1
    simp [GP_GRAPHICS_BACK_BUFFERS] at this hn
    omega
  have hlen2 : l2 ≠ [] := by
    intro h
    rw [h] at hl2
    have := congrArg List.length hl2
    simp [GP_GRAPHICS_BACK_BUFFERS] at this hn
    omega
  obtain ⟨d1, r1, rfl⟩ := List.exists_cons_of_ne_nil hlen1
  obtain ⟨d2, r2, rfl⟩ := List.exists_cons_of_ne_nil hlen2
  subst hsplit
  simp only [List.length_append, List.length_cons] at hw
  have hret2 := hret
  unfold session at hret2
  rw [bind_run] at hret2
  have h0 := post_and (startup_ok e window connection (GraphicsDirect3D.new u) World.start rfl hf)
    (startup_quiet e window connection (GraphicsDirect3D.new u) World.start rfl)
  unfold post at h0
  cases hinit : initializeDevice e window connection (GraphicsDirect3D.new u) World.start with
  | aborted s0 w0 => rw [hinit] at hret2; cases hret2
  | blocked s0 w0 => rw [hinit] at hret2; cases hret2
  | returned a s0 w0 =>
    rw [hinit] at hret2 h0
    simp only at hret2 h0
    obtain ⟨⟨_, k2, _, _, _, _, k7, _, k9⟩, kq, _⟩ := h0
    obtain ⟨q0, c0⟩ := k9 rfl
    have hbud : s0._fenceValues s0._backBufferIndex + 2 * (r1.length + 1 + (r2.length + 1))
        < 2 ^ 64 := by
      rw [kq]
      exact hw _
    have hflow0 : Flow 0 (s0._fenceValues s0._backBufferIndex) w0 := by
      refine ⟨Nat.zero_le _, ?_⟩
      rw [q0, c0]
      exact Nat.zero_le _
    rw [renderAll_append, bind_run] at hret2
    have p1 := renderAll_paced e hf r1 d1 s0 w0 0 k2 k7 hflow0 (by omega)
    unfold post at p1
    cases hj : renderAll e (d1 :: r1) s0 w0 with
    | aborted sJ wJ => rw [hj] at hret2; cases hret2
    | blocked sJ wJ => rw [hj] at hret2; cases hret2
    | returned a sJ wJ =>
      rw [hj] at hret2 p1
      simp only at hret2 p1
      obtain ⟨j1, j2, j3, j4, j5⟩ := p1
      have hflowJ : Flow (s0._fenceValues s0._backBufferIndex + 2 * r1.length)
          (sJ._fenceValues sJ._backBufferIndex) wJ := by
        rw [j3]; exact Flow.weaken j5 (le_refl _) (Nat.le_succ _)
      have p2 := renderAll_paced e hf r2 d2 sJ wJ _ j1 j2 hflowJ (by rw [j3]; omega)
      unfold post at p2
      cases hN : renderAll e (d2 :: r2) sJ wJ with
      | aborted sN wN => rw [hN] at hret2; cases hret2
      | blocked sN wN => rw [hN] at hret2; cases hret2
      | returned a sN wN =>
        rw [hN] at p2
        simp only at p2
        obtain ⟨_, _, _, _, n5⟩ := p2
        have eJ : session e u window connection (d1 :: r1) = .returned () sJ wJ := by
          unfold session
          rw [bind_run, hinit]
          exact hj
        have eN : session e u window connection (d1 :: r1 ++ d2 :: r2)
            = .returned () sN wN := by
          unfold session
          rw [bind_run, hinit]
          simp only
          rw [renderAll_append, bind_run, hj]
          exact hN
        rw [eJ, eN]
        refine ⟨rfl, _, j4, ?_⟩
        have := n5.1
        rw [j3] at this
        show _ ≤ wN.completed
        omega

/-- Three frames on `healthy` after startup all return. -/
theorem three_frames_return : (session healthy zeroed 7 0 [0, 0, 0]).isReturned = true := by
  unfold session
  rw [bind_run, startup_healthy]
  simp [renderAll, render, buildCommands, waitForGpu, bind_run, pure_run, self, assign, affect,
    world, issue_run, fallible, Signal, SetEventOnCompletion, waitOn, blockUntil,
    ExecuteCommandLists, Present, reindexing, GetCurrentBackBufferIndex, GetCompletedValue,
    GetDescriptorHandleIncrementSize, GetCPUDescriptorHandleForHeapStart, D3D_CHECK_RESULT,
    Env.hresult, FAILED, healthy, readyDevice, readyWorld, startupCalls, World.after,
    World.advance, World.log, World.submit, World.select, retireOps_zero, runUntil,
    GP_GRAPHICS_BACK_BUFFERS, Outcome.isReturned, uint64_t]

/-- Witness for C6: three frames on `healthy`, with two back buffers, from
fence values that are all 0. -/
theorem frame_pacing_witness :
    (∀ i, zeroed.fenceValues i + 2 * ([0, 0, 0] : List ℚ).length < 2 ^ 64) ∧
    GP_GRAPHICS_BACK_BUFFERS < ([0, 0, 0] : List ℚ).length ∧
    (session healthy zeroed 7 0 (([0, 0, 0] : List ℚ).take
      (([0, 0, 0] : List ℚ).length - GP_GRAPHICS_BACK_BUFFERS))).isReturned = true ∧
    ∃ v, lastSignal (session healthy zeroed 7 0 (([0, 0, 0] : List ℚ).take
        (([0, 0, 0] : List ℚ).length - GP_GRAPHICS_BACK_BUFFERS))).world.trace = some v ∧
      v ≤ (session healthy zeroed 7 0 [0, 0, 0]).world.completed :=
  have hw : ∀ i, zeroed.fenceValues i + 2 * ([0, 0, 0] : List ℚ).length < 2 ^ 64 :=
    fun _ => by simp [zeroed]
  ⟨hw, by decide, frame_pacing healthy zeroed 7 0 [0, 0, 0] (fun _ _ => rfl) hw
    three_frames_return (by decide)⟩

end gameplay
